import Mathlib

/-!
# Audio loaders of `media/audio/media_audio_loaders.cpp`

A shallow embedding of `Media::Player::Loaders`: the registry of per-type
loaders (`setupLoader`, `checkLoader`, `clear`), the decode pass `loadData`,
the packet queue fed by a playing video (`feedFromVideo`,
`forceToBufferVideo`, `videoSoundAdded`) and cancellation (`onCancel`).

The object's fields, the shared mixer and everything the object emits or
calls outside itself are carried in one explicit state, `World`.  Signals,
device calls and the other externally visible effects are appended, in
program order, to `World.log`.
-/

namespace Media.Player

/-! ## Data model -/

/-- Modelled from the spec: the declaration of `AudioMsgId::Type` is not among
the sources; the type of an id is one of Voice, Song, Video. -/
inductive AType where
  | voice
  | song
  | video
  deriving DecidableEq, Repr

/-- Modelled from the spec: the declaration of `AudioMsgId` is not among the
sources; an id is `{type, id, playId}` and two ids are equal iff all fields
match. -/
structure AudioMsgId where
  type : AType
  id : Nat
  playId : Nat
  deriving DecidableEq, Repr

/-- Modelled from the spec: the default-constructed (empty) `AudioMsgId`, as
left in a slot by `std::swap(result, _audio)` in `clear`; it names no source
and no play. -/
def AudioMsgId.empty : AudioMsgId := ⟨AType.voice, 0, 0⟩

/-- Modelled from the spec: the playback states of a track. -/
inductive State where
  | stopped
  | starting
  | playing
  | paused
  | resuming
  | stoppedAtStart
  | stoppedAtError
  | finished
  deriving DecidableEq, Repr

/-- The values of `SetupError` that the source assigns. -/
inductive SetupError where
  | setupErrorAtStart
  | setupErrorNotPlaying
  | setupErrorLoadedFull
  | setupNoErrorStarted
  deriving DecidableEq, Repr

/-- `AudioPlayerLoader::ReadResult`. -/
inductive ReadResult where
  | error
  | endOfFile
  | ok
  | wait
  deriving DecidableEq, Repr

/-- One future outcome of `readMore(samples, samplesCount)`: the result, the
bytes the call appends to `samples` and the amount it adds to
`samplesCount`. -/
structure ReadStep where
  res : ReadResult
  bytes : List Nat
  count : Int
  deriving DecidableEq, Repr

/-- A compressed packet (`FFMpeg::DataWrap`), opaque to this code. -/
abbrev Packet := Nat

/-- Modelled from the spec: the `Loader` capability (`AudioPlayerLoader` and its
two variants are not among the sources).  `check` is the identity/freshness
check against a track's source handle, `openOk` the result of `open` at a
position, `length` is `samplesCount()`, `reads` the outcomes of the coming
`readMore` calls (when they are used up the stream is exhausted and `readMore`
reports `EndOfFile`), `saved` the saved decoded samples with their count,
`force` the `forceToBuffer` flag, `packets` what `enqueuePackets` has
handed over. -/
structure Loader where
  child : Bool
  check : Nat → Nat → Bool
  openOk : Int → Bool
  length : Int
  frequency : Nat
  format : Nat
  reads : List ReadStep
  saved : Option (List Nat × Int)
  force : Bool
  packets : List Packet

/-- `Mixer::Track::state` (a `TrackState`), the fields the loaders touch. -/
structure TrackState where
  id : AudioMsgId
  state : State
  position : Int
  length : Int
  frequency : Nat
  deriving DecidableEq, Repr

/-- Modelled from the spec: `Mixer::Track`, the fields the loaders touch.
`videoData` is the external video-sound payload (`none` when it is null). -/
structure Track where
  state : TrackState
  file : Nat
  data : Nat
  videoData : Option Nat
  loading : Bool
  loaded : Bool
  format : Nat
  frequency : Nat
  bufferedPosition : Int
  bufferedLength : Int
  fadeStartPosition : Int
  bufferSamples : List (List Nat)
  samplesCount : List Int
  deriving DecidableEq, Repr

/-- Modelled from the spec: the concurrent playback slots the mixer keeps for
one type (`trackForType(type, i)` for `i` below `kTogetherLimit`, here the
length of `slots`) and the index of the current one, if any. -/
structure TypeTracks where
  slots : List Track
  current : Option Nat
  deriving DecidableEq, Repr

/-- Modelled from the spec: the shared mixer (`TrackRegistry`), one group of
playback slots per type. -/
structure Mixer where
  voice : TypeTracks
  song : TypeTracks
  video : TypeTracks
  deriving DecidableEq, Repr

/-- States of an OpenAL source as read by `alGetSourcei(AL_SOURCE_STATE)`. -/
inductive ALState where
  | initial
  | playing
  | paused
  | stopped
  deriving DecidableEq, Repr

/-- Calls made on the output device (OpenAL and the track's stream helpers). -/
inductive DeviceCall where
  | attachToDevice
  | trackStarted (type : AType)
  | setStoppedState (type : AType) (state : State)
  | ensureStreamCreated (type : AType)
  | getNotQueuedBufferIndex (type : AType)
  | alBufferData (type : AType) (index : Int) (format size frequency : Nat)
  | alSourceQueueBuffers (type : AType) (index : Int)
  | alGetSourcei (type : AType)
  | alSourcef (type : AType)
  | alSourcei (type : AType) (offset : Int)
  | alSourcePlay (type : AType)
  deriving DecidableEq, Repr

/-- What the object does that is visible outside it, in program order. -/
inductive Event where
  | error (id : AudioMsgId)
  | needToCheck
  | notifyCall
  | makeLoader (id : AudioMsgId) (child : Bool)
  | openLoader (id : AudioMsgId) (positionMs : Int)
  | enqueuePackets (id : AudioMsgId) (packets : List Packet)
  | freePacket (id : AudioMsgId) (packet : Packet)
  | loadDataCall (id : AudioMsgId)
  | device (call : DeviceCall)
  deriving DecidableEq, Repr

/-- The answers of the output device during one pass of `loadData`: the
successive results of `internal::audioCheckError()` (true when no error is
pending), the index `getNotQueuedBufferIndex()` returns, the source state
`alGetSourcei` reads and `internal::CheckAudioDeviceConnected()`. -/
structure DeviceEnv where
  startedOk : Bool
  bufferIndex : Int
  slotOk : Bool
  queueOk : Bool
  sourceState : ALState
  stateOk : Bool
  connected : Bool
  gainOk : Bool
  seekOk : Bool
  playOk : Bool
  deriving DecidableEq, Repr

/-- The surroundings of one call: the loader `std::make_unique<FFMpegLoader>`
builds for a file and data, the loader `std::make_unique<ChildFFMpegLoader>`
builds for a video-sound payload, and the device's answers to the pass
`loadData` runs for an id. -/
structure Env where
  fileLoader : Nat → Nat → Loader
  childLoader : Nat → Loader
  device : AudioMsgId → DeviceEnv

/-- The `Loaders` object (current ids, loaders, the queue fed by the video
thread and the force-set), the mixer (`none` when `mixer()` is null) and the
log of events. -/
structure World where
  audio : AudioMsgId
  song : AudioMsgId
  video : AudioMsgId
  audioLoader : Option Loader
  songLoader : Option Loader
  videoLoader : Option Loader
  fromVideoQueues : List (AudioMsgId × List Packet)
  fromVideoForceToBuffer : List AudioMsgId
  mixer : Option Mixer
  log : List Event

/-- The constant `kPlaybackBufferSize`. -/
def kPlaybackBufferSize : Nat := 256 * 1024

/-! ## The mixer -/

/-- The playback slots of a type. -/
def Mixer.tracks (m : Mixer) : AType → TypeTracks
  | AType.voice => m.voice
  | AType.song => m.song
  | AType.video => m.video

/-- Replaces the playback slots of a type. -/
def Mixer.setTracks (m : Mixer) (type : AType) (t : TypeTracks) : Mixer :=
  match type with
  | AType.voice => { m with voice := t }
  | AType.song => { m with song := t }
  | AType.video => { m with video := t }

/-- Modelled from the spec: `Mixer::trackForType(type)`, the current track of
the type, null when there is none. -/
def Mixer.trackForType (m : Mixer) (type : AType) : Option Track :=
  match (m.tracks type).current with
  | none => none
  | some i => (m.tracks type).slots[i]?

/-- A write through the pointer `trackForType(type)` returned. -/
def Mixer.modifyTrack (m : Mixer) (type : AType) (f : Track → Track) : Mixer :=
  match (m.tracks type).current with
  | none => m
  | some i =>
    m.setTracks type { m.tracks type with slots := (m.tracks type).slots.modify f i }

/-- A write through the track pointer held by the decode thread. -/
def World.modifyTrack (w : World) (type : AType) (f : Track → Track) : World :=
  { w with mixer := w.mixer.map (fun m => m.modifyTrack type f) }

/-- The track the pointer `mixer()->trackForType(type)` designates, if any. -/
def World.track (w : World) (type : AType) : Option Track :=
  w.mixer.bind (fun m => m.trackForType type)

/-- Appends one event to the log. -/
def World.emit (w : World) (e : Event) : World :=
  { w with log := w.log ++ [e] }

/-- The current id the object keeps for a type. -/
def World.currentId (w : World) : AType → AudioMsgId
  | AType.voice => w.audio
  | AType.song => w.song
  | AType.video => w.video

/-- The loader the object keeps for a type. -/
def World.loader (w : World) : AType → Option Loader
  | AType.voice => w.audioLoader
  | AType.song => w.songLoader
  | AType.video => w.videoLoader

/-- Sets the current id of a type. -/
def World.setCurrentId (w : World) (type : AType) (id : AudioMsgId) : World :=
  match type with
  | AType.voice => { w with audio := id }
  | AType.song => { w with song := id }
  | AType.video => { w with video := id }

/-- Sets the loader of a type. -/
def World.setLoader (w : World) (type : AType) (l : Option Loader) : World :=
  match type with
  | AType.voice => { w with audioLoader := l }
  | AType.song => { w with songLoader := l }
  | AType.video => { w with videoLoader := l }

/-! ## The registry -/

/-- `Loaders::clear`: swaps the current id of the type out against an empty
one, destroys the loader and returns the id. -/
def clear (type : AType) (w : World) : AudioMsgId × World :=
  match type with
  | AType.voice => (w.audio, { w with audio := AudioMsgId.empty, audioLoader := none })
  | AType.song => (w.song, { w with song := AudioMsgId.empty, songLoader := none })
  | AType.video => (w.video, { w with video := AudioMsgId.empty, videoLoader := none })

/-- `Loaders::emitError`: `emit error(clear(type))`. -/
def emitError (type : AType) (w : World) : World :=
  (clear type w).2.emit (Event.error (clear type w).1)

/-- The write `track->state.state = state`. -/
def Track.setState (state : State) (t : Track) : Track :=
  { t with state := { t.state with state := state } }

/-- Modelled from the spec: `Mixer::setStoppedState(track, state)`, the track
goes to the stopped state given (a call on the mixer, logged as such). -/
def setStoppedState (type : AType) (state : State) (w : World) : World :=
  (w.modifyTrack type (Track.setState state)).emit
    (Event.device (DeviceCall.setStoppedState type state))

/-- In `setupLoader`, `if (l && (!isGoodId || !l->check(track->file,
track->data))) { clear(audio.type()); l = nullptr; }`. -/
def dropStale (audio : AudioMsgId) (track : Track) (w : World) : World :=
  match w.loader audio.type with
  | none => w
  | some l =>
    if w.currentId audio.type ≠ audio ∨ l.check track.file track.data = false then
      (clear audio.type w).2
    else w

/-- In `setupLoader`, from `l->open(positionMs)` to `err = SetupNoErrorStarted`,
for the loader `l` just made. -/
def openNew (audio : AudioMsgId) (positionMs : Int) (l : Loader) (w : World) :
    Option Loader × SetupError × World :=
  if l.openOk positionMs = false then
    (none, SetupError.setupErrorAtStart,
      (w.emit (Event.openLoader audio positionMs)).modifyTrack audio.type
        (Track.setState State.stoppedAtStart))
  else if l.length ≤ 0 then
    (none, SetupError.setupErrorAtStart,
      (w.emit (Event.openLoader audio positionMs)).modifyTrack audio.type
        (Track.setState State.stoppedAtStart))
  else
    (some l, SetupError.setupNoErrorStarted,
      (w.emit (Event.openLoader audio positionMs)).modifyTrack audio.type
        (fun t => { t with state := { t.state with length := l.length, frequency := l.frequency } }))

/-- In `setupLoader`, the block `if (!l) { … }`: the id becomes current for its
type, a loader is made (from the video-sound payload, moved out of the track,
when the id has a play id, from file and data otherwise) and opened. -/
def newLoader (env : Env) (audio : AudioMsgId) (positionMs : Int) (track : Track)
    (w : World) : Option Loader × SetupError × World :=
  if audio.playId ≠ 0 then
    match track.videoData with
    | none =>
      (none, SetupError.setupErrorAtStart,
        (((clear audio.type (w.setCurrentId audio.type audio)).2.modifyTrack audio.type
          (Track.setState State.stoppedAtError)).emit (Event.error audio)))
    | some vd =>
      openNew audio positionMs (env.childLoader vd)
        (((((w.setCurrentId audio.type audio).setLoader audio.type
          (some (env.childLoader vd))).modifyTrack audio.type
            (fun t => { t with videoData := none })).emit (Event.makeLoader audio true)))
  else
    openNew audio positionMs (env.fileLoader track.file track.data)
      ((((w.setCurrentId audio.type audio).setLoader audio.type
        (some (env.fileLoader track.file track.data))).emit (Event.makeLoader audio false)))

/-- `Loaders::setupLoader`: the loader to decode `audio` with (the one the
object then holds for the type), the value left in `err`, and the state
afterwards. -/
def setupLoader (env : Env) (audio : AudioMsgId) (positionMs : Int) (w : World) :
    Option Loader × SetupError × World :=
  match w.mixer with
  | none => (none, SetupError.setupErrorAtStart, w)
  | some m =>
    match m.trackForType audio.type with
    | none => (none, SetupError.setupErrorNotPlaying, w.emit (Event.error audio))
    | some track =>
      if track.state.id ≠ audio ∨ track.loading = false then
        (none, SetupError.setupErrorNotPlaying, w.emit (Event.error audio))
      else
        match (dropStale audio track w).loader audio.type with
        | none => newLoader env audio positionMs track (dropStale audio track w)
        | some l =>
          if track.loaded then (none, SetupError.setupErrorLoadedFull, dropStale audio track w)
          else (some l, SetupError.setupErrorAtStart, dropStale audio track w)

/-- `Loaders::checkLoader`: the track of the type when the loader the object
holds still belongs to it (same id, still loading, `check` passes), null
otherwise.  The source reads `track->state.id` before it tests `track` for
null; a null track gives null here. -/
def checkLoader (type : AType) (w : World) : Option Track :=
  match w.mixer with
  | none => none
  | some m =>
    match w.loader type, m.trackForType type with
    | some l, some track =>
      if track.state.id ≠ w.currentId type ∨ track.loading = false
          ∨ l.check track.file track.data = false then none
      else some track
    | _, _ => none

/-! ## The decode pass -/

/-- How the `while` loop of `loadData` is left. -/
inductive LoopExit where
  | errorAtStart
  | changed
  | left (finished waiting : Bool)
  deriving DecidableEq, Repr

/-- The locals and the loader's decoding state when the loop is left. -/
structure LoopResult where
  exit : LoopExit
  samples : List Nat
  count : Int
  reads : List ReadStep
  saved : Option (List Nat × Int)
  deriving DecidableEq, Repr

/-- The loop `while (samples.size() < kPlaybackBufferSize)` of `loadData`, over
the outcomes `readMore` is going to give.  `saveDecodedSamples` swaps the
locals into the loader, leaving them empty. -/
def decodeLoop (type : AType) (w : World) (force : Bool) :
    List ReadStep → List Nat → Int → Bool → LoopResult
  | [], samples, count, _ =>
    if samples.length < kPlaybackBufferSize then
      ⟨LoopExit.left true false, samples, count, [], none⟩
    else ⟨LoopExit.left false false, samples, count, [], none⟩
  | s :: rest, samples, count, errAtStart =>
    if samples.length < kPlaybackBufferSize then
      match s.res with
      | ReadResult.error =>
        if errAtStart then
          ⟨LoopExit.errorAtStart, samples ++ s.bytes, count + s.count, rest, none⟩
        else ⟨LoopExit.left true false, samples ++ s.bytes, count + s.count, rest, none⟩
      | ReadResult.endOfFile =>
        ⟨LoopExit.left true false, samples ++ s.bytes, count + s.count, rest, none⟩
      | ReadResult.ok =>
        match checkLoader type w with
        | none => ⟨LoopExit.changed, samples ++ s.bytes, count + s.count, rest, none⟩
        | some _ => decodeLoop type w force rest (samples ++ s.bytes) (count + s.count) false
      | ReadResult.wait =>
        if (samples ++ s.bytes).length < kPlaybackBufferSize ∧ force = false then
          ⟨LoopExit.left false true, [], 0, rest, some (samples ++ s.bytes, count + s.count)⟩
        else ⟨LoopExit.left false false, samples ++ s.bytes, count + s.count, rest, none⟩
    else ⟨LoopExit.left false false, samples, count, s :: rest, none⟩

/-- The writes of the `if (started)` block of `loadData` to the track. -/
def Track.initStarted (l : Loader) (positionMs : Int) (t : Track) : Track :=
  { t with
    format := l.format
    frequency := l.frequency
    bufferedPosition := (positionMs * (l.frequency : Int)).tdiv 1000
    state := { t.state with position := (positionMs * (l.frequency : Int)).tdiv 1000 }
    fadeStartPosition := (positionMs * (l.frequency : Int)).tdiv 1000 }

/-- The writes of `loadData` to the buffer slot it fills. -/
def Track.store (index : Int) (samples : List Nat) (count : Int) (t : Track) : Track :=
  { t with
    bufferSamples := t.bufferSamples.set index.toNat samples
    samplesCount := t.samplesCount.set index.toNat count
    bufferedLength := t.bufferedLength + count }

/-- The writes of the `if (finished)` block of `loadData` to the track. -/
def Track.markLoaded (t : Track) : Track :=
  { t with
    loaded := true
    state := { t.state with length := t.bufferedPosition + t.bufferedLength } }

/-- The end of `loadData`: when the track is starting, resuming or playing,
the source is looked at and, unless it plays already, started. -/
def startPlayback (d : DeviceEnv) (type : AType) (track : Track) (w : World) : World :=
  if track.state.state = State.resuming ∨ track.state.state = State.playing
      ∨ track.state.state = State.starting then
    let w1 := w.emit (Event.device (DeviceCall.alGetSourcei type))
    if d.stateOk then
      if d.sourceState ≠ ALState.playing then
        if d.sourceState = ALState.stopped ∧ d.connected = false then w1
        else
          let w2 := w1.emit (Event.device (DeviceCall.alSourcef type))
          if d.gainOk = false then emitError type (setStoppedState type State.stoppedAtError w2)
          else
            let w3 :=
              if d.sourceState = ALState.stopped then
                w2.emit (Event.device (DeviceCall.alSourcei type
                  (max (track.state.position - track.bufferedPosition) 0)))
              else w2
            if d.sourceState = ALState.stopped ∧ d.seekOk = false then
              emitError type (setStoppedState type State.stoppedAtError w3)
            else
              let w4 := w3.emit (Event.device (DeviceCall.alSourcePlay type))
              if d.playOk = false then
                emitError type (setStoppedState type State.stoppedAtError w4)
              else w4.emit Event.needToCheck
      else w1
    else emitError type (setStoppedState type State.stoppedAtError w1)
  else w

/-- The part of `loadData` from `if (finished)` on; `track` is the value of
the track the pointer of the pass designates. -/
def finishPass (d : DeviceEnv) (type : AType) (finished : Bool) (track : Track)
    (w : World) : World :=
  let w1 := if finished then (clear type (w.modifyTrack type Track.markLoaded)).2 else w
  let track1 := if finished then track.markLoaded else track
  startPlayback d type { track1 with loading := false }
    (w1.modifyTrack type (fun t => { t with loading := false }))

/-- The part of `loadData` after the loop; `l` is the loader of the pass as
the loop left it (it is the one the object holds for the type).
`Track::started`, `ensureStreamCreated` and `getNotQueuedBufferIndex` are
calls on the device stream of the track, logged as such. -/
def afterLoop (d : DeviceEnv) (audio : AudioMsgId) (positionMs : Int)
    (started finished waiting : Bool) (l : Loader) (samples : List Nat) (count : Int)
    (w : World) : World :=
  match checkLoader audio.type w with
  | none => (clear audio.type w).2
  | some track =>
    let w1 :=
      if started then
        (w.emit (Event.device DeviceCall.attachToDevice)).emit
          (Event.device (DeviceCall.trackStarted audio.type))
      else w
    if started ∧ d.startedOk = false then
      emitError audio.type (setStoppedState audio.type State.stoppedAtStart w1)
    else
      let w2 := if started then w1.modifyTrack audio.type (Track.initStarted l positionMs) else w1
      let track2 := if started then track.initStarted l positionMs else track
      if count ≠ 0 then
        let w3 := (w2.emit (Event.device (DeviceCall.ensureStreamCreated audio.type))).emit
          (Event.device (DeviceCall.getNotQueuedBufferIndex audio.type))
        if d.slotOk = false then
          emitError audio.type (setStoppedState audio.type State.stoppedAtError w3)
        else if d.bufferIndex < 0 then
          w3.setLoader audio.type (some { l with saved := some (samples, count) })
        else
          let w4 := w3.setLoader audio.type (some { l with force := false })
          let w5 := w4.modifyTrack audio.type (Track.store d.bufferIndex samples count)
          let track5 := track2.store d.bufferIndex samples count
          let w6 := (w5.emit (Event.device (DeviceCall.alBufferData audio.type d.bufferIndex
            track5.format samples.length track5.frequency))).emit
              (Event.device (DeviceCall.alSourceQueueBuffers audio.type d.bufferIndex))
          if d.queueOk = false then
            emitError audio.type (setStoppedState audio.type State.stoppedAtError w6)
          else finishPass d audio.type finished track5 w6
      else if waiting then w2
      else finishPass d audio.type true track2 w2

/-- What the locals `samples` and `samplesCount` of `loadData` hold before the
loop: the saved decoded samples when the loader holds some
(`takeSavedDecodedSamples`), nothing otherwise. -/
def Loader.seed (l : Loader) : List Nat × Int :=
  match l.saved with
  | some s => s
  | none => ([], 0)

/-- `Loaders::loadData`. -/
def loadData (env : Env) (audio : AudioMsgId) (positionMs : Int) (w : World) : World :=
  match setupLoader env audio positionMs w with
  | (none, err, w1) =>
    if err = SetupError.setupErrorAtStart then emitError audio.type w1 else w1
  | (some l, err, w1) =>
    let started : Bool := err = SetupError.setupNoErrorStarted
    let r := decodeLoop audio.type w1 l.force l.reads l.seed.1 l.seed.2 started
    let l1 : Loader := { l with reads := r.reads, saved := r.saved }
    let w2 := w1.setLoader audio.type (some l1)
    match r.exit with
    | LoopExit.errorAtStart =>
      match checkLoader audio.type w2 with
      | some _ =>
        emitError audio.type (w2.modifyTrack audio.type (Track.setState State.stoppedAtStart))
      | none => emitError audio.type w2
    | LoopExit.changed => (clear audio.type w2).2
    | LoopExit.left finished waiting =>
      afterLoop (env.device audio) audio positionMs started finished waiting l1
        r.samples r.count w2

/-- `Loaders::onLoad`.  (Each call of `loadData` is logged where it is made;
`positionMs` is left to its default, taken to be 0.) -/
def onLoad (env : Env) (audio : AudioMsgId) (w : World) : World :=
  loadData env audio 0 (w.emit (Event.loadDataCall audio))

/-- `Loaders::onStart`. -/
def onStart (env : Env) (audio : AudioMsgId) (positionMs : Int) (w : World) : World :=
  let w1 := (clear audio.type w).2
  match w1.mixer with
  | none => w1
  | some m =>
    match m.trackForType audio.type with
    | none => w1
    | some _ =>
      loadData env audio positionMs
        ((w1.modifyTrack audio.type (fun t => { t with loading := true })).emit
          (Event.loadDataCall audio))

/-- `Loaders::onCancel`. -/
def onCancel (audio : AudioMsgId) (w : World) : World :=
  let w1 := if w.currentId audio.type = audio then (clear audio.type w).2 else w
  match w1.mixer with
  | none => w1
  | some m =>
    { w1 with mixer := some (m.setTracks audio.type
        { m.tracks audio.type with
          slots := (m.tracks audio.type).slots.map
            (fun t => if t.state.id = audio then { t with loading := false } else t) }) }

/-! ## The queue fed by the video thread -/

/-- `_fromVideoQueues[id].enqueue(packet)`: the packet goes to the end of the
queue of the id, which is created when the map has none.  (The map is kept as
a list of entries with distinct keys, in the order the keys came in.) -/
def enqueueFor (id : AudioMsgId) (packet : Packet) :
    List (AudioMsgId × List Packet) → List (AudioMsgId × List Packet)
  | [] => [(id, [packet])]
  | (k, ps) :: rest =>
    if k = id then (k, ps ++ [packet]) :: rest else (k, ps) :: enqueueFor id packet rest

/-- `Loaders::feedFromVideo`. -/
def feedFromVideo (audio : AudioMsgId) (packet : Packet) (w : World) : World :=
  let invoke := w.fromVideoQueues.isEmpty && w.fromVideoForceToBuffer.isEmpty
  let w1 := { w with fromVideoQueues := enqueueFor audio packet w.fromVideoQueues }
  if invoke then w1.emit Event.notifyCall else w1

/-- `Loaders::forceToBufferVideo`. -/
def forceToBufferVideo (audioId : AudioMsgId) (w : World) : World :=
  let invoke := w.fromVideoQueues.isEmpty && w.fromVideoForceToBuffer.isEmpty
  let w1 := { w with fromVideoForceToBuffer :=
    if audioId ∈ w.fromVideoForceToBuffer then w.fromVideoForceToBuffer
    else w.fromVideoForceToBuffer ++ [audioId] }
  if invoke then w1.emit Event.notifyCall else w1

/-- The test of `tryLoader` in `videoSoundAdded`: `audioId == id && loader`. -/
def slotMatches (w : World) (audioId : AudioMsgId) (type : AType) : Bool :=
  decide (w.currentId type = audioId) && (w.loader type).isSome

/-- The slot the chain `tryLoader(_audio, …) || tryLoader(_song, …) ||
tryLoader(_video, …)` stops at, if any. -/
def firstSlot (w : World) (audioId : AudioMsgId) : Option AType :=
  [AType.voice, AType.song, AType.video].find? (slotMatches w audioId)

/-- One turn of the loop over `forces` in `videoSoundAdded`. -/
def forceStep (env : Env) (queues : List (AudioMsgId × List Packet)) (audioId : AudioMsgId)
    (w : World) : World :=
  match firstSlot w audioId with
  | none => w
  | some type =>
    match w.loader type with
    | none => w
    | some l =>
      let w1 := w.setLoader type (some { l with force := true })
      if l.saved.isSome ∧ ¬ (∃ pair ∈ queues, pair.1 = audioId) then
        loadData env audioId 0 (w1.emit (Event.loadDataCall audioId))
      else w1

/-- One turn of the loop over `queues` in `videoSoundAdded`. -/
def queueStep (env : Env) (pair : AudioMsgId × List Packet) (w : World) : World :=
  match firstSlot w pair.1 with
  | none => { w with log := w.log ++ pair.2.map (Event.freePacket pair.1) }
  | some type =>
    match w.loader type with
    | none => { w with log := w.log ++ pair.2.map (Event.freePacket pair.1) }
    | some l =>
      let w1 := (w.setLoader type (some { l with packets := l.packets ++ pair.2 })).emit
        (Event.enqueuePackets pair.1 pair.2)
      if l.saved.isSome then loadData env pair.1 0 (w1.emit (Event.loadDataCall pair.1)) else w1

/-- `Loaders::videoSoundAdded`. -/
def videoSoundAdded (env : Env) (w : World) : World :=
  let queues := w.fromVideoQueues
  let forces := w.fromVideoForceToBuffer
  let w1 := { w with fromVideoQueues := [], fromVideoForceToBuffer := [] }
  let w2 := forces.foldl (fun acc audioId => forceStep env queues audioId acc) w1
  queues.foldl (fun acc pair => queueStep env pair acc) w2

/-- `Loaders::clearFromVideoQueue`. -/
def clearFromVideoQueue (w : World) : World :=
  { w with
    fromVideoQueues := []
    log := w.log ++ (w.fromVideoQueues.map
      (fun pair => pair.2.map (Event.freePacket pair.1))).flatten }

/-! ## Concrete states used to exercise the theorems -/

/-- A song id. -/
def songX : AudioMsgId := ⟨AType.song, 7, 0⟩

/-- The sound of a played video. -/
def videoX : AudioMsgId := ⟨AType.video, 5, 3⟩

/-- A track with nothing buffered. -/
def idleTrack (id : AudioMsgId) (loading loaded : Bool) : Track :=
  { state := ⟨id, State.starting, 0, 0, 0⟩
    file := 1
    data := 2
    videoData := none
    loading := loading
    loaded := loaded
    format := 0
    frequency := 0
    bufferedPosition := 0
    bufferedLength := 0
    fadeStartPosition := 0
    bufferSamples := [[], [], []]
    samplesCount := [0, 0, 0] }

/-- No playback slot at all. -/
def noTracks : TypeTracks := ⟨[], none⟩

/-- A mixer whose only track is the current track of the type of the id. -/
def mixerWith (t : Track) : Mixer :=
  (Mixer.mk noTracks noTracks noTracks).setTracks t.state.id.type ⟨[t], some 0⟩

/-- A loader that opens, holds `length` samples and gives the outcomes
`reads`. -/
def plainLoader (length : Int) (reads : List ReadStep) : Loader :=
  { child := false
    check := fun _ _ => true
    openOk := fun _ => true
    length := length
    frequency := 48000
    format := 1
    reads := reads
    saved := none
    force := false
    packets := [] }

/-- A device that answers every call without error and has slot 0 free. -/
def goodDevice : DeviceEnv :=
  { startedOk := true
    bufferIndex := 0
    slotOk := true
    queueOk := true
    sourceState := ALState.initial
    stateOk := true
    connected := true
    gainOk := true
    seekOk := true
    playOk := true }

/-- Surroundings in which every new loader is `l`. -/
def envWith (l : Loader) : Env :=
  { fileLoader := fun _ _ => l
    childLoader := fun _ => l
    device := fun _ => goodDevice }

/-- An object with no current id and no loader, over the mixer given. -/
def freshWorld (m : Option Mixer) : World :=
  { audio := AudioMsgId.empty
    song := AudioMsgId.empty
    video := AudioMsgId.empty
    audioLoader := none
    songLoader := none
    videoLoader := none
    fromVideoQueues := []
    fromVideoForceToBuffer := []
    mixer := m
    log := [] }

/-- The object over a mixer whose current song track is for `songX`, loading,
holding `l` as the loader for `songX`. -/
def songWorld (loaded : Bool) (l : Option Loader) : World :=
  { freshWorld (some (mixerWith (idleTrack songX true loaded))) with
    song := songX
    songLoader := l }

/-- The object with nothing current and no mixer, after three packets were fed
for `videoX`. -/
def threeFed : World :=
  feedFromVideo videoX 13 (feedFromVideo videoX 12 (feedFromVideo videoX 11 (freshWorld none)))

/-- The object holding `l` as the loader current for `videoX`, over a mixer
whose current video track is for `videoX` and loading. -/
def videoWorld (l : Loader) : World :=
  { freshWorld (some (mixerWith (idleTrack videoX true false))) with
    video := videoX
    videoLoader := some l }

/-- The object with nothing current, over a mixer whose current video track is
for `videoX` and loading, the video-sound payload not being there. -/
def videoNotReady : World :=
  freshWorld (some (mixerWith (idleTrack videoX true false)))

/-- Surroundings in which every new loader is `l` and the device fails when
the gain of the source is set. -/
def envGainFails (l : Loader) : Env :=
  { envWith l with device := fun _ => { goodDevice with gainOk := false } }

/-- The events logged on the way from state `w0` to state `w1`. -/
def newEvents (w0 w1 : World) : List Event :=
  w1.log.drop w0.log.length

/-- The events that dispose of a packet taken from the queue: it is handed to
a loader or freed. -/
def Event.handsPacket : Event → Bool
  | Event.enqueuePackets _ _ => true
  | Event.freePacket _ _ => true
  | _ => false

/-- What the video thread's queue is about: the queue, the force-set and the
packets disposed of so far. -/
def World.videoView (w : World) :
    List (AudioMsgId × List Packet) × List AudioMsgId × List Event :=
  (w.fromVideoQueues, w.fromVideoForceToBuffer, w.log.filter Event.handsPacket)

/-- The packets an event disposes of for an id. -/
def Event.packetsFor (id : AudioMsgId) : Event → List Packet
  | Event.enqueuePackets i ps => if i = id then ps else []
  | Event.freePacket i p => if i = id then [p] else []
  | _ => []

/-- The packets of an id disposed of in a log, in the order of the log. -/
def delivered (id : AudioMsgId) (log : List Event) : List Packet :=
  (log.map (Event.packetsFor id)).flatten

/-- The packets queued for an id. -/
def pending (id : AudioMsgId) (w : World) : List Packet :=
  match w.fromVideoQueues.lookup id with
  | some ps => ps
  | none => []

/-- A call of the video thread. -/
inductive Push where
  | feed (id : AudioMsgId) (packet : Packet)
  | force (id : AudioMsgId)
  deriving DecidableEq, Repr

/-- A call of the video thread, or a drain (`videoSoundAdded`) on the decode
thread. -/
inductive Op where
  | push (p : Push)
  | drain
  deriving DecidableEq, Repr

/-- The effect of a call of the video thread. -/
def Push.apply : Push → World → World
  | Push.feed id packet, w => feedFromVideo id packet w
  | Push.force id, w => forceToBufferVideo id w

/-- The effect of one operation. -/
def Op.apply (env : Env) : Op → World → World
  | Op.push p, w => p.apply w
  | Op.drain, w => videoSoundAdded env w

/-- A sequential run of operations. -/
def run (env : Env) : List Op → World → World
  | [], w => w
  | op :: ops, w => run env ops (op.apply env w)

/-- The packets fed for an id during a run, in feed order. -/
def fedFor (id : AudioMsgId) : List Op → List Packet
  | [] => []
  | Op.push (Push.feed i p) :: ops => if i = id then p :: fedFor id ops else fedFor id ops
  | _ :: ops => fedFor id ops

/-- The packets the successive drains of a run take out for an id,
concatenated. -/
def drainedFor (env : Env) (id : AudioMsgId) : List Op → World → List Packet
  | [], _ => []
  | Op.drain :: ops, w => pending id w ++ drainedFor env id ops (videoSoundAdded env w)
  | Op.push p :: ops, w => drainedFor env id ops (p.apply w)

/-- The size of the buffer an `alBufferData` call submits. -/
def Event.bufferSize : Event → Option Nat
  | Event.device (DeviceCall.alBufferData _ _ _ size _) => some size
  | _ => none

/-- The sizes of the buffers submitted to the device so far, in order. -/
def World.sizes (w : World) : List Nat :=
  w.log.filterMap Event.bufferSize

/-- The largest amount of bytes one of the coming `readMore` calls appends. -/
def maxChunk : List ReadStep → Nat
  | [] => 0
  | s :: rest => max s.bytes.length (maxChunk rest)

/-- A pass for `songX` whose new loader gives `chunk` at the first `readMore`. -/
def oneChunkPass (chunk : List Nat) : World :=
  loadData (envWith (plainLoader 100 [⟨ReadResult.ok, chunk, 1⟩])) songX 0
    (songWorld false none)

/-- A video track for `videoX`, not yet loading, whose video-sound payload is
there. -/
def readyVideoTrack : Track :=
  { idleTrack videoX false false with videoData := some 9 }

/-- A loader that opens and whose `readMore` reports `Wait` twice, appending
nothing, before it has data. -/
def waitingLoader : Loader :=
  plainLoader 100 [⟨ReadResult.wait, [], 0⟩, ⟨ReadResult.wait, [], 0⟩, ⟨ReadResult.ok, [1, 2], 1⟩]

/-- The object after `onStart(videoX, 0)` on a fresh object: the loader is made
and its first `readMore` reports `Wait`. -/
def startedWaiting : World :=
  onStart (envWith waitingLoader) videoX 0 (freshWorld (some (mixerWith readyVideoTrack)))

/-- The run of `startedWaiting` followed by `forceToBufferVideo(videoX)` and the
drain it wakes. -/
def forcedRun : World :=
  videoSoundAdded (envWith waitingLoader) (forceToBufferVideo videoX startedWaiting)

/-- The id an `error` signal carries. -/
def Event.errorId : Event → Option AudioMsgId
  | Event.error id => some id
  | _ => none

/-- The ids of the `error` signals emitted so far, in order. -/
def World.errors (w : World) : List AudioMsgId :=
  w.log.filterMap Event.errorId

/-- The buffer slots of a track, its buffered length and its loading and
loaded flags. -/
def Track.loadView (t : Track) : List (List Nat) × List Int × Int × Bool × Bool :=
  (t.bufferSamples, t.samplesCount, t.bufferedLength, t.loading, t.loaded)

/-- The bytes the steps of a script append, concatenated. -/
def bytesOf (steps : List ReadStep) : List Nat :=
  (steps.map ReadStep.bytes).flatten

/-- The amount the steps of a script add to `samplesCount`. -/
def countOf (steps : List ReadStep) : Int :=
  (steps.map ReadStep.count).sum

/-- The device reports no error at any of the checks of a pass. -/
def DeviceEnv.allOk (d : DeviceEnv) : Prop :=
  d.startedOk = true ∧ d.slotOk = true ∧ d.queueOk = true ∧ d.stateOk = true
    ∧ d.gainOk = true ∧ d.seekOk = true ∧ d.playOk = true

/-- Surroundings in which every new loader is `l` and the device reports an
error after `track->started()`. -/
def envStartFails (l : Loader) : Env :=
  { envWith l with device := fun _ => { goodDevice with startedOk := false } }

/-- Surroundings in which every new loader is `l` and no buffer slot of the
device is free. -/
def envNoFreeBuffer (l : Loader) : Env :=
  { envWith l with device := fun _ => { goodDevice with bufferIndex := -1 } }

/-- A pass for `songX` whose new loader decodes two bytes and then reports
`EndOfFile`, on a device that reports no error and has no free buffer slot. -/
def endedNoFreeBuffer : World :=
  loadData (envNoFreeBuffer (plainLoader 10
    [⟨ReadResult.ok, [1, 2], 1⟩, ⟨ReadResult.endOfFile, [], 0⟩])) songX 0 (songWorld false none)

/-- A loader that opens and whose `readMore` reports `Wait`, with nothing
decoded, and then `Error`. -/
def waitThenError : Loader :=
  plainLoader 100 [⟨ReadResult.wait, [], 0⟩, ⟨ReadResult.error, [], 0⟩]

/-- The object after `onStart(videoX, 0)` on a fresh object, the first
`readMore` of the new loader reporting `Wait`. -/
def waitedOnce : World :=
  onStart (envWith waitThenError) videoX 0 (freshWorld (some (mixerWith readyVideoTrack)))

/-- The run of `waitedOnce` followed by `onLoad(videoX)`, in which `readMore`
reports `Error`. -/
def thenFailed : World :=
  onLoad (envWith waitThenError) videoX waitedOnce

/-- The current id and the loader the object keeps for a type. -/
def World.slot (w : World) (ty : AType) : AudioMsgId × Option Loader :=
  (w.currentId ty, w.loader ty)

/-- Every slot that holds a loader holds an id of the slot's type.
(`setupLoader`, the one place that stores an id, stores `audio` in the slot of
`audio.type()`, and `clear` empties a slot together with its loader.) -/
def World.slotsTyped (w : World) : Prop :=
  ∀ ty, (w.loader ty).isSome = true → (w.currentId ty).type = ty

/-- The events that dispose of packets of the id: they are handed to a loader
or freed. -/
def Event.about (id : AudioMsgId) : Event → Bool
  | Event.enqueuePackets i _ => decide (i = id)
  | Event.freePacket i _ => decide (i = id)
  | _ => false

/-- The slots are typed and the slot of the type of `id` holds `id` with a
loader whose enqueued packets are `packets` and whose saved samples are
`saved`. -/
def World.holds (w : World) (id : AudioMsgId) (packets : List Packet)
    (saved : Option (List Nat × Int)) : Prop :=
  w.slotsTyped ∧ w.currentId id.type = id
    ∧ ∃ l, w.loader id.type = some l ∧ l.packets = packets ∧ l.saved = saved

/-- The object holding `l` as the loader current for `videoX`, after three
packets were fed for `videoX`. -/
def videoFed (l : Loader) : World :=
  feedFromVideo videoX 13 (feedFromVideo videoX 12 (feedFromVideo videoX 11 (videoWorld l)))

/-! ## Theorems -/

/-! ### What the elementary updates leave alone -/

@[simp] theorem emit_log (w : World) (e : Event) : (w.emit e).log = w.log ++ [e] := rfl

@[simp] theorem emit_mixer (w : World) (e : Event) : (w.emit e).mixer = w.mixer := rfl

@[simp] theorem emit_currentId (w : World) (e : Event) (ty : AType) :
    (w.emit e).currentId ty = w.currentId ty := by cases ty <;> rfl

@[simp] theorem emit_loader (w : World) (e : Event) (ty : AType) :
    (w.emit e).loader ty = w.loader ty := by cases ty <;> rfl

@[simp] theorem emit_queues (w : World) (e : Event) :
    (w.emit e).fromVideoQueues = w.fromVideoQueues := rfl

@[simp] theorem emit_forces (w : World) (e : Event) :
    (w.emit e).fromVideoForceToBuffer = w.fromVideoForceToBuffer := rfl

@[simp] theorem modifyTrack_log (w : World) (ty : AType) (f : Track → Track) :
    (w.modifyTrack ty f).log = w.log := rfl

@[simp] theorem modifyTrack_mixer (w : World) (ty : AType) (f : Track → Track) :
    (w.modifyTrack ty f).mixer = w.mixer.map (fun m => m.modifyTrack ty f) := rfl

@[simp] theorem modifyTrack_currentId (w : World) (ty ty2 : AType) (f : Track → Track) :
    (w.modifyTrack ty f).currentId ty2 = w.currentId ty2 := by cases ty2 <;> rfl

@[simp] theorem modifyTrack_loader (w : World) (ty ty2 : AType) (f : Track → Track) :
    (w.modifyTrack ty f).loader ty2 = w.loader ty2 := by cases ty2 <;> rfl

@[simp] theorem modifyTrack_queues (w : World) (ty : AType) (f : Track → Track) :
    (w.modifyTrack ty f).fromVideoQueues = w.fromVideoQueues := rfl

@[simp] theorem modifyTrack_forces (w : World) (ty : AType) (f : Track → Track) :
    (w.modifyTrack ty f).fromVideoForceToBuffer = w.fromVideoForceToBuffer := rfl

@[simp] theorem setCurrentId_log (w : World) (ty : AType) (id : AudioMsgId) :
    (w.setCurrentId ty id).log = w.log := by cases ty <;> rfl

@[simp] theorem setCurrentId_mixer (w : World) (ty : AType) (id : AudioMsgId) :
    (w.setCurrentId ty id).mixer = w.mixer := by cases ty <;> rfl

@[simp] theorem setCurrentId_currentId (w : World) (ty ty2 : AType) (id : AudioMsgId) :
    (w.setCurrentId ty id).currentId ty2 = if ty2 = ty then id else w.currentId ty2 := by
  cases ty <;> cases ty2 <;> rfl

@[simp] theorem setCurrentId_loader (w : World) (ty ty2 : AType) (id : AudioMsgId) :
    (w.setCurrentId ty id).loader ty2 = w.loader ty2 := by cases ty <;> cases ty2 <;> rfl

@[simp] theorem setCurrentId_queues (w : World) (ty : AType) (id : AudioMsgId) :
    (w.setCurrentId ty id).fromVideoQueues = w.fromVideoQueues := by cases ty <;> rfl

@[simp] theorem setCurrentId_forces (w : World) (ty : AType) (id : AudioMsgId) :
    (w.setCurrentId ty id).fromVideoForceToBuffer = w.fromVideoForceToBuffer := by
  cases ty <;> rfl

@[simp] theorem setLoader_log (w : World) (ty : AType) (l : Option Loader) :
    (w.setLoader ty l).log = w.log := by cases ty <;> rfl

@[simp] theorem setLoader_mixer (w : World) (ty : AType) (l : Option Loader) :
    (w.setLoader ty l).mixer = w.mixer := by cases ty <;> rfl

@[simp] theorem setLoader_currentId (w : World) (ty ty2 : AType) (l : Option Loader) :
    (w.setLoader ty l).currentId ty2 = w.currentId ty2 := by cases ty <;> cases ty2 <;> rfl

@[simp] theorem setLoader_loader (w : World) (ty ty2 : AType) (l : Option Loader) :
    (w.setLoader ty l).loader ty2 = if ty2 = ty then l else w.loader ty2 := by
  cases ty <;> cases ty2 <;> rfl

@[simp] theorem setLoader_queues (w : World) (ty : AType) (l : Option Loader) :
    (w.setLoader ty l).fromVideoQueues = w.fromVideoQueues := by cases ty <;> rfl

@[simp] theorem setLoader_forces (w : World) (ty : AType) (l : Option Loader) :
    (w.setLoader ty l).fromVideoForceToBuffer = w.fromVideoForceToBuffer := by
  cases ty <;> rfl

@[simp] theorem clear_fst (ty : AType) (w : World) : (clear ty w).1 = w.currentId ty := by
  cases ty <;> rfl

@[simp] theorem clear_log (ty : AType) (w : World) : (clear ty w).2.log = w.log := by
  cases ty <;> rfl

@[simp] theorem clear_mixer (ty : AType) (w : World) : (clear ty w).2.mixer = w.mixer := by
  cases ty <;> rfl

@[simp] theorem clear_currentId (ty ty2 : AType) (w : World) :
    (clear ty w).2.currentId ty2 = if ty2 = ty then AudioMsgId.empty else w.currentId ty2 := by
  cases ty <;> cases ty2 <;> rfl

@[simp] theorem clear_loader (ty ty2 : AType) (w : World) :
    (clear ty w).2.loader ty2 = if ty2 = ty then none else w.loader ty2 := by
  cases ty <;> cases ty2 <;> rfl

@[simp] theorem clear_queues (ty : AType) (w : World) :
    (clear ty w).2.fromVideoQueues = w.fromVideoQueues := by cases ty <;> rfl

@[simp] theorem clear_forces (ty : AType) (w : World) :
    (clear ty w).2.fromVideoForceToBuffer = w.fromVideoForceToBuffer := by cases ty <;> rfl

/-! ### The decode pass leaves the video thread's queue alone -/

@[simp] theorem emit_videoView (w : World) (e : Event) (h : e.handsPacket = false) :
    (w.emit e).videoView = w.videoView := by
  simp [World.videoView, List.filter_append, h]

@[simp] theorem modifyTrack_videoView (w : World) (ty : AType) (f : Track → Track) :
    (w.modifyTrack ty f).videoView = w.videoView := rfl

@[simp] theorem setCurrentId_videoView (w : World) (ty : AType) (id : AudioMsgId) :
    (w.setCurrentId ty id).videoView = w.videoView := by cases ty <;> rfl

@[simp] theorem setLoader_videoView (w : World) (ty : AType) (l : Option Loader) :
    (w.setLoader ty l).videoView = w.videoView := by cases ty <;> rfl

@[simp] theorem clear_videoView (ty : AType) (w : World) :
    (clear ty w).2.videoView = w.videoView := by cases ty <;> rfl

@[simp] theorem emitError_videoView (ty : AType) (w : World) :
    (emitError ty w).videoView = w.videoView := by
  simp [emitError, Event.handsPacket]

@[simp] theorem setStoppedState_videoView (ty : AType) (st : State) (w : World) :
    (setStoppedState ty st w).videoView = w.videoView := by
  simp [setStoppedState, Event.handsPacket]

@[simp] theorem dropStale_videoView (audio : AudioMsgId) (track : Track) (w : World) :
    (dropStale audio track w).videoView = w.videoView := by
  unfold dropStale
  split
  · rfl
  · split <;> simp

@[simp] theorem openNew_videoView (audio : AudioMsgId) (positionMs : Int) (l : Loader)
    (w : World) : (openNew audio positionMs l w).2.2.videoView = w.videoView := by
  unfold openNew
  split
  · simp [Event.handsPacket]
  · split <;> simp [Event.handsPacket]

@[simp] theorem newLoader_videoView (env : Env) (audio : AudioMsgId) (positionMs : Int)
    (track : Track) (w : World) :
    (newLoader env audio positionMs track w).2.2.videoView = w.videoView := by
  unfold newLoader
  split
  · split <;> simp [Event.handsPacket]
  · simp [Event.handsPacket]

@[simp] theorem setupLoader_videoView (env : Env) (audio : AudioMsgId) (positionMs : Int)
    (w : World) : (setupLoader env audio positionMs w).2.2.videoView = w.videoView := by
  unfold setupLoader
  split
  · rfl
  · split
    · simp [Event.handsPacket]
    · split
      · simp [Event.handsPacket]
      · split
        · simp
        · split <;> simp

@[simp] theorem startPlayback_videoView (d : DeviceEnv) (ty : AType) (track : Track)
    (w : World) : (startPlayback d ty track w).videoView = w.videoView := by
  unfold startPlayback
  split_ifs <;> simp [Event.handsPacket]

@[simp] theorem finishPass_videoView (d : DeviceEnv) (ty : AType) (finished : Bool)
    (track : Track) (w : World) : (finishPass d ty finished track w).videoView = w.videoView := by
  unfold finishPass
  cases finished <;> simp

@[simp] theorem afterLoop_videoView (d : DeviceEnv) (audio : AudioMsgId) (positionMs : Int)
    (started finished waiting : Bool) (l : Loader) (samples : List Nat) (count : Int)
    (w : World) :
    (afterLoop d audio positionMs started finished waiting l samples count w).videoView
      = w.videoView := by
  unfold afterLoop
  split
  · simp
  · cases started <;> simp only [] <;> split_ifs <;> simp [Event.handsPacket]

@[simp] theorem loadData_videoView (env : Env) (audio : AudioMsgId) (positionMs : Int)
    (w : World) : (loadData env audio positionMs w).videoView = w.videoView := by
  have h1 := setupLoader_videoView env audio positionMs w
  unfold loadData
  split
  · rename_i err w1 heq
    rw [heq] at h1
    simp only [] at h1
    split <;> simp [h1]
  · rename_i l err w1 heq
    rw [heq] at h1
    simp only [] at h1
    simp only []
    split
    · split <;> simp [h1]
    · simp [h1]
    · simp [h1]

/-! ### The queue -/

theorem lookup_enqueueFor (id k : AudioMsgId) (p : Packet)
    (q : List (AudioMsgId × List Packet)) :
    (match (enqueueFor k p q).lookup id with
      | some ps => ps
      | none => [])
      = (match q.lookup id with
        | some ps => ps
        | none => []) ++ (if k = id then [p] else []) := by
  induction q with
  | nil =>
    by_cases h : k = id
    · subst h
      simp [enqueueFor, List.lookup]
    · have h2 : (id == k) = false := by simpa using fun e => h e.symm
      simp [enqueueFor, List.lookup, h, h2]
  | cons hd tl ih =>
    obtain ⟨k2, ps⟩ := hd
    unfold enqueueFor
    by_cases h : k2 = k
    · subst h
      by_cases h2 : k2 = id
      · subst h2
        simp [List.lookup]
      · have h3 : (id == k2) = false := by simpa using fun e => h2 e.symm
        simp [List.lookup, h2, h3]
    · by_cases h2 : k2 = id
      · subst h2
        have h4 : ¬ k = k2 := fun e => h e.symm
        simp [List.lookup, h, h4]
      · have h3 : (id == k2) = false := by simpa using fun e => h2 e.symm
        simp only [if_neg h, List.lookup, h3]
        exact ih

theorem feed_queues (k : AudioMsgId) (p : Packet) (w : World) :
    (feedFromVideo k p w).fromVideoQueues = enqueueFor k p w.fromVideoQueues := by
  unfold feedFromVideo
  dsimp only
  split <;> rfl

theorem feed_forces (k : AudioMsgId) (p : Packet) (w : World) :
    (feedFromVideo k p w).fromVideoForceToBuffer = w.fromVideoForceToBuffer := by
  unfold feedFromVideo
  dsimp only
  split <;> rfl

theorem force_queues (k : AudioMsgId) (w : World) :
    (forceToBufferVideo k w).fromVideoQueues = w.fromVideoQueues := by
  unfold forceToBufferVideo
  dsimp only
  split <;> rfl

theorem force_forces (k : AudioMsgId) (w : World) :
    (forceToBufferVideo k w).fromVideoForceToBuffer
      = if k ∈ w.fromVideoForceToBuffer then w.fromVideoForceToBuffer
        else w.fromVideoForceToBuffer ++ [k] := by
  unfold forceToBufferVideo
  dsimp only
  split <;> rfl

theorem pending_feed (id k : AudioMsgId) (p : Packet) (w : World) :
    pending id (feedFromVideo k p w) = pending id w ++ (if k = id then [p] else []) := by
  unfold pending
  rw [feed_queues]
  exact lookup_enqueueFor id k p w.fromVideoQueues

theorem pending_force (id k : AudioMsgId) (w : World) :
    pending id (forceToBufferVideo k w) = pending id w := by
  unfold pending
  rw [force_queues]

theorem delivered_append (id : AudioMsgId) (l1 l2 : List Event) :
    delivered id (l1 ++ l2) = delivered id l1 ++ delivered id l2 := by
  simp [delivered]

theorem delivered_filter (id : AudioMsgId) (log : List Event) :
    delivered id (log.filter Event.handsPacket) = delivered id log := by
  induction log with
  | nil => rfl
  | cons e tl ih =>
    cases e <;> simp_all [delivered, List.filter_cons, Event.handsPacket, Event.packetsFor]

theorem delivered_free (id k : AudioMsgId) (ps : List Packet) :
    delivered id (ps.map (Event.freePacket k)) = if k = id then ps else [] := by
  induction ps with
  | nil => simp [delivered]
  | cons p tl ih =>
    have : delivered id (Event.freePacket k p :: tl.map (Event.freePacket k))
        = (if k = id then [p] else []) ++ delivered id (tl.map (Event.freePacket k)) := rfl
    rw [List.map_cons, this, ih]
    split_ifs <;> simp

theorem firstSlot_some (w : World) (id : AudioMsgId) (ty : AType)
    (h : firstSlot w id = some ty) : w.currentId ty = id ∧ ∃ l, w.loader ty = some l := by
  have h2 := List.find?_some h
  unfold slotMatches at h2
  simp only [Bool.and_eq_true, decide_eq_true_eq] at h2
  exact ⟨h2.1, Option.isSome_iff_exists.mp h2.2⟩

theorem forceStep_videoView (env : Env) (queues : List (AudioMsgId × List Packet))
    (id : AudioMsgId) (w : World) : (forceStep env queues id w).videoView = w.videoView := by
  unfold forceStep
  split
  · rfl
  · split
    · rfl
    · split <;> simp [Event.handsPacket]

theorem queueStep_videoView (env : Env) (pair : AudioMsgId × List Packet) (w : World) :
    (queueStep env pair w).videoView
      = (w.fromVideoQueues, w.fromVideoForceToBuffer,
          w.log.filter Event.handsPacket ++
            (if (firstSlot w pair.1).isSome then [Event.enqueuePackets pair.1 pair.2]
              else pair.2.map (Event.freePacket pair.1))) := by
  have hfree : ∀ ps : List Packet,
      (ps.map (Event.freePacket pair.1)).filter Event.handsPacket
        = ps.map (Event.freePacket pair.1) := by
    intro ps
    induction ps with
    | nil => rfl
    | cons p tl ih => simp [List.filter_cons, Event.handsPacket]
  unfold queueStep
  cases hs : firstSlot w pair.1 with
  | none => simp [World.videoView, List.filter_append, hfree]
  | some ty =>
    obtain ⟨_, l, hl⟩ := firstSlot_some w pair.1 ty hs
    simp only [hl]
    split
    · rw [loadData_videoView]
      simp [World.videoView, List.filter_append, Event.handsPacket]
    · simp [World.videoView, List.filter_append, Event.handsPacket]

theorem forcePass_videoView (env : Env) (queues : List (AudioMsgId × List Packet))
    (forces : List AudioMsgId) (w : World) :
    (forces.foldl (fun acc audioId => forceStep env queues audioId acc) w).videoView
      = w.videoView := by
  induction forces generalizing w with
  | nil => rfl
  | cons k tl ih => rw [List.foldl_cons, ih, forceStep_videoView]

theorem delivered_queueStep (env : Env) (id : AudioMsgId) (pair : AudioMsgId × List Packet)
    (w : World) :
    delivered id (queueStep env pair w).log
      = delivered id w.log ++ (if pair.1 = id then pair.2 else []) := by
  have h := congrArg (fun v => v.2.2) (queueStep_videoView env pair w)
  simp only [World.videoView] at h
  rw [← delivered_filter, h, delivered_append, delivered_filter]
  congr 1
  split
  · by_cases hk : pair.1 = id <;> simp [delivered, Event.packetsFor, hk]
  · exact delivered_free id pair.1 pair.2

theorem queuePass_view (env : Env) (id : AudioMsgId) (qs : List (AudioMsgId × List Packet))
    (w : World) :
    (qs.foldl (fun acc pair => queueStep env pair acc) w).fromVideoQueues = w.fromVideoQueues
      ∧ (qs.foldl (fun acc pair => queueStep env pair acc) w).fromVideoForceToBuffer
          = w.fromVideoForceToBuffer
      ∧ delivered id (qs.foldl (fun acc pair => queueStep env pair acc) w).log
          = delivered id w.log
            ++ (qs.map (fun pair => if pair.1 = id then pair.2 else [])).flatten := by
  induction qs generalizing w with
  | nil => simp
  | cons pair tl ih =>
    have h := queueStep_videoView env pair w
    have hq := congrArg (fun v => v.1) h
    have hf := congrArg (fun v => v.2.1) h
    simp only [World.videoView] at hq hf
    obtain ⟨i1, i2, i3⟩ := ih (queueStep env pair w)
    rw [List.foldl_cons]
    refine ⟨i1.trans hq, i2.trans hf, ?_⟩
    rw [i3, delivered_queueStep]
    simp [List.append_assoc]

theorem flatten_lookup (id : AudioMsgId) (qs : List (AudioMsgId × List Packet))
    (h : (qs.map Prod.fst).Nodup) :
    (qs.map (fun pair => if pair.1 = id then pair.2 else [])).flatten
      = (match qs.lookup id with
        | some ps => ps
        | none => []) := by
  induction qs with
  | nil => rfl
  | cons hd tl ih =>
    obtain ⟨k, ps⟩ := hd
    rw [List.map_cons, List.nodup_cons] at h
    by_cases hk : k = id
    · subst hk
      have hnil : ∀ l : List (AudioMsgId × List Packet), k ∉ l.map Prod.fst →
          (l.map (fun pair => if pair.1 = k then pair.2 else [])).flatten = [] := by
        intro l hl
        induction l with
        | nil => rfl
        | cons a t iht =>
          simp only [List.map_cons, List.mem_cons, not_or] at hl
          have ha : ¬ a.1 = k := fun e => hl.1 e.symm
          simp [ha, iht hl.2]
      simp [List.lookup, hnil tl h.1]
    · have h3 : (id == k) = false := by simpa using fun e => hk e.symm
      simp only [List.map_cons, List.flatten_cons, if_neg hk, List.nil_append, List.lookup, h3]
      exact ih h.2

theorem videoSoundAdded_queues (env : Env) (w : World) :
    (videoSoundAdded env w).fromVideoQueues = []
      ∧ (videoSoundAdded env w).fromVideoForceToBuffer = [] := by
  unfold videoSoundAdded
  dsimp only
  obtain ⟨h1, h2, _⟩ := queuePass_view env AudioMsgId.empty w.fromVideoQueues
    (w.fromVideoForceToBuffer.foldl
      (fun acc audioId => forceStep env w.fromVideoQueues audioId acc)
      { w with fromVideoQueues := [], fromVideoForceToBuffer := [] })
  have h := forcePass_videoView env w.fromVideoQueues w.fromVideoForceToBuffer
    { w with fromVideoQueues := [], fromVideoForceToBuffer := [] }
  have hq := congrArg (fun v => v.1) h
  have hf := congrArg (fun v => v.2.1) h
  simp only [World.videoView] at hq hf
  exact ⟨h1.trans hq, h2.trans hf⟩

theorem videoSoundAdded_delivered (env : Env) (id : AudioMsgId) (w : World)
    (hw : (w.fromVideoQueues.map Prod.fst).Nodup) :
    delivered id (videoSoundAdded env w).log = delivered id w.log ++ pending id w := by
  unfold videoSoundAdded
  dsimp only
  obtain ⟨_, _, h3⟩ := queuePass_view env id w.fromVideoQueues
    (w.fromVideoForceToBuffer.foldl
      (fun acc audioId => forceStep env w.fromVideoQueues audioId acc)
      { w with fromVideoQueues := [], fromVideoForceToBuffer := [] })
  have h := forcePass_videoView env w.fromVideoQueues w.fromVideoForceToBuffer
    { w with fromVideoQueues := [], fromVideoForceToBuffer := [] }
  have hl := congrArg (fun v => v.2.2) h
  simp only [World.videoView] at hl
  rw [h3, flatten_lookup id _ hw, ← delivered_filter, hl, delivered_filter]
  rfl

theorem pending_drain (env : Env) (id : AudioMsgId) (w : World) :
    pending id (videoSoundAdded env w) = [] := by
  unfold pending
  rw [(videoSoundAdded_queues env w).1]
  rfl

theorem drained_run (env : Env) (id : AudioMsgId) (ops : List Op) (w : World) :
    drainedFor env id ops w ++ pending id (run env ops w) = pending id w ++ fedFor id ops := by
  induction ops generalizing w with
  | nil => simp [drainedFor, run, fedFor]
  | cons op tl ih =>
    cases op with
    | drain =>
      simp only [drainedFor, run, fedFor, Op.apply, List.append_assoc]
      rw [ih, pending_drain]
      simp
    | push p =>
      cases p with
      | feed k pk =>
        simp only [drainedFor, run, fedFor, Op.apply, Push.apply]
        rw [ih, pending_feed]
        split_ifs <;> simp
      | force k =>
        simp only [drainedFor, run, fedFor, Op.apply, Push.apply]
        rw [ih, pending_force]

theorem push_log (p : Push) (w : World) :
    (p.apply w).log = w.log ++
      (if w.fromVideoQueues = [] ∧ w.fromVideoForceToBuffer = [] then [Event.notifyCall]
        else []) := by
  cases p with
  | feed k pk =>
    unfold Push.apply feedFromVideo
    by_cases h : w.fromVideoQueues = [] ∧ w.fromVideoForceToBuffer = []
    · simp [h.1, h.2]
    · rw [if_neg h]
      have h2 : (w.fromVideoQueues.isEmpty && w.fromVideoForceToBuffer.isEmpty) = false := by
        simpa [List.isEmpty_iff] using h
      simp [h2]
  | force k =>
    unfold Push.apply forceToBufferVideo
    by_cases h : w.fromVideoQueues = [] ∧ w.fromVideoForceToBuffer = []
    · simp [h.1, h.2]
    · rw [if_neg h]
      have h2 : (w.fromVideoQueues.isEmpty && w.fromVideoForceToBuffer.isEmpty) = false := by
        simpa [List.isEmpty_iff] using h
      simp [h2]

theorem push_busy (p : Push) (w : World) :
    ¬ ((p.apply w).fromVideoQueues = [] ∧ (p.apply w).fromVideoForceToBuffer = []) := by
  cases p with
  | feed k pk =>
    intro h
    have h1 := h.1
    simp only [Push.apply] at h1
    rw [feed_queues] at h1
    cases hq : w.fromVideoQueues with
    | nil => simp [hq, enqueueFor] at h1
    | cons hd tl =>
      obtain ⟨k2, ps⟩ := hd
      rw [hq] at h1
      unfold enqueueFor at h1
      split at h1 <;> simp at h1
  | force k =>
    intro h
    have h2 := h.2
    simp only [Push.apply] at h2
    rw [force_forces] at h2
    split at h2
    · rename_i hm
      rw [h2] at hm
      simp at hm
    · simp at h2

theorem busy_run (env : Env) (pushes : List Push) (w : World)
    (h : ¬ (w.fromVideoQueues = [] ∧ w.fromVideoForceToBuffer = [])) :
    (run env (pushes.map Op.push) w).log = w.log := by
  induction pushes generalizing w with
  | nil => rfl
  | cons p tl ih =>
    simp only [List.map_cons, run, Op.apply]
    rw [ih (p.apply w) (push_busy p w), push_log, if_neg h]
    simp

theorem firstSlot_log (w : World) (id : AudioMsgId) (log : List Event) :
    firstSlot { w with log := log } id = firstSlot w id := rfl

theorem freePass (env : Env) (qs : List (AudioMsgId × List Packet)) (w : World)
    (h : ∀ pair ∈ qs, firstSlot w pair.1 = none) :
    qs.foldl (fun acc pair => queueStep env pair acc) w
      = { w with log := w.log
            ++ (qs.map (fun pair => pair.2.map (Event.freePacket pair.1))).flatten } := by
  induction qs generalizing w with
  | nil => simp
  | cons pair tl ih =>
    have h1 : queueStep env pair w
        = { w with log := w.log ++ pair.2.map (Event.freePacket pair.1) } := by
      unfold queueStep
      rw [h pair (List.mem_cons_self _ _)]
    rw [List.foldl_cons, h1, ih]
    · simp [List.append_assoc]
    · intro q hq
      rw [firstSlot_log]
      exact h q (List.mem_cons_of_mem _ hq)

theorem forcePass_idle (env : Env) (queues : List (AudioMsgId × List Packet))
    (forces : List AudioMsgId) (w : World) (h : ∀ k ∈ forces, firstSlot w k = none) :
    forces.foldl (fun acc audioId => forceStep env queues audioId acc) w = w := by
  induction forces with
  | nil => rfl
  | cons k tl ih =>
    have h1 : forceStep env queues k w = w := by
      unfold forceStep
      rw [h k (List.mem_cons_self _ _)]
    rw [List.foldl_cons, h1]
    exact ih (fun q hq => h q (List.mem_cons_of_mem _ hq))

/-- A loader that is the one for the id and passes `check` is kept. -/
theorem dropStale_valid (audio : AudioMsgId) (track : Track) (w : World) (l : Loader)
    (hcur : w.currentId audio.type = audio) (hldr : w.loader audio.type = some l)
    (hchk : l.check track.file track.data = true) : dropStale audio track w = w := by
  unfold dropStale
  simp [hldr, hcur, hchk]

@[simp] theorem dropStale_log (audio : AudioMsgId) (track : Track) (w : World) :
    (dropStale audio track w).log = w.log := by
  unfold dropStale
  split
  · rfl
  · split <;> simp

@[simp] theorem dropStale_mixer (audio : AudioMsgId) (track : Track) (w : World) :
    (dropStale audio track w).mixer = w.mixer := by
  unfold dropStale
  split
  · rfl
  · split <;> simp

@[simp] theorem openNew_log (audio : AudioMsgId) (positionMs : Int) (l : Loader) (w : World) :
    (openNew audio positionMs l w).2.2.log = w.log ++ [Event.openLoader audio positionMs] := by
  unfold openNew
  split
  · simp
  · split <;> simp

/-- A loader comes out of `openNew` only with `SetupNoErrorStarted`. -/
theorem openNew_some (audio : AudioMsgId) (positionMs : Int) (l : Loader) (w : World)
    (l2 : Loader) (h : (openNew audio positionMs l w).1 = some l2) :
    (openNew audio positionMs l w).2.1 = SetupError.setupNoErrorStarted ∧ l2 = l := by
  unfold openNew at h ⊢
  by_cases ho : l.openOk positionMs = false
  · simp [ho] at h
  · by_cases hlen : l.length ≤ 0
    · simp [ho, hlen] at h
    · simp [ho, hlen] at h ⊢
      exact h.symm

/-- When `newLoader` returns a loader, `err` is `SetupNoErrorStarted` and the
log has grown by the making and the opening of that loader. -/
theorem newLoader_some (env : Env) (audio : AudioMsgId) (positionMs : Int) (track : Track)
    (w : World) (l2 : Loader) (h : (newLoader env audio positionMs track w).1 = some l2) :
    (newLoader env audio positionMs track w).2.1 = SetupError.setupNoErrorStarted
      ∧ (newLoader env audio positionMs track w).2.2.log
        = w.log ++ [Event.makeLoader audio (decide (audio.playId ≠ 0)),
            Event.openLoader audio positionMs] := by
  unfold newLoader at h ⊢
  by_cases hp : audio.playId ≠ 0
  · rw [if_pos hp] at h ⊢
    cases hv : track.videoData with
    | none => simp [hv] at h
    | some vd =>
      simp only [hv] at h ⊢
      exact ⟨(openNew_some _ _ _ _ _ h).1, by simp [hp]⟩
  · rw [if_neg hp] at h ⊢
    exact ⟨(openNew_some _ _ _ _ _ h).1, by simp [hp]⟩

/-- The track of `mixerWith t` for the type of its id is `t`. -/
theorem mixerWith_trackForType (t : Track) :
    (mixerWith t).trackForType t.state.id.type = some t := by
  unfold mixerWith Mixer.trackForType
  generalize t.state.id.type = ty
  cases ty <;> rfl

/-! ### The sizes of the buffers submitted -/

@[simp] theorem emit_sizes (w : World) (e : Event) (h : e.bufferSize = none) :
    (w.emit e).sizes = w.sizes := by
  simp [World.sizes, List.filterMap_append, h]

@[simp] theorem modifyTrack_sizes (w : World) (ty : AType) (f : Track → Track) :
    (w.modifyTrack ty f).sizes = w.sizes := rfl

@[simp] theorem setCurrentId_sizes (w : World) (ty : AType) (id : AudioMsgId) :
    (w.setCurrentId ty id).sizes = w.sizes := by cases ty <;> rfl

@[simp] theorem setLoader_sizes (w : World) (ty : AType) (l : Option Loader) :
    (w.setLoader ty l).sizes = w.sizes := by cases ty <;> rfl

@[simp] theorem clear_sizes (ty : AType) (w : World) : (clear ty w).2.sizes = w.sizes := by
  cases ty <;> rfl

@[simp] theorem emitError_sizes (ty : AType) (w : World) : (emitError ty w).sizes = w.sizes := by
  simp [emitError, Event.bufferSize]

@[simp] theorem setStoppedState_sizes (ty : AType) (st : State) (w : World) :
    (setStoppedState ty st w).sizes = w.sizes := by
  simp [setStoppedState, Event.bufferSize]

@[simp] theorem dropStale_sizes (audio : AudioMsgId) (track : Track) (w : World) :
    (dropStale audio track w).sizes = w.sizes := by
  unfold World.sizes
  rw [dropStale_log]

@[simp] theorem openNew_sizes (audio : AudioMsgId) (positionMs : Int) (l : Loader)
    (w : World) : (openNew audio positionMs l w).2.2.sizes = w.sizes := by
  unfold World.sizes
  rw [openNew_log]
  simp [List.filterMap_append, Event.bufferSize]

@[simp] theorem newLoader_sizes (env : Env) (audio : AudioMsgId) (positionMs : Int)
    (track : Track) (w : World) :
    (newLoader env audio positionMs track w).2.2.sizes = w.sizes := by
  unfold newLoader
  split
  · split <;> simp [Event.bufferSize]
  · simp [Event.bufferSize]

@[simp] theorem setupLoader_sizes (env : Env) (audio : AudioMsgId) (positionMs : Int)
    (w : World) : (setupLoader env audio positionMs w).2.2.sizes = w.sizes := by
  unfold setupLoader
  split
  · rfl
  · split
    · simp [Event.bufferSize]
    · split
      · simp [Event.bufferSize]
      · split
        · simp
        · split <;> simp

@[simp] theorem startPlayback_sizes (d : DeviceEnv) (ty : AType) (track : Track)
    (w : World) : (startPlayback d ty track w).sizes = w.sizes := by
  unfold startPlayback
  split_ifs <;> simp [Event.bufferSize]

@[simp] theorem finishPass_sizes (d : DeviceEnv) (ty : AType) (finished : Bool)
    (track : Track) (w : World) : (finishPass d ty finished track w).sizes = w.sizes := by
  unfold finishPass
  cases finished <;> simp

/-- The part of `loadData` after the loop submits nothing, or the working
buffer once. -/
theorem afterLoop_sizes (d : DeviceEnv) (audio : AudioMsgId) (positionMs : Int)
    (started finished waiting : Bool) (l : Loader) (samples : List Nat) (count : Int)
    (w : World) :
    (afterLoop d audio positionMs started finished waiting l samples count w).sizes = w.sizes
      ∨ (afterLoop d audio positionMs started finished waiting l samples count w).sizes
          = w.sizes ++ [samples.length] := by
  have hsub : ∀ (w0 : World) (i : Int) (f fr : Nat),
      ((w0.emit (Event.device (DeviceCall.alBufferData audio.type i f samples.length fr))).emit
        (Event.device (DeviceCall.alSourceQueueBuffers audio.type i))).sizes
        = w0.sizes ++ [samples.length] := by
    intro w0 i f fr
    simp [World.sizes, List.filterMap_append, Event.bufferSize]
  unfold afterLoop
  split
  · left
    simp
  · dsimp only
    by_cases hst : started = true ∧ d.startedOk = false
    · left
      rw [if_pos hst]
      cases started <;> simp [Event.bufferSize]
    · rw [if_neg hst]
      by_cases hc : count ≠ 0
      · rw [if_pos hc]
        by_cases hslot : d.slotOk = false
        · left
          rw [if_pos hslot]
          cases started <;> simp [Event.bufferSize]
        · rw [if_neg hslot]
          by_cases hidx : d.bufferIndex < 0
          · left
            rw [if_pos hidx]
            cases started <;> simp [Event.bufferSize]
          · right
            rw [if_neg hidx]
            by_cases hq : d.queueOk = false
            · rw [if_pos hq]
              cases started <;> simp [hsub, Event.bufferSize]
            · rw [if_neg hq]
              cases started <;> simp [hsub, Event.bufferSize]
      · left
        rw [if_neg hc]
        cases waiting <;> cases started <;> simp [Event.bufferSize]

/-- With the device in order, samples to submit and a free slot, the part of
`loadData` after the loop submits the working buffer. -/
theorem afterLoop_submits (d : DeviceEnv) (audio : AudioMsgId) (positionMs : Int)
    (started finished waiting : Bool) (l : Loader) (samples : List Nat) (count : Int)
    (w : World) (hck : (checkLoader audio.type w).isSome = true) (hok : d.startedOk = true)
    (hc : count ≠ 0) (hslot : d.slotOk = true) (hidx : ¬ d.bufferIndex < 0) :
    (afterLoop d audio positionMs started finished waiting l samples count w).sizes
      = w.sizes ++ [samples.length] := by
  obtain ⟨t, ht⟩ := Option.isSome_iff_exists.mp hck
  have hsub : ∀ (w0 : World) (i : Int) (f fr : Nat),
      ((w0.emit (Event.device (DeviceCall.alBufferData audio.type i f samples.length fr))).emit
        (Event.device (DeviceCall.alSourceQueueBuffers audio.type i))).sizes
        = w0.sizes ++ [samples.length] := by
    intro w0 i f fr
    simp [World.sizes, List.filterMap_append, Event.bufferSize]
  unfold afterLoop
  simp only [ht]
  have hst : ¬ (started = true ∧ d.startedOk = false) := by simp [hok]
  have hslot2 : ¬ d.slotOk = false := by simp [hslot]
  rw [if_neg hst, if_pos hc, if_neg hslot2, if_neg hidx]
  by_cases hq : d.queueOk = false
  · rw [if_pos hq]
    cases started <;> simp [hsub, Event.bufferSize]
  · rw [if_neg hq]
    cases started <;> simp [hsub, Event.bufferSize]

/-- How `loadData` goes on when `setupLoader` gave a loader and the loop was
left in the ordinary way. -/
theorem loadData_of_setup (env : Env) (audio : AudioMsgId) (positionMs : Int) (w : World)
    (l : Loader) (err : SetupError) (w1 : World)
    (hs : setupLoader env audio positionMs w = (some l, err, w1)) (r : LoopResult)
    (hr : decodeLoop audio.type w1 l.force l.reads l.seed.1 l.seed.2
      (decide (err = SetupError.setupNoErrorStarted)) = r)
    (finished waiting : Bool) (hexit : r.exit = LoopExit.left finished waiting) :
    loadData env audio positionMs w
      = afterLoop (env.device audio) audio positionMs
          (decide (err = SetupError.setupNoErrorStarted)) finished waiting
          { l with reads := r.reads, saved := r.saved } r.samples r.count
          (w1.setLoader audio.type (some { l with reads := r.reads, saved := r.saved })) := by
  subst hr
  unfold loadData
  rw [hs]
  simp only [hexit]

/-- The loop leaves a buffer that is the one it started from or is below the
budget plus the largest amount one `readMore` call appends. -/
theorem decodeLoop_samples (ty : AType) (w : World) (force : Bool) (reads : List ReadStep) :
    ∀ (samples : List Nat) (count : Int) (errAtStart : Bool),
      (decodeLoop ty w force reads samples count errAtStart).samples.length
        ≤ max samples.length (kPlaybackBufferSize - 1 + maxChunk reads) := by
  induction reads with
  | nil =>
    intro samples count errAtStart
    unfold decodeLoop
    split <;> simp
  | cons s rest ih =>
    intro samples count errAtStart
    unfold decodeLoop
    have hm : maxChunk (s :: rest) = max s.bytes.length (maxChunk rest) := rfl
    by_cases hlt : samples.length < kPlaybackBufferSize
    · rw [if_pos hlt]
      have hbig : (samples ++ s.bytes).length
          ≤ max samples.length (kPlaybackBufferSize - 1 + maxChunk (s :: rest)) := by
        rw [List.length_append, hm]
        omega
      cases hres : s.res with
      | error =>
        simp only []
        split <;> exact hbig
      | endOfFile => exact hbig
      | ok =>
        simp only []
        split
        · exact hbig
        · have h2 := ih (samples ++ s.bytes) (count + s.count) false
          rw [List.length_append] at h2
          rw [hm]
          omega
      | wait =>
        simp only []
        split
        · simp
        · exact hbig
    · rw [if_neg hlt]
      simp

/-- Once the working buffer has reached the budget the loop makes no
`readMore` call. -/
theorem decodeLoop_full (ty : AType) (w : World) (force : Bool) (reads : List ReadStep)
    (samples : List Nat) (count : Int) (errAtStart : Bool)
    (h : kPlaybackBufferSize ≤ samples.length) :
    decodeLoop ty w force reads samples count errAtStart
      = ⟨LoopExit.left false false, samples, count, reads, none⟩ := by
  cases reads with
  | nil =>
    unfold decodeLoop
    rw [if_neg (Nat.not_lt.mpr h)]
  | cons s rest =>
    unfold decodeLoop
    rw [if_neg (Nat.not_lt.mpr h)]

/-- The first guard of `setupLoader`. -/
theorem setupLoader_guard (env : Env) (audio : AudioMsgId) (positionMs : Int)
    (w : World) (m : Mixer) (hm : w.mixer = some m)
    (h : ∀ t, m.trackForType audio.type = some t → t.state.id ≠ audio ∨ t.loading = false) :
    setupLoader env audio positionMs w
      = (none, SetupError.setupErrorNotPlaying, w.emit (Event.error audio)) := by
  unfold setupLoader
  simp only [hm]
  cases ht : m.trackForType audio.type with
  | none => rfl
  | some t => simp only [if_pos (h t ht)]

theorem tracks_setTracks (m : Mixer) (ty : AType) (x : TypeTracks) :
    (m.setTracks ty x).tracks ty = x := by
  cases ty <;> rfl

theorem trackForType_modifyTrack (m : Mixer) (ty : AType) (f : Track → Track) :
    (m.modifyTrack ty f).trackForType ty = (m.trackForType ty).map f := by
  unfold Mixer.modifyTrack Mixer.trackForType
  cases hc : (m.tracks ty).current with
  | none => simp [hc]
  | some i => simp [hc, tracks_setTracks]

@[simp] theorem track_modifyTrack (w : World) (ty : AType) (f : Track → Track) :
    (w.modifyTrack ty f).track ty = (w.track ty).map f := by
  unfold World.track World.modifyTrack
  cases w.mixer with
  | none => rfl
  | some m => simp [trackForType_modifyTrack]

@[simp] theorem track_emit (w : World) (e : Event) (ty : AType) :
    (w.emit e).track ty = w.track ty := rfl

@[simp] theorem track_setCurrentId (w : World) (ty ty2 : AType) (id : AudioMsgId) :
    (w.setCurrentId ty id).track ty2 = w.track ty2 := by cases ty <;> rfl

@[simp] theorem track_setLoader (w : World) (ty ty2 : AType) (l : Option Loader) :
    (w.setLoader ty l).track ty2 = w.track ty2 := by cases ty <;> rfl

@[simp] theorem track_clear (ty ty2 : AType) (w : World) :
    (clear ty w).2.track ty2 = w.track ty2 := by cases ty <;> rfl

@[simp] theorem track_dropStale (audio : AudioMsgId) (track : Track) (w : World) (ty : AType) :
    (dropStale audio track w).track ty = w.track ty := by
  unfold World.track
  rw [dropStale_mixer]

/-- After `onCancel(audio)` the current track of the type is for another id or
is not loading. -/
theorem onCancel_track (audio : AudioMsgId) (w : World) (m : Mixer) (t : Track)
    (hm : (onCancel audio w).mixer = some m) (ht : m.trackForType audio.type = some t) :
    t.state.id ≠ audio ∨ t.loading = false := by
  unfold onCancel at hm
  dsimp only at hm
  split at hm
  · rename_i hnone
    rw [hnone] at hm
    cases hm
  · rename_i m0 _
    simp only [Option.some.injEq] at hm
    subst hm
    unfold Mixer.trackForType at ht
    rw [tracks_setTracks] at ht
    dsimp only at ht
    split at ht
    · cases ht
    · rename_i i _
      rw [List.getElem?_map] at ht
      cases hs : (m0.tracks audio.type).slots[i]? with
      | none =>
        rw [hs] at ht
        cases ht
      | some t0 =>
        rw [hs] at ht
        simp only [Option.map_some', Option.some.injEq] at ht
        subst ht
        by_cases hid : t0.state.id = audio
        · right
          simp [hid]
        · left
          simp [hid]

theorem onCancel_mixer_none (audio : AudioMsgId) (w : World) (h : w.mixer = none) :
    (onCancel audio w).mixer = none := by
  unfold onCancel
  dsimp only
  have h1 : (if w.currentId audio.type = audio then (clear audio.type w).2 else w).mixer
      = none := by
    split <;> simp [h]
  simp only [h1]

theorem onCancel_mixer_some (audio : AudioMsgId) (w : World) (m : Mixer)
    (h : w.mixer = some m) : ∃ m2, (onCancel audio w).mixer = some m2 := by
  unfold onCancel
  dsimp only
  have h1 : (if w.currentId audio.type = audio then (clear audio.type w).2 else w).mixer
      = some m := by
    split <;> simp [h]
  simp only [h1]
  exact ⟨_, rfl⟩

/-- A loader that is not the one for the id and source is dropped. -/
theorem dropStale_stale (audio : AudioMsgId) (track : Track) (w : World)
    (hnew : ∀ l0, w.loader audio.type = some l0 →
      w.currentId audio.type ≠ audio ∨ l0.check track.file track.data = false) :
    (dropStale audio track w).loader audio.type = none := by
  unfold dropStale
  cases hl : w.loader audio.type with
  | none => simp [hl]
  | some l0 => simp [if_pos (hnew l0 hl)]

/-- C1: with the mixer present, when the track of the type of the request is
absent, or is for another id, or is not loading, `setupLoader` returns no
loader, leaves `SetupErrorNotPlaying` in `err`, emits `error(id)` and changes
nothing else: current ids, loaders and mixer are as before, and the log grows
by that one signal only (no loader is made or dropped). -/
theorem setupLoader_notPlaying (env : Env) (audio : AudioMsgId) (positionMs : Int)
    (w : World) (m : Mixer) (hm : w.mixer = some m)
    (h : ∀ t, m.trackForType audio.type = some t → t.state.id ≠ audio ∨ t.loading = false) :
    setupLoader env audio positionMs w
      = (none, SetupError.setupErrorNotPlaying, w.emit (Event.error audio)) :=
  setupLoader_guard env audio positionMs w m hm h

/-- C1 at a concrete state: the song track is loading another id (the first
conjunct is the hypothesis on the track, the second the mixer's presence). -/
theorem setupLoader_notPlaying_witness :
    setupLoader (envWith (plainLoader 10 [])) songX 0
        (freshWorld (some (mixerWith (idleTrack ⟨AType.song, 8, 0⟩ true false))))
      = (none, SetupError.setupErrorNotPlaying,
          (freshWorld (some (mixerWith (idleTrack ⟨AType.song, 8, 0⟩ true false)))).emit
            (Event.error songX)) :=
  setupLoader_notPlaying _ songX 0 _ (mixerWith (idleTrack ⟨AType.song, 8, 0⟩ true false)) rfl
    (by
      intro t ht
      have e : some t = some (idleTrack ⟨AType.song, 8, 0⟩ true false) :=
        ht.symm.trans (mixerWith_trackForType (idleTrack ⟨AType.song, 8, 0⟩ true false))
      cases e
      exact Or.inl (by decide))

/-- C2, as stated, fails: the song track is current for the id, loading and
already loaded, the object holds no loader for songs; `setupLoader` makes a
loader, opens it and returns it with `SetupNoErrorStarted`. -/
theorem setupLoader_loaded_constructs :
    (mixerWith (idleTrack songX true true)).trackForType songX.type
        = some (idleTrack songX true true)
      ∧ (idleTrack songX true true).state.id = songX
      ∧ (idleTrack songX true true).loading = true
      ∧ (idleTrack songX true true).loaded = true
      ∧ (setupLoader (envWith (plainLoader 10 [])) songX 0
          (freshWorld (some (mixerWith (idleTrack songX true true))))).1.isSome = true
      ∧ (setupLoader (envWith (plainLoader 10 [])) songX 0
          (freshWorld (some (mixerWith (idleTrack songX true true))))).2.1
            = SetupError.setupNoErrorStarted
      ∧ (setupLoader (envWith (plainLoader 10 [])) songX 0
          (freshWorld (some (mixerWith (idleTrack songX true true))))).2.2.log
            = [Event.makeLoader songX false, Event.openLoader songX 0] := by
  refine ⟨rfl, rfl, rfl, rfl, rfl, rfl, rfl⟩

/-- C2, amended: on a track that is current for the id, loading and already
loaded, when the object holds for the type a loader whose current id is the id
and whose `check` passes, `setupLoader` returns no loader, leaves
`SetupErrorLoadedFull` in `err` and changes nothing: no loader is made, none
is dropped. -/
theorem setupLoader_loadedFull (env : Env) (audio : AudioMsgId) (positionMs : Int)
    (w : World) (m : Mixer) (track : Track) (l : Loader) (hm : w.mixer = some m)
    (ht : m.trackForType audio.type = some track) (hid : track.state.id = audio)
    (hloading : track.loading = true) (hloaded : track.loaded = true)
    (hcur : w.currentId audio.type = audio) (hldr : w.loader audio.type = some l)
    (hchk : l.check track.file track.data = true) :
    setupLoader env audio positionMs w = (none, SetupError.setupErrorLoadedFull, w) := by
  unfold setupLoader
  simp only [hm, ht, dropStale_valid audio track w l hcur hldr hchk, hldr]
  simp [hid, hloading, hloaded]

/-- C2 amended, at a concrete state: the loaded song track and a loader for
it. -/
theorem setupLoader_loadedFull_witness :
    setupLoader (envWith (plainLoader 10 [])) songX 0
        (songWorld true (some (plainLoader 10 [])))
      = (none, SetupError.setupErrorLoadedFull, songWorld true (some (plainLoader 10 []))) :=
  setupLoader_loadedFull (envWith (plainLoader 10 [])) songX 0
    (songWorld true (some (plainLoader 10 []))) (mixerWith (idleTrack songX true true))
    (idleTrack songX true true) (plainLoader 10 []) rfl rfl rfl rfl rfl rfl rfl rfl

/-- C4: on a track that is current for the id, loading and not loaded, when the
object holds for the type a loader whose current id is the id and whose `check`
passes, `setupLoader` returns that loader and changes nothing (no loader made,
no `open`, `state.length` and `state.frequency` as before), and `err` is not
`SetupNoErrorStarted`.  And whenever `setupLoader` returns a loader, `err` is
`SetupNoErrorStarted` exactly when a loader was made during the call. -/
theorem setupLoader_reuse (env : Env) (audio : AudioMsgId) (positionMs : Int)
    (w : World) (m : Mixer) (track : Track) (l : Loader) (hm : w.mixer = some m)
    (ht : m.trackForType audio.type = some track) (hid : track.state.id = audio)
    (hloading : track.loading = true) (hloaded : track.loaded = false)
    (hcur : w.currentId audio.type = audio) (hldr : w.loader audio.type = some l)
    (hchk : l.check track.file track.data = true) :
    setupLoader env audio positionMs w = (some l, SetupError.setupErrorAtStart, w)
      ∧ SetupError.setupErrorAtStart ≠ SetupError.setupNoErrorStarted
      ∧ ∀ (env2 : Env) (audio2 : AudioMsgId) (pos2 : Int) (w2 : World) (l2 : Loader),
          (setupLoader env2 audio2 pos2 w2).1 = some l2 →
            ((setupLoader env2 audio2 pos2 w2).2.1 = SetupError.setupNoErrorStarted
              ↔ ∃ child, Event.makeLoader audio2 child
                  ∈ newEvents w2 (setupLoader env2 audio2 pos2 w2).2.2) := by
  refine ⟨?_, by decide, ?_⟩
  · unfold setupLoader
    simp only [hm, ht, dropStale_valid audio track w l hcur hldr hchk, hldr]
    simp [hid, hloading, hloaded]
  · intro env2 audio2 pos2 w2 l2 h
    unfold setupLoader at h ⊢
    unfold newEvents
    cases hm2 : w2.mixer with
    | none => simp [hm2] at h
    | some m2 =>
      simp only [hm2] at h ⊢
      cases ht2 : m2.trackForType audio2.type with
      | none => simp [ht2] at h
      | some t2 =>
        simp only [ht2] at h ⊢
        by_cases hc : t2.state.id ≠ audio2 ∨ t2.loading = false
        · simp [hc] at h
        · simp only [hc, if_false] at h ⊢
          cases hd : (dropStale audio2 t2 w2).loader audio2.type with
          | none =>
            simp only [hd] at h ⊢
            have hn := newLoader_some _ _ _ _ _ _ h
            rw [hn.1, hn.2]
            simp
          | some l3 =>
            simp only [hd] at h ⊢
            by_cases hl : t2.loaded = true
            · simp [hl] at h
            · simp [hl]

/-- C4 at a concrete state: the song track is loading and a loader for it is
held. -/
theorem setupLoader_reuse_witness :
    setupLoader (envWith (plainLoader 10 [])) songX 0
        (songWorld false (some (plainLoader 10 [])))
      = (some (plainLoader 10 []), SetupError.setupErrorAtStart,
        songWorld false (some (plainLoader 10 []))) :=
  (setupLoader_reuse (envWith (plainLoader 10 [])) songX 0
    (songWorld false (some (plainLoader 10 [])))
    (mixerWith (idleTrack songX true false))
    (idleTrack songX true false) (plainLoader 10 []) rfl rfl rfl rfl rfl rfl rfl rfl).1

/-- C6: when, as `videoSoundAdded` comes to a drained id, no slot holds that id
together with a live loader, the turn of the force loop for the id changes
nothing (no loader's `forceToBuffer` is set, `loadData` is not called), the
turn of the queue loop frees each packet of the id once, in order, and changes
nothing else (no loader gets a packet, `loadData` is not called, current ids
and loaders are as before); after the drain nothing is queued for the id.  When
this holds of all drained ids the whole drain only empties the queue and the
force-set and frees the packets. -/
theorem videoSoundAdded_noLoader (env : Env) (w : World) (id : AudioMsgId)
    (h : firstSlot w id = none) :
    (∀ queues, forceStep env queues id w = w)
      ∧ (∀ ps, queueStep env (id, ps) w
          = { w with log := w.log ++ ps.map (Event.freePacket id) })
      ∧ pending id (videoSoundAdded env w) = []
      ∧ ((∀ k ∈ w.fromVideoForceToBuffer, firstSlot w k = none) →
          (∀ pair ∈ w.fromVideoQueues, firstSlot w pair.1 = none) →
          videoSoundAdded env w
            = { w with
                fromVideoQueues := []
                fromVideoForceToBuffer := []
                log := w.log ++ (w.fromVideoQueues.map
                  (fun pair => pair.2.map (Event.freePacket pair.1))).flatten }) := by
  refine ⟨?_, ?_, pending_drain env id w, ?_⟩
  · intro queues
    unfold forceStep
    rw [h]
  · intro ps
    unfold queueStep
    simp only [h]
  · intro hf hq
    unfold videoSoundAdded
    dsimp only
    rw [forcePass_idle env w.fromVideoQueues w.fromVideoForceToBuffer
        { w with fromVideoQueues := [], fromVideoForceToBuffer := [] } (fun k hk => hf k hk),
      freePass env w.fromVideoQueues
        { w with fromVideoQueues := [], fromVideoForceToBuffer := [] } (fun q hk => hq q hk)]

/-- C6 at the concrete state of the scenario: three packets fed for `videoX`,
no loader active; the drain frees the three and touches nothing else. -/
theorem videoSoundAdded_noLoader_witness :
    videoSoundAdded (envWith (plainLoader 10 [])) threeFed
      = { threeFed with
          fromVideoQueues := []
          fromVideoForceToBuffer := []
          log := [Event.notifyCall, Event.freePacket videoX 11, Event.freePacket videoX 12,
            Event.freePacket videoX 13] } :=
  (videoSoundAdded_noLoader (envWith (plainLoader 10 [])) threeFed videoX rfl).2.2.2
    (by decide) (by decide)

/-- C7: `feedFromVideo` and `forceToBufferVideo` each call `_fromVideoNotify`
exactly when the queue and the force-set were both empty before the call, and
log nothing else; so after a drain, any sequence of such calls issues one wake
when it is not empty and none when it is. -/
theorem wake_coalescing (env : Env) (id : AudioMsgId) (packet : Packet) (w w0 : World)
    (pushes : List Push) :
    (feedFromVideo id packet w).log = w.log ++
        (if w.fromVideoQueues = [] ∧ w.fromVideoForceToBuffer = [] then [Event.notifyCall]
          else [])
      ∧ (forceToBufferVideo id w).log = w.log ++
        (if w.fromVideoQueues = [] ∧ w.fromVideoForceToBuffer = [] then [Event.notifyCall]
          else [])
      ∧ (run env (pushes.map Op.push) (videoSoundAdded env w0)).log
        = (videoSoundAdded env w0).log ++ (if pushes = [] then [] else [Event.notifyCall]) := by
  refine ⟨push_log (Push.feed id packet) w, push_log (Push.force id) w, ?_⟩
  cases pushes with
  | nil => simp [run]
  | cons p tl =>
    simp only [List.map_cons, run, Op.apply]
    rw [busy_run env tl _ (push_busy p _), push_log, if_pos (videoSoundAdded_queues env w0)]
    simp

/-- C8: after `onCancel(id)`, `setupLoader` for the same id returns no loader
(with `SetupErrorNotPlaying` when the mixer is there: the current track is for
another id or its `loading` flag was cleared), and `loadData(id)` leaves every
track as it was and only emits one error signal: no track buffer slot and no
`bufferedLength` is written, no device call is made. -/
theorem loadData_after_cancel (env : Env) (audio : AudioMsgId) (positionMs : Int)
    (w : World) :
    (setupLoader env audio positionMs (onCancel audio w)).1 = none
      ∧ (loadData env audio positionMs (onCancel audio w)).mixer = (onCancel audio w).mixer
      ∧ (∃ id2, (loadData env audio positionMs (onCancel audio w)).log
          = (onCancel audio w).log ++ [Event.error id2])
      ∧ (∀ m, w.mixer = some m →
          setupLoader env audio positionMs (onCancel audio w)
            = (none, SetupError.setupErrorNotPlaying,
                (onCancel audio w).emit (Event.error audio))) := by
  cases hm : w.mixer with
  | none =>
    have h1 := onCancel_mixer_none audio w hm
    have h2 : setupLoader env audio positionMs (onCancel audio w)
        = (none, SetupError.setupErrorAtStart, onCancel audio w) := by
      unfold setupLoader
      simp only [h1]
    refine ⟨by rw [h2], ?_, ?_, fun m h => by cases h⟩
    · unfold loadData
      simp [h2, emitError]
    · unfold loadData
      simp [h2, emitError]
  | some m =>
    obtain ⟨m2, h1⟩ := onCancel_mixer_some audio w m hm
    have h2 := setupLoader_guard env audio positionMs (onCancel audio w) m2 h1
      (fun t ht => onCancel_track audio w m2 t h1 ht)
    refine ⟨by rw [h2], ?_, ?_, fun _ _ => h2⟩
    · unfold loadData
      simp [h2]
    · unfold loadData
      simp [h2]

/-- C8 at a concrete state: the song track is loading `songX` with a loader
held, `songX` is cancelled. -/
theorem loadData_after_cancel_witness :
    setupLoader (envWith (plainLoader 10 [])) songX 0
        (onCancel songX (songWorld false (some (plainLoader 10 []))))
      = (none, SetupError.setupErrorNotPlaying,
          (onCancel songX (songWorld false (some (plainLoader 10 [])))).emit
            (Event.error songX)) :=
  (loadData_after_cancel (envWith (plainLoader 10 [])) songX 0
    (songWorld false (some (plainLoader 10 [])))).2.2.2
      (mixerWith (idleTrack songX true false)) rfl

/-- C9, evaluated where it fails.  First: the video track is current for
`videoX` and loading, its video-sound payload is not there and no loader is
held; `setupLoader` clears the slot and emits `error(videoX)` but leaves
`SetupErrorAtStart` in `err`, so `loadData` goes on to `emitError`, which
emits the id `clear` finds in the slot: the empty one.  Second: a pass for
`songX` ends the stream (the slot is cleared), then setting the gain fails on
the device; `emitError` again emits the empty id. -/
theorem loadData_videoNotReady_errors :
    (loadData (envWith (plainLoader 10 [])) videoX 0 videoNotReady).log
        = [Event.error videoX, Event.error AudioMsgId.empty]
      ∧ AudioMsgId.empty ≠ videoX
      ∧ (loadData (envGainFails (plainLoader 10 [])) songX 0
          (songWorld false (some (plainLoader 10 [])))).log
        = [Event.device (DeviceCall.alGetSourcei AType.song),
            Event.device (DeviceCall.alSourcef AType.song),
            Event.device (DeviceCall.setStoppedState AType.song State.stoppedAtError),
            Event.error AudioMsgId.empty]
      ∧ AudioMsgId.empty ≠ songX := by
  refine ⟨rfl, by decide, rfl, by decide⟩

/-- C10: the track is current for `X` and loading, the object holds no loader
that is the one for `X` and its source, so that a loader `l` is made (from the
file, or from the video-sound payload when `X` has a play id); when
`l.open(positionMs)` fails or `l.samplesCount()` is not positive,
`setupLoader` returns no loader and leaves the track in `StoppedAtStart`;
`loadData(X)` logs the making and the opening of the loader and the signal
`error(X)` and nothing else (no device call), and leaves no loader and the
empty id for the type of `X`, the track still in `StoppedAtStart`. -/
theorem loadData_openFailed (env : Env) (X : AudioMsgId) (positionMs : Int) (w : World)
    (m : Mixer) (track : Track) (l : Loader) (hm : w.mixer = some m)
    (ht : m.trackForType X.type = some track) (hid : track.state.id = X)
    (hloading : track.loading = true)
    (hnew : ∀ l0, w.loader X.type = some l0 →
      w.currentId X.type ≠ X ∨ l0.check track.file track.data = false)
    (hl : (X.playId = 0 ∧ l = env.fileLoader track.file track.data)
      ∨ (X.playId ≠ 0 ∧ ∃ vd, track.videoData = some vd ∧ l = env.childLoader vd))
    (hfail : l.openOk positionMs = false ∨ l.length ≤ 0) :
    (setupLoader env X positionMs w).1 = none
      ∧ ((setupLoader env X positionMs w).2.2.track X.type).map (fun t => t.state.state)
          = some State.stoppedAtStart
      ∧ (loadData env X positionMs w).log
          = w.log ++ [Event.makeLoader X (decide (X.playId ≠ 0)),
              Event.openLoader X positionMs, Event.error X]
      ∧ (loadData env X positionMs w).currentId X.type = AudioMsgId.empty
      ∧ (loadData env X positionMs w).loader X.type = none
      ∧ ((loadData env X positionMs w).track X.type).map (fun t => t.state.state)
          = some State.stoppedAtStart := by
  have htr : w.track X.type = some track := by
    unfold World.track
    rw [hm]
    exact ht
  have hopen : ∀ (w0 : World) (t0 : Track), w0.track X.type = some t0 →
      ∃ w1, openNew X positionMs l w0 = (none, SetupError.setupErrorAtStart, w1)
        ∧ w1.log = w0.log ++ [Event.openLoader X positionMs]
        ∧ (∀ ty, w1.currentId ty = w0.currentId ty)
        ∧ (w1.track X.type).map (fun t => t.state.state) = some State.stoppedAtStart := by
    intro w0 t0 h0
    unfold openNew
    by_cases ho : l.openOk positionMs = false
    · rw [if_pos ho]
      exact ⟨_, rfl, by simp, by simp, by simp [h0, Track.setState]⟩
    · have hlen : l.length ≤ 0 := hfail.resolve_left ho
      rw [if_neg ho, if_pos hlen]
      exact ⟨_, rfl, by simp, by simp, by simp [h0, Track.setState]⟩
  have hsetup : ∃ w1, setupLoader env X positionMs w = (none, SetupError.setupErrorAtStart, w1)
      ∧ w1.log = w.log ++ [Event.makeLoader X (decide (X.playId ≠ 0)),
          Event.openLoader X positionMs]
      ∧ w1.currentId X.type = X
      ∧ (w1.track X.type).map (fun t => t.state.state) = some State.stoppedAtStart := by
    unfold setupLoader
    simp only [hm, ht, dropStale_stale X track w hnew]
    have hg : ¬ (track.state.id ≠ X ∨ track.loading = false) := by simp [hid, hloading]
    rw [if_neg hg]
    unfold newLoader
    rcases hl with ⟨hp, hl⟩ | ⟨hp, vd, hv, hl⟩
    · have hp2 : ¬ X.playId ≠ 0 := by simp [hp]
      rw [if_neg hp2, ← hl]
      obtain ⟨w1, e1, e2, e3, e4⟩ :=
        hopen ((((dropStale X track w).setCurrentId X.type X).setLoader X.type (some l)).emit
          (Event.makeLoader X false)) track (by simp [htr])
      exact ⟨w1, e1, by simp [e2, hp], by simp [e3], e4⟩
    · rw [if_pos hp]
      simp only [hv]
      rw [← hl]
      obtain ⟨w1, e1, e2, e3, e4⟩ :=
        hopen (((((dropStale X track w).setCurrentId X.type X).setLoader X.type
          (some l)).modifyTrack X.type (fun t => { t with videoData := none })).emit
            (Event.makeLoader X true)) { track with videoData := none } (by simp [htr])
      exact ⟨w1, e1, by simp [e2, hp], by simp [e3], e4⟩
  obtain ⟨w1, e1, e2, e3, e4⟩ := hsetup
  have hload : loadData env X positionMs w = emitError X.type w1 := by
    unfold loadData
    rw [e1]
    simp
  refine ⟨by rw [e1], by rw [e1]; exact e4, ?_, ?_, ?_, ?_⟩
  · rw [hload]
    simp [emitError, e2, e3]
  · rw [hload]
    simp [emitError]
  · rw [hload]
    simp [emitError]
  · rw [hload]
    simpa [emitError] using e4

/-- C10 at the concrete state of the scenario: `setupLoader(X, 0ms)` for a song
whose new loader opens with length 0. -/
theorem loadData_openFailed_witness :
    (setupLoader (envWith (plainLoader 0 [])) songX 0 (songWorld false none)).1 = none
      ∧ ((setupLoader (envWith (plainLoader 0 [])) songX 0 (songWorld false none)).2.2.track
          songX.type).map (fun t => t.state.state) = some State.stoppedAtStart
      ∧ (loadData (envWith (plainLoader 0 [])) songX 0 (songWorld false none)).log
          = (songWorld false none).log ++ [Event.makeLoader songX (decide (songX.playId ≠ 0)),
              Event.openLoader songX 0, Event.error songX]
      ∧ (loadData (envWith (plainLoader 0 [])) songX 0 (songWorld false none)).currentId
          songX.type = AudioMsgId.empty
      ∧ (loadData (envWith (plainLoader 0 [])) songX 0 (songWorld false none)).loader
          songX.type = none
      ∧ ((loadData (envWith (plainLoader 0 [])) songX 0 (songWorld false none)).track
          songX.type).map (fun t => t.state.state) = some State.stoppedAtStart :=
  loadData_openFailed (envWith (plainLoader 0 [])) songX 0 (songWorld false none)
    (mixerWith (idleTrack songX true false)) (idleTrack songX true false) (plainLoader 0 [])
    rfl rfl rfl rfl (fun l0 h => by cases h) (Or.inl ⟨rfl, rfl⟩) (Or.inr (by decide))

/-- C3, as stated, fails: the new loader of a pass for `songX` appends 300000
bytes at its first `readMore`; the loop is left with those 300000 bytes, above
`kPlaybackBufferSize`, and they are submitted in one `alBufferData` call. -/
theorem loadData_submits_above_budget :
    (oneChunkPass (List.replicate 300000 0)).sizes = [300000]
      ∧ kPlaybackBufferSize < 300000 := by
  have key : ∀ chunk : List Nat, kPlaybackBufferSize ≤ chunk.length →
      (oneChunkPass chunk).sizes = [chunk.length] := by
    intro chunk hc
    have hs : setupLoader (envWith (plainLoader 100 [⟨ReadResult.ok, chunk, 1⟩])) songX 0
        (songWorld false none)
        = (some (plainLoader 100 [⟨ReadResult.ok, chunk, 1⟩]), SetupError.setupNoErrorStarted,
          (setupLoader (envWith (plainLoader 100 [⟨ReadResult.ok, chunk, 1⟩])) songX 0
            (songWorld false none)).2.2) := rfl
    have hck : (checkLoader songX.type
        (setupLoader (envWith (plainLoader 100 [⟨ReadResult.ok, chunk, 1⟩])) songX 0
          (songWorld false none)).2.2).isSome = true := rfl
    obtain ⟨t, ht⟩ := Option.isSome_iff_exists.mp hck
    have hr : decodeLoop songX.type
        (setupLoader (envWith (plainLoader 100 [⟨ReadResult.ok, chunk, 1⟩])) songX 0
          (songWorld false none)).2.2 false [⟨ReadResult.ok, chunk, 1⟩] [] 0 true
        = ⟨LoopExit.left false false, chunk, 1, [], none⟩ := by
      unfold decodeLoop
      have h0 : ([] : List Nat).length < kPlaybackBufferSize := by decide
      rw [if_pos h0]
      simp only [ht]
      unfold decodeLoop
      rw [List.nil_append, if_neg (Nat.not_lt.mpr hc)]
      rfl
    have hload := loadData_of_setup (envWith (plainLoader 100 [⟨ReadResult.ok, chunk, 1⟩]))
      songX 0 (songWorld false none) _ _ _ hs _ hr false false rfl
    unfold oneChunkPass
    rw [hload]
    refine (afterLoop_submits _ _ _ _ _ _ _ _ _ _ ?_ ?_ ?_ ?_ ?_).trans ?_
    · rfl
    · rfl
    · show (1 : Int) ≠ 0
      decide
    · rfl
    · show ¬ ((0 : Int) < 0)
      decide
    · rfl
  have h := key (List.replicate 300000 0) (by rw [List.length_replicate]; decide)
  rw [List.length_replicate] at h
  exact ⟨h, by decide⟩

/-- C3, amended: a pass of `loadData` submits at most one buffer; its size is
at most the size of the saved samples the pass started from or, if larger, is
below `kPlaybackBufferSize` plus the largest amount one `readMore` call of the
loader appends.  And the loop makes no `readMore` call once the working buffer
has reached `kPlaybackBufferSize`. -/
theorem loadData_buffer_bound (env : Env) (audio : AudioMsgId) (positionMs : Int)
    (w : World) :
    ((loadData env audio positionMs w).sizes = w.sizes
        ∨ ∃ l n, (setupLoader env audio positionMs w).1 = some l
            ∧ (loadData env audio positionMs w).sizes = w.sizes ++ [n]
            ∧ n ≤ max l.seed.1.length (kPlaybackBufferSize - 1 + maxChunk l.reads))
      ∧ ∀ (ty : AType) (w2 : World) (force : Bool) (reads : List ReadStep)
          (samples : List Nat) (count : Int) (errAtStart : Bool),
          kPlaybackBufferSize ≤ samples.length →
            decodeLoop ty w2 force reads samples count errAtStart
              = ⟨LoopExit.left false false, samples, count, reads, none⟩ := by
  refine ⟨?_, decodeLoop_full⟩
  have h1 := setupLoader_sizes env audio positionMs w
  cases hs : setupLoader env audio positionMs w with
  | mk ol rest =>
    obtain ⟨err, w1⟩ := rest
    rw [hs] at h1
    simp only [] at h1
    cases ol with
    | none =>
      left
      unfold loadData
      rw [hs]
      dsimp only
      split <;> simp [h1]
    | some l =>
      cases hexit : (decodeLoop audio.type w1 l.force l.reads l.seed.1 l.seed.2
          (decide (err = SetupError.setupNoErrorStarted))).exit with
      | errorAtStart =>
        left
        unfold loadData
        rw [hs]
        simp only [hexit]
        split <;> simp [h1]
      | changed =>
        left
        unfold loadData
        rw [hs]
        simp only [hexit]
        simp [h1]
      | left finished waiting =>
        rw [loadData_of_setup env audio positionMs w l err w1 hs _ rfl finished waiting hexit]
        rcases afterLoop_sizes (env.device audio) audio positionMs
          (decide (err = SetupError.setupNoErrorStarted)) finished waiting
          { l with
            reads := (decodeLoop audio.type w1 l.force l.reads l.seed.1 l.seed.2
              (decide (err = SetupError.setupNoErrorStarted))).reads
            saved := (decodeLoop audio.type w1 l.force l.reads l.seed.1 l.seed.2
              (decide (err = SetupError.setupNoErrorStarted))).saved }
          (decodeLoop audio.type w1 l.force l.reads l.seed.1 l.seed.2
            (decide (err = SetupError.setupNoErrorStarted))).samples
          (decodeLoop audio.type w1 l.force l.reads l.seed.1 l.seed.2
            (decide (err = SetupError.setupNoErrorStarted))).count
          (w1.setLoader audio.type (some { l with
            reads := (decodeLoop audio.type w1 l.force l.reads l.seed.1 l.seed.2
              (decide (err = SetupError.setupNoErrorStarted))).reads
            saved := (decodeLoop audio.type w1 l.force l.reads l.seed.1 l.seed.2
              (decide (err = SetupError.setupNoErrorStarted))).saved }))
          with h | h
        · left
          rw [h]
          simp [h1]
        · right
          refine ⟨l, (decodeLoop audio.type w1 l.force l.reads l.seed.1 l.seed.2
            (decide (err = SetupError.setupNoErrorStarted))).samples.length, rfl, ?_, ?_⟩
          · rw [h]
            simp [h1]
          · exact decodeLoop_samples audio.type w1 l.force l.reads l.seed.1 l.seed.2
              (decide (err = SetupError.setupNoErrorStarted))

/-- C3 amended, at a concrete state: with 262144 bytes in the working buffer
the loop is left at once, the outcome waiting in the loader is not read. -/
theorem loadData_buffer_bound_witness :
    decodeLoop AType.song (freshWorld none) false [⟨ReadResult.ok, [1, 2], 1⟩]
        (List.replicate 262144 0) 5 false
      = ⟨LoopExit.left false false, List.replicate 262144 0, 5,
          [⟨ReadResult.ok, [1, 2], 1⟩], none⟩ :=
  (loadData_buffer_bound (envWith (plainLoader 10 [])) songX 0 (freshWorld none)).2
    AType.song (freshWorld none) false [⟨ReadResult.ok, [1, 2], 1⟩]
    (List.replicate 262144 0) 5 false (by rw [List.length_replicate]; decide)

/-! ### The error signals emitted -/

@[simp] theorem emit_errors (w : World) (e : Event) (h : e.errorId = none) :
    (w.emit e).errors = w.errors := by
  simp [World.errors, List.filterMap_append, h]

@[simp] theorem emit_error_errors (w : World) (id : AudioMsgId) :
    (w.emit (Event.error id)).errors = w.errors ++ [id] := by
  simp [World.errors, List.filterMap_append, Event.errorId]

@[simp] theorem modifyTrack_errors (w : World) (ty : AType) (f : Track → Track) :
    (w.modifyTrack ty f).errors = w.errors := rfl

@[simp] theorem setCurrentId_errors (w : World) (ty : AType) (id : AudioMsgId) :
    (w.setCurrentId ty id).errors = w.errors := by cases ty <;> rfl

@[simp] theorem setLoader_errors (w : World) (ty : AType) (l : Option Loader) :
    (w.setLoader ty l).errors = w.errors := by cases ty <;> rfl

@[simp] theorem clear_errors (ty : AType) (w : World) : (clear ty w).2.errors = w.errors := by
  cases ty <;> rfl

@[simp] theorem emitError_errors (ty : AType) (w : World) :
    (emitError ty w).errors = w.errors ++ [w.currentId ty] := by
  simp [emitError]

@[simp] theorem setStoppedState_errors (ty : AType) (st : State) (w : World) :
    (setStoppedState ty st w).errors = w.errors := by
  simp [setStoppedState, Event.errorId]

@[simp] theorem setStoppedState_currentId (ty ty2 : AType) (st : State) (w : World) :
    (setStoppedState ty st w).currentId ty2 = w.currentId ty2 := by
  simp [setStoppedState]

@[simp] theorem setStoppedState_loader (ty ty2 : AType) (st : State) (w : World) :
    (setStoppedState ty st w).loader ty2 = w.loader ty2 := by
  simp [setStoppedState]

@[simp] theorem setStoppedState_track (ty : AType) (st : State) (w : World) :
    (setStoppedState ty st w).track ty = (w.track ty).map (Track.setState st) := by
  simp [setStoppedState]

@[simp] theorem emitError_currentId (ty : AType) (w : World) :
    (emitError ty w).currentId ty = AudioMsgId.empty := by
  simp [emitError]

@[simp] theorem emitError_loader (ty : AType) (w : World) :
    (emitError ty w).loader ty = none := by
  simp [emitError]

@[simp] theorem emitError_track (ty ty2 : AType) (w : World) :
    (emitError ty w).track ty2 = w.track ty2 := by
  simp [emitError]

/-! ### What a successful `setupLoader` leaves -/

/-- A loader survives `dropStale` only when it is the one for the id and
source; nothing is changed then. -/
theorem dropStale_some (audio : AudioMsgId) (track : Track) (w : World) (l : Loader)
    (h : (dropStale audio track w).loader audio.type = some l) :
    dropStale audio track w = w ∧ w.currentId audio.type = audio
      ∧ w.loader audio.type = some l ∧ l.check track.file track.data = true := by
  unfold dropStale at h ⊢
  cases hl : w.loader audio.type with
  | none => simp [hl] at h
  | some l0 =>
    simp only [hl] at h ⊢
    by_cases hst : w.currentId audio.type ≠ audio ∨ l0.check track.file track.data = false
    · rw [if_pos hst] at h
      simp at h
    · rw [if_neg hst] at h ⊢
      rw [hl] at h
      cases h
      simp only [not_or, not_not, Bool.not_eq_false] at hst
      exact ⟨rfl, hst.1, rfl, hst.2⟩

/-- The state `openNew` leaves when it returns a loader. -/
theorem openNew_result (audio : AudioMsgId) (positionMs : Int) (l0 : Loader) (w : World)
    (l : Loader) (err : SetupError) (w1 : World)
    (h : openNew audio positionMs l0 w = (some l, err, w1)) :
    l = l0 ∧ err = SetupError.setupNoErrorStarted
      ∧ w1 = (w.emit (Event.openLoader audio positionMs)).modifyTrack audio.type
          (fun t => { t with state :=
            { t.state with length := l0.length, frequency := l0.frequency } }) := by
  unfold openNew at h
  by_cases ho : l0.openOk positionMs = false
  · simp [ho] at h
  · by_cases hlen : l0.length ≤ 0
    · simp [ho, hlen] at h
    · rw [if_neg ho, if_neg hlen] at h
      simp only [Prod.mk.injEq, Option.some.injEq] at h
      exact ⟨h.1.symm, h.2.1.symm, h.2.2.symm⟩

/-- The state `newLoader` leaves when it returns a loader. -/
theorem newLoader_result (env : Env) (audio : AudioMsgId) (positionMs : Int) (track : Track)
    (w : World) (l : Loader) (err : SetupError) (w1 : World)
    (h : newLoader env audio positionMs track w = (some l, err, w1)) :
    err = SetupError.setupNoErrorStarted ∧ w1.currentId audio.type = audio
      ∧ w1.loader audio.type = some l ∧ w1.errors = w.errors := by
  unfold newLoader at h
  by_cases hp : audio.playId ≠ 0
  · rw [if_pos hp] at h
    cases hv : track.videoData with
    | none => simp [hv] at h
    | some vd =>
      simp only [hv] at h
      obtain ⟨h1, h2, h3⟩ := openNew_result _ _ _ _ _ _ _ h
      subst h3
      exact ⟨h2, by simp, by simp [h1], by simp [Event.errorId]⟩
  · rw [if_neg hp] at h
    obtain ⟨h1, h2, h3⟩ := openNew_result _ _ _ _ _ _ _ h
    subst h3
    exact ⟨h2, by simp, by simp [h1], by simp [Event.errorId]⟩

/-- What holds when `setupLoader` returns a loader: the id is current for its
type with that loader, no error was emitted, and either the loader was made in
the call or nothing was changed. -/
theorem setupLoader_some (env : Env) (audio : AudioMsgId) (positionMs : Int) (w : World)
    (l : Loader) (err : SetupError) (w1 : World)
    (hs : setupLoader env audio positionMs w = (some l, err, w1)) :
    w1.currentId audio.type = audio ∧ w1.loader audio.type = some l
      ∧ w1.errors = w.errors
      ∧ (err = SetupError.setupNoErrorStarted
          ∨ (err = SetupError.setupErrorAtStart ∧ w1 = w)) := by
  unfold setupLoader at hs
  cases hm : w.mixer with
  | none => simp [hm] at hs
  | some m =>
    simp only [hm] at hs
    cases ht : m.trackForType audio.type with
    | none => simp [ht] at hs
    | some track =>
      simp only [ht] at hs
      by_cases hg : track.state.id ≠ audio ∨ track.loading = false
      · simp [hg] at hs
      · rw [if_neg hg] at hs
        cases hd : (dropStale audio track w).loader audio.type with
        | none =>
          simp only [hd] at hs
          obtain ⟨h1, h2, h3, h4⟩ := newLoader_result _ _ _ _ _ _ _ _ hs
          refine ⟨h2, h3, ?_, Or.inl h1⟩
          rw [h4]
          unfold World.errors
          rw [dropStale_log]
        | some l0 =>
          simp only [hd] at hs
          obtain ⟨e1, e2, e3, _⟩ := dropStale_some audio track w l0 hd
          by_cases hl : track.loaded = true
          · simp [hl] at hs
          · rw [if_neg hl] at hs
            simp only [Prod.mk.injEq, Option.some.injEq] at hs
            obtain ⟨a1, a2, a3⟩ := hs
            subst a1
            subst a2
            rw [e1] at a3
            subst a3
            exact ⟨e2, e3, rfl, Or.inr ⟨rfl, rfl⟩⟩

theorem openNew_loadView (audio : AudioMsgId) (positionMs : Int) (l : Loader) (w : World) :
    ((openNew audio positionMs l w).2.2.track audio.type).map Track.loadView
      = (w.track audio.type).map Track.loadView := by
  unfold openNew
  split
  · simp [Option.map_map, Function.comp_def, Track.loadView, Track.setState]
    rfl
  · split <;> simp [Option.map_map, Function.comp_def, Track.loadView, Track.setState] <;> rfl

theorem newLoader_loadView (env : Env) (audio : AudioMsgId) (positionMs : Int)
    (track : Track) (w : World) :
    ((newLoader env audio positionMs track w).2.2.track audio.type).map Track.loadView
      = (w.track audio.type).map Track.loadView := by
  unfold newLoader
  split
  · split
    · simp [Option.map_map, Function.comp_def, Track.loadView, Track.setState]
      rfl
    · rw [openNew_loadView]
      simp [Option.map_map, Function.comp_def, Track.loadView]
      rfl
  · rw [openNew_loadView]
    simp

/-- `setupLoader` writes no buffer slot, no buffered length and neither the
loading nor the loaded flag of the track. -/
theorem setupLoader_loadView (env : Env) (audio : AudioMsgId) (positionMs : Int)
    (w : World) :
    ((setupLoader env audio positionMs w).2.2.track audio.type).map Track.loadView
      = (w.track audio.type).map Track.loadView := by
  unfold setupLoader
  split
  · rfl
  · split
    · simp
    · split
      · simp
      · split
        · rw [newLoader_loadView]
          simp
        · split <;> simp

/-- What a successful `checkLoader` tells. -/
theorem checkLoader_some (ty : AType) (w : World) (t : Track)
    (h : checkLoader ty w = some t) :
    w.track ty = some t ∧ t.state.id = w.currentId ty ∧ t.loading = true
      ∧ ∃ l, w.loader ty = some l ∧ l.check t.file t.data = true := by
  unfold checkLoader at h
  unfold World.track
  cases hm : w.mixer with
  | none => simp [hm] at h
  | some m =>
    simp only [hm] at h
    cases hl : w.loader ty with
    | none => simp [hl] at h
    | some l =>
      cases ht : m.trackForType ty with
      | none => simp [hl, ht] at h
      | some t0 =>
        simp only [hl, ht] at h
        by_cases hc : t0.state.id ≠ w.currentId ty ∨ t0.loading = false
            ∨ l.check t0.file t0.data = false
        · rw [if_pos hc] at h
          cases h
        · rw [if_neg hc] at h
          cases h
          simp only [not_or, not_not, Bool.not_eq_false] at hc
          exact ⟨by simp [ht], hc.1, hc.2.1, l, rfl, hc.2.2⟩

/-- `checkLoader` looks at the loader only through `check`. -/
theorem checkLoader_setLoader (ty : AType) (w : World) (l l2 : Loader)
    (hl : w.loader ty = some l) (hc : l2.check = l.check) :
    checkLoader ty (w.setLoader ty (some l2)) = checkLoader ty w := by
  unfold checkLoader
  simp only [setLoader_mixer, setLoader_loader, setLoader_currentId, if_true, hl]
  cases hm : w.mixer with
  | none => rfl
  | some m =>
    dsimp only
    cases ht : m.trackForType ty with
    | none => rfl
    | some t => simp only [hc]

/-- The loop is never left both finished and waiting, and when it is left
waiting the locals are empty. -/
theorem decodeLoop_flags (ty : AType) (w : World) (force : Bool) (reads : List ReadStep) :
    ∀ (samples : List Nat) (count : Int) (errAtStart finished waiting : Bool),
      (decodeLoop ty w force reads samples count errAtStart).exit
          = LoopExit.left finished waiting →
        (waiting = true → finished = false
          ∧ (decodeLoop ty w force reads samples count errAtStart).count = 0) := by
  induction reads with
  | nil =>
    intro samples count errAtStart finished waiting h hw
    unfold decodeLoop at h
    split at h <;> simp at h <;> simp [hw] at h
  | cons s rest ih =>
    intro samples count errAtStart finished waiting h hw
    unfold decodeLoop at h ⊢
    by_cases hlt : samples.length < kPlaybackBufferSize
    · rw [if_pos hlt] at h ⊢
      cases hres : s.res with
      | error =>
        simp only [hres] at h ⊢
        by_cases he : errAtStart = true
        · simp [he] at h
        · simp [he] at h
          simp [hw] at h
      | endOfFile =>
        simp only [hres] at h ⊢
        simp at h
        simp [hw] at h
      | ok =>
        simp only [hres] at h ⊢
        cases hc : checkLoader ty w with
        | none => simp [hc] at h
        | some t =>
          simp only [hc] at h ⊢
          exact ih _ _ _ _ _ h hw
      | wait =>
        simp only [hres] at h ⊢
        by_cases hwt : (samples ++ s.bytes).length < kPlaybackBufferSize ∧ force = false
        · rw [if_pos hwt] at h ⊢
          simp at h
          exact ⟨h.1, rfl⟩
        · rw [if_neg hwt] at h
          simp at h
          simp [hw] at h
    · rw [if_neg hlt] at h
      simp at h
      simp [hw] at h

/-- While `readMore` reports `Ok`, the track passes `checkLoader` and the
buffer stays below the budget, the loop goes on reading. -/
theorem decodeLoop_oks (ty : AType) (w : World) (force : Bool) (track : Track)
    (hck : checkLoader ty w = some track) (pre : List ReadStep) :
    ∀ (tail : List ReadStep) (samples : List Nat) (count : Int) (errAtStart : Bool),
      (∀ x ∈ pre, x.res = ReadResult.ok) →
      (samples ++ bytesOf pre).length < kPlaybackBufferSize →
      decodeLoop ty w force (pre ++ tail) samples count errAtStart
        = decodeLoop ty w force tail (samples ++ bytesOf pre) (count + countOf pre)
            (errAtStart && pre.isEmpty) := by
  induction pre with
  | nil =>
    intro tail samples count errAtStart _ _
    simp [bytesOf, countOf]
  | cons x pre ih =>
    intro tail samples count errAtStart hpre hsize
    have hx : x.res = ReadResult.ok := hpre x (List.mem_cons_self _ _)
    have hb : bytesOf (x :: pre) = x.bytes ++ bytesOf pre := rfl
    have hcnt : countOf (x :: pre) = x.count + countOf pre := by
      simp [countOf]
    rw [hb] at hsize
    have hlt : samples.length < kPlaybackBufferSize := by
      simp only [List.length_append] at hsize
      omega
    rw [List.cons_append]
    conv_lhs => unfold decodeLoop
    rw [if_pos hlt]
    simp only [hx, hck]
    rw [ih tail (samples ++ x.bytes) (count + x.count) false
      (fun y hy => hpre y (List.mem_cons_of_mem _ hy))
      (by rw [List.append_assoc]; exact hsize)]
    rw [hb, hcnt, List.append_assoc, add_assoc]
    simp

/-- The loop over a script that reports `Ok` some times and then `Wait`, the
buffer staying below the budget and `forceToBuffer` being off: the samples
accumulated are saved for the loader and the loop is left waiting. -/
theorem decodeLoop_wait (ty : AType) (w : World) (track : Track)
    (hck : checkLoader ty w = some track) (pre : List ReadStep) (s : ReadStep)
    (rest : List ReadStep) (samples : List Nat) (count : Int) (errAtStart : Bool)
    (hpre : ∀ x ∈ pre, x.res = ReadResult.ok) (hwait : s.res = ReadResult.wait)
    (hsize : (samples ++ bytesOf pre ++ s.bytes).length < kPlaybackBufferSize) :
    decodeLoop ty w false (pre ++ s :: rest) samples count errAtStart
      = ⟨LoopExit.left false true, [], 0, rest,
          some (samples ++ bytesOf pre ++ s.bytes, count + countOf pre + s.count)⟩ := by
  have hlt : (samples ++ bytesOf pre).length < kPlaybackBufferSize := by
    simp only [List.length_append] at hsize ⊢
    omega
  rw [decodeLoop_oks ty w false track hck pre (s :: rest) samples count errAtStart hpre hlt]
  unfold decodeLoop
  rw [if_pos hlt]
  simp only [hwait]
  rw [if_pos ⟨hsize, trivial⟩]

/-- The part of `loadData` after the loop, when the loop was left waiting. -/
theorem afterLoop_waiting (d : DeviceEnv) (audio : AudioMsgId) (positionMs : Int)
    (started finished : Bool) (l : Loader) (samples : List Nat) (w : World) (track : Track)
    (hck : checkLoader audio.type w = some track)
    (hdev : started = true → d.startedOk = true) :
    afterLoop d audio positionMs started finished true l samples 0 w
      = if started then
          ((w.emit (Event.device DeviceCall.attachToDevice)).emit
            (Event.device (DeviceCall.trackStarted audio.type))).modifyTrack audio.type
              (Track.initStarted l positionMs)
        else w := by
  unfold afterLoop
  simp only [hck]
  have h1 : ¬ (started = true ∧ d.startedOk = false) := by
    intro h
    rw [hdev h.1] at h
    exact Bool.noConfusion h.2
  rw [if_neg h1]
  cases started <;> simp

/-- C11, as stated, fails: the new loader of a pass for `songX` reports `Wait`
at its first `readMore`, below the budget and with `forceToBuffer` off, and
the device reports an error after `track->started()`; `error(songX)` is
emitted and the loader, with the samples saved on it, is destroyed. -/
theorem loadData_wait_device_error :
    (loadData (envStartFails (plainLoader 10 [⟨ReadResult.wait, [1], 1⟩])) songX 0
        (songWorld false none)).errors = [songX]
      ∧ (loadData (envStartFails (plainLoader 10 [⟨ReadResult.wait, [1], 1⟩])) songX 0
        (songWorld false none)).songLoader.isNone = true
      ∧ (loadData (envStartFails (plainLoader 10 [⟨ReadResult.wait, [1], 1⟩])) songX 0
        (songWorld false none)).song = AudioMsgId.empty := by
  refine ⟨rfl, rfl, rfl⟩

/-- C11, amended: in `loadData`, when `readMore` (after any number of `Ok`
results) reports `Wait` with the working buffer below `kPlaybackBufferSize`
and `forceToBuffer()` false, the track passes `checkLoader` and, if the loader
was made in this pass, the device reports no error after `track->started()`:
the samples accumulated and their count are saved on the loader, exactly as
accumulated, no error is emitted, no buffer is submitted, the track stays
loading, and the id stays current for the type with that loader. -/
theorem loadData_wait_saves (env : Env) (audio : AudioMsgId) (positionMs : Int) (w : World)
    (l : Loader) (err : SetupError) (w1 : World) (track : Track)
    (pre : List ReadStep) (s : ReadStep) (rest : List ReadStep)
    (hs : setupLoader env audio positionMs w = (some l, err, w1))
    (hreads : l.reads = pre ++ s :: rest) (hpre : ∀ x ∈ pre, x.res = ReadResult.ok)
    (hwait : s.res = ReadResult.wait)
    (hsize : (l.seed.1 ++ bytesOf pre ++ s.bytes).length < kPlaybackBufferSize)
    (hforce : l.force = false) (hck : checkLoader audio.type w1 = some track)
    (hdev : err = SetupError.setupNoErrorStarted → (env.device audio).startedOk = true) :
    (loadData env audio positionMs w).loader audio.type
        = some { l with
            reads := rest
            saved := some (l.seed.1 ++ bytesOf pre ++ s.bytes,
              l.seed.2 + countOf pre + s.count) }
      ∧ (loadData env audio positionMs w).currentId audio.type = audio
      ∧ (loadData env audio positionMs w).errors = w.errors
      ∧ (loadData env audio positionMs w).sizes = w.sizes
      ∧ ((loadData env audio positionMs w).track audio.type).map (fun t => t.loading)
          = some true := by
  obtain ⟨hid, hldr, herrs, _⟩ := setupLoader_some env audio positionMs w l err w1 hs
  have hsz : w1.sizes = w.sizes := by
    have := setupLoader_sizes env audio positionMs w
    rw [hs] at this
    exact this
  have hr : decodeLoop audio.type w1 l.force l.reads l.seed.1 l.seed.2
      (decide (err = SetupError.setupNoErrorStarted))
      = ⟨LoopExit.left false true, [], 0, rest,
          some (l.seed.1 ++ bytesOf pre ++ s.bytes, l.seed.2 + countOf pre + s.count)⟩ := by
    rw [hforce, hreads]
    exact decodeLoop_wait audio.type w1 track hck pre s rest l.seed.1 l.seed.2
      (decide (err = SetupError.setupNoErrorStarted)) hpre hwait hsize
  have hck2 : checkLoader audio.type (w1.setLoader audio.type (some { l with
      reads := rest
      saved := some (l.seed.1 ++ bytesOf pre ++ s.bytes, l.seed.2 + countOf pre + s.count) }))
      = some track := by
    exact (checkLoader_setLoader audio.type w1 l { l with
      reads := rest
      saved := some (l.seed.1 ++ bytesOf pre ++ s.bytes, l.seed.2 + countOf pre + s.count) }
      hldr rfl).trans hck
  rw [loadData_of_setup env audio positionMs w l err w1 hs _ hr false true rfl]
  simp only []
  rw [afterLoop_waiting _ _ _ _ _ _ _ _ track hck2 (by simpa using hdev)]
  obtain ⟨htr, _, hloading, _⟩ := checkLoader_some _ _ _ hck
  by_cases hst : err = SetupError.setupNoErrorStarted
  · simp [hst, hid, herrs, hsz, htr, hloading, Event.errorId, Event.bufferSize,
      Track.initStarted]
  · simp [hst, hid, herrs, hsz, htr, hloading]

/-- C11 amended, at a concrete state: a song loader that reports `Wait` with
one byte decoded, on a device in order. -/
theorem loadData_wait_saves_witness :
    ((loadData (envWith (plainLoader 10 [⟨ReadResult.wait, [1], 1⟩])) songX 0
        (songWorld false none)).loader songX.type).map (fun l => (l.saved, l.reads))
        = some (some ([1], 1), [])
      ∧ (loadData (envWith (plainLoader 10 [⟨ReadResult.wait, [1], 1⟩])) songX 0
        (songWorld false none)).errors = (songWorld false none).errors :=
  have h := loadData_wait_saves (envWith (plainLoader 10 [⟨ReadResult.wait, [1], 1⟩])) songX 0
    (songWorld false none) (plainLoader 10 [⟨ReadResult.wait, [1], 1⟩])
    SetupError.setupNoErrorStarted
    (setupLoader (envWith (plainLoader 10 [⟨ReadResult.wait, [1], 1⟩])) songX 0
      (songWorld false none)).2.2
    { idleTrack songX true false with
      state := { (idleTrack songX true false).state with length := 10, frequency := 48000 } }
    [] ⟨ReadResult.wait, [1], 1⟩ [] rfl rfl (fun _ h => nomatch h) rfl (by decide) rfl rfl
    (fun _ => rfl)
  ⟨by rw [h.1]; rfl, h.2.2.1⟩

/-- The part of `loadData` after the loop, when there are samples to submit,
the device reports no error and no buffer slot is free. -/
theorem afterLoop_noSlot (d : DeviceEnv) (audio : AudioMsgId) (positionMs : Int)
    (started finished waiting : Bool) (l : Loader) (samples : List Nat) (count : Int)
    (w : World) (track : Track) (hck : checkLoader audio.type w = some track)
    (hdev : started = true → d.startedOk = true) (hc : count ≠ 0)
    (hslot : d.slotOk = true) (hidx : d.bufferIndex < 0) :
    afterLoop d audio positionMs started finished waiting l samples count w
      = ((((if started then
              ((w.emit (Event.device DeviceCall.attachToDevice)).emit
                (Event.device (DeviceCall.trackStarted audio.type))).modifyTrack audio.type
                  (Track.initStarted l positionMs)
            else w).emit (Event.device (DeviceCall.ensureStreamCreated audio.type))).emit
          (Event.device (DeviceCall.getNotQueuedBufferIndex audio.type))).setLoader audio.type
            (some { l with saved := some (samples, count) })) := by
  unfold afterLoop
  simp only [hck]
  have h1 : ¬ (started = true ∧ d.startedOk = false) := by
    intro h
    rw [hdev h.1] at h
    exact Bool.noConfusion h.2
  have h2 : ¬ d.slotOk = false := by simp [hslot]
  rw [if_neg h1, if_pos hc, if_neg h2, if_pos hidx]
  cases started <;> simp

/-- C12: in `loadData`, when samples were accumulated (`samplesCount > 0`), the
track passes `checkLoader`, the device reports no error and
`getNotQueuedBufferIndex()` returns a negative index: the samples and their
count are saved on the loader as they are, the loader's `forceToBuffer` flag is
as before, the id stays current for the type, no error is emitted, the only
device calls after `setupLoader` are those of the start of the stream (when
the loader was made in this pass), `ensureStreamCreated` and
`getNotQueuedBufferIndex` (no buffer is submitted or queued), and no buffer
slot, `samplesCount` entry, `bufferedLength`, `loading` or `loaded` of the
track is written. -/
theorem loadData_no_free_buffer (env : Env) (audio : AudioMsgId) (positionMs : Int)
    (w : World) (l : Loader) (err : SetupError) (w1 : World) (track : Track)
    (r : LoopResult) (finished waiting : Bool)
    (hs : setupLoader env audio positionMs w = (some l, err, w1))
    (hr : decodeLoop audio.type w1 l.force l.reads l.seed.1 l.seed.2
      (decide (err = SetupError.setupNoErrorStarted)) = r)
    (hexit : r.exit = LoopExit.left finished waiting) (hcount : 0 < r.count)
    (hck : checkLoader audio.type w1 = some track)
    (hdev : err = SetupError.setupNoErrorStarted → (env.device audio).startedOk = true)
    (hslot : (env.device audio).slotOk = true) (hidx : (env.device audio).bufferIndex < 0) :
    (loadData env audio positionMs w).loader audio.type
        = some { l with reads := r.reads, saved := some (r.samples, r.count) }
      ∧ (loadData env audio positionMs w).currentId audio.type = audio
      ∧ (loadData env audio positionMs w).errors = w.errors
      ∧ (loadData env audio positionMs w).sizes = w.sizes
      ∧ (loadData env audio positionMs w).log
          = w1.log ++ (if err = SetupError.setupNoErrorStarted then
              [Event.device DeviceCall.attachToDevice,
                Event.device (DeviceCall.trackStarted audio.type)] else [])
            ++ [Event.device (DeviceCall.ensureStreamCreated audio.type),
              Event.device (DeviceCall.getNotQueuedBufferIndex audio.type)]
      ∧ ((loadData env audio positionMs w).track audio.type).map Track.loadView
          = (w.track audio.type).map Track.loadView := by
  obtain ⟨hid, hldr, herrs, _⟩ := setupLoader_some env audio positionMs w l err w1 hs
  have hsz : w1.sizes = w.sizes := by
    have := setupLoader_sizes env audio positionMs w
    rw [hs] at this
    exact this
  have hview : (w1.track audio.type).map Track.loadView
      = (w.track audio.type).map Track.loadView := by
    have := setupLoader_loadView env audio positionMs w
    rw [hs] at this
    exact this
  have hck2 : checkLoader audio.type (w1.setLoader audio.type
      (some { l with reads := r.reads, saved := r.saved })) = some track :=
    (checkLoader_setLoader audio.type w1 l { l with reads := r.reads, saved := r.saved }
      hldr rfl).trans hck
  rw [loadData_of_setup env audio positionMs w l err w1 hs r hr finished waiting hexit,
    afterLoop_noSlot _ _ _ _ _ _ _ _ _ _ track hck2 (by simpa using hdev)
      (ne_of_gt hcount) hslot hidx]
  by_cases hst : err = SetupError.setupNoErrorStarted
  · simp [hst, hid, herrs, hsz, ← hview, Event.errorId, Event.bufferSize, Option.map_map,
      Function.comp_def, Track.loadView, Track.initStarted]
    rfl
  · simp [hst, hid, herrs, hsz, ← hview, Event.errorId, Event.bufferSize]

/-- C12 at a concrete state: a new song loader decodes two bytes and ends, and
no buffer slot of the device is free. -/
theorem loadData_no_free_buffer_witness :
    ((loadData (envNoFreeBuffer (plainLoader 10 [⟨ReadResult.ok, [1, 2], 1⟩])) songX 0
        (songWorld false none)).loader songX.type).map (fun l => (l.saved, l.force))
        = some (some ([1, 2], 1), false)
      ∧ (loadData (envNoFreeBuffer (plainLoader 10 [⟨ReadResult.ok, [1, 2], 1⟩])) songX 0
        (songWorld false none)).errors = (songWorld false none).errors :=
  have h := loadData_no_free_buffer
    (envNoFreeBuffer (plainLoader 10 [⟨ReadResult.ok, [1, 2], 1⟩])) songX 0
    (songWorld false none) (plainLoader 10 [⟨ReadResult.ok, [1, 2], 1⟩])
    SetupError.setupNoErrorStarted
    (setupLoader (envNoFreeBuffer (plainLoader 10 [⟨ReadResult.ok, [1, 2], 1⟩])) songX 0
      (songWorld false none)).2.2
    { idleTrack songX true false with
      state := { (idleTrack songX true false).state with length := 10, frequency := 48000 } }
    ⟨LoopExit.left true false, [1, 2], 1, [], none⟩ true false rfl rfl rfl (by decide) rfl
    (fun _ => rfl) rfl (by decide)
  ⟨by rw [h.1]; rfl, h.2.2.1⟩

/-- The end of `loadData` writes the track only through `setStoppedState`. -/
theorem startPlayback_track (d : DeviceEnv) (ty : AType) (track : Track) (w : World) :
    (startPlayback d ty track w).track ty = w.track ty
      ∨ (startPlayback d ty track w).track ty
          = (w.track ty).map (Track.setState State.stoppedAtError) := by
  unfold startPlayback
  split_ifs <;> simp

/-- The end of `loadData` leaves a cleared slot cleared. -/
theorem startPlayback_cleared (d : DeviceEnv) (ty : AType) (track : Track) (w : World)
    (h1 : w.currentId ty = AudioMsgId.empty) (h2 : w.loader ty = none) :
    (startPlayback d ty track w).currentId ty = AudioMsgId.empty
      ∧ (startPlayback d ty track w).loader ty = none := by
  unfold startPlayback
  split_ifs <;> simp [h1, h2]

/-- What `loadData` leaves when it comes to its `if (finished)` block with
`finished` set. -/
theorem finishPass_finished (d : DeviceEnv) (ty : AType) (track : Track) (w : World)
    (t0 : Track) (ht : w.track ty = some t0) :
    (finishPass d ty true track w).currentId ty = AudioMsgId.empty
      ∧ (finishPass d ty true track w).loader ty = none
      ∧ ∃ t, (finishPass d ty true track w).track ty = some t ∧ t.loaded = true
          ∧ t.loading = false
          ∧ t.state.length = t0.bufferedPosition + t0.bufferedLength
          ∧ t.bufferedPosition = t0.bufferedPosition
          ∧ t.bufferedLength = t0.bufferedLength := by
  unfold finishPass
  simp only [if_true]
  obtain ⟨c1, c2⟩ := startPlayback_cleared d ty { track.markLoaded with loading := false }
    ((clear ty (w.modifyTrack ty Track.markLoaded)).2.modifyTrack ty
      (fun t => { t with loading := false })) (by simp) (by simp)
  refine ⟨c1, c2, ?_⟩
  rcases startPlayback_track d ty { track.markLoaded with loading := false }
    ((clear ty (w.modifyTrack ty Track.markLoaded)).2.modifyTrack ty
      (fun t => { t with loading := false })) with h | h
  · rw [h]
    simp [ht, Track.markLoaded]
  · rw [h]
    simp [ht, Track.markLoaded, Track.setState]

/-- The same, from the buffered length of the track alone. -/
theorem finishPass_length (d : DeviceEnv) (ty : AType) (track : Track) (w : World)
    (b : Int) (h : (w.track ty).map (fun t => t.bufferedLength) = some b) :
    (finishPass d ty true track w).currentId ty = AudioMsgId.empty
      ∧ (finishPass d ty true track w).loader ty = none
      ∧ ∃ t, (finishPass d ty true track w).track ty = some t ∧ t.loaded = true
          ∧ t.loading = false
          ∧ t.state.length = t.bufferedPosition + t.bufferedLength
          ∧ t.bufferedLength = b := by
  cases ht : w.track ty with
  | none => simp [ht] at h
  | some t0 =>
    rw [ht] at h
    simp only [Option.map_some', Option.some.injEq] at h
    obtain ⟨c1, c2, t, e1, e2, e3, e4, e5, e6⟩ := finishPass_finished d ty track w t0 ht
    exact ⟨c1, c2, t, e1, e2, e3, by rw [e4, e5, e6], by rw [e6, h]⟩

/-- The part of `loadData` after the loop, when the pass ends as finished: the
loop was left finished or without samples, not waiting, and the device took
what there was to submit. -/
theorem afterLoop_finished (d : DeviceEnv) (audio : AudioMsgId) (positionMs : Int)
    (started finished : Bool) (l : Loader) (samples : List Nat) (count : Int)
    (w : World) (track : Track) (hck : checkLoader audio.type w = some track)
    (hdev : started = true → d.startedOk = true)
    (hfin : finished = true ∨ count = 0)
    (hsub : count ≠ 0 → d.slotOk = true ∧ ¬ d.bufferIndex < 0 ∧ d.queueOk = true) :
    (afterLoop d audio positionMs started finished false l samples count w).currentId
        audio.type = AudioMsgId.empty
      ∧ (afterLoop d audio positionMs started finished false l samples count w).loader
        audio.type = none
      ∧ ∃ t, (afterLoop d audio positionMs started finished false l samples count w).track
            audio.type = some t
          ∧ t.loaded = true ∧ t.loading = false
          ∧ t.state.length = t.bufferedPosition + t.bufferedLength
          ∧ t.bufferedLength = track.bufferedLength + count := by
  obtain ⟨htr, _, _, _⟩ := checkLoader_some _ _ _ hck
  unfold afterLoop
  simp only [hck]
  have h1 : ¬ (started = true ∧ d.startedOk = false) := by
    intro h
    rw [hdev h.1] at h
    exact Bool.noConfusion h.2
  rw [if_neg h1]
  by_cases hc : count ≠ 0
  · obtain ⟨s1, s2, s3⟩ := hsub hc
    have hf : finished = true := hfin.resolve_right hc
    have s1n : ¬ d.slotOk = false := by simp [s1]
    have s3n : ¬ d.queueOk = false := by simp [s3]
    rw [if_pos hc, if_neg s1n, if_neg s2, if_neg s3n, hf]
    refine finishPass_length _ _ _ _ (track.bufferedLength + count) ?_
    cases started <;> simp [htr, Track.store, Track.initStarted]
  · have hc0 : count = 0 := not_not.mp hc
    rw [if_neg hc]
    simp only [Bool.false_eq_true, if_false]
    refine finishPass_length _ _ _ _ (track.bufferedLength + count) ?_
    cases started <;> simp [htr, Track.initStarted, hc0]

/-- C15, as stated, fails: the new loader of a pass for `songX` decodes two
bytes and reports `EndOfFile` (the loop is left finished), the track passes
`checkLoader` and the device reports no error, but no buffer slot is free: the
samples are saved on the loader and the pass returns with the track not
loaded, still loading, and the id still current with its loader. -/
theorem loadData_finished_no_slot :
    (decodeLoop songX.type
        (setupLoader (envNoFreeBuffer (plainLoader 10
          [⟨ReadResult.ok, [1, 2], 1⟩, ⟨ReadResult.endOfFile, [], 0⟩])) songX 0
            (songWorld false none)).2.2
        false [⟨ReadResult.ok, [1, 2], 1⟩, ⟨ReadResult.endOfFile, [], 0⟩] [] 0 true).exit
        = LoopExit.left true false
      ∧ ((envNoFreeBuffer (plainLoader 10 [])).device songX).allOk
      ∧ (endedNoFreeBuffer.track AType.song).map (fun t => (t.loaded, t.loading))
        = some (false, true)
      ∧ endedNoFreeBuffer.song = songX
      ∧ endedNoFreeBuffer.songLoader.isSome = true
      ∧ endedNoFreeBuffer.errors = [] := by
  refine ⟨rfl, ⟨rfl, rfl, rfl, rfl, rfl, rfl, rfl⟩, rfl, rfl, rfl, rfl⟩

/-- C15, amended: when a pass of `loadData` ends as finished (the loop was left
on `EndOfFile` or on `Error` after data, or no samples were accumulated and the
pass is not waiting), the track passes `checkLoader`, the device reports no
error and, when samples were accumulated, `getNotQueuedBufferIndex()` gave a
free slot: on return the track is loaded and not loading, `state.length` is
`bufferedPosition + bufferedLength`, with `bufferedLength` counting the
samples submitted in this pass, and the type has the empty id and no loader. -/
theorem loadData_finished (env : Env) (audio : AudioMsgId) (positionMs : Int)
    (w : World) (l : Loader) (err : SetupError) (w1 : World) (track : Track)
    (r : LoopResult) (finished waiting : Bool)
    (hs : setupLoader env audio positionMs w = (some l, err, w1))
    (hr : decodeLoop audio.type w1 l.force l.reads l.seed.1 l.seed.2
      (decide (err = SetupError.setupNoErrorStarted)) = r)
    (hexit : r.exit = LoopExit.left finished waiting)
    (hfin : finished = true ∨ (r.count = 0 ∧ waiting = false))
    (hck : checkLoader audio.type w1 = some track)
    (hdev : err = SetupError.setupNoErrorStarted → (env.device audio).startedOk = true)
    (hsub : r.count ≠ 0 → (env.device audio).slotOk = true
      ∧ ¬ (env.device audio).bufferIndex < 0 ∧ (env.device audio).queueOk = true) :
    (loadData env audio positionMs w).currentId audio.type = AudioMsgId.empty
      ∧ (loadData env audio positionMs w).loader audio.type = none
      ∧ ∃ t, (loadData env audio positionMs w).track audio.type = some t
          ∧ t.loaded = true ∧ t.loading = false
          ∧ t.state.length = t.bufferedPosition + t.bufferedLength
          ∧ t.bufferedLength = track.bufferedLength + r.count := by
  obtain ⟨_, hldr, _, _⟩ := setupLoader_some env audio positionMs w l err w1 hs
  have hck2 : checkLoader audio.type (w1.setLoader audio.type
      (some { l with reads := r.reads, saved := r.saved })) = some track :=
    (checkLoader_setLoader audio.type w1 l { l with reads := r.reads, saved := r.saved }
      hldr rfl).trans hck
  have hw : waiting = false := by
    cases hwt : waiting with
    | false => rfl
    | true =>
      subst hr
      obtain ⟨f1, _⟩ := decodeLoop_flags _ _ _ _ _ _ _ _ _ hexit hwt
      rcases hfin with h | h
      · rw [f1] at h
        exact Bool.noConfusion h
      · rw [hwt] at h
        exact Bool.noConfusion h.2
  subst hw
  rw [loadData_of_setup env audio positionMs w l err w1 hs r hr finished false hexit]
  exact afterLoop_finished _ _ _ _ _ _ _ _ _ track hck2 (by simpa using hdev)
    (hfin.imp id (fun h => h.1)) hsub

/-- C15 amended, at a concrete state: a new song loader decodes three bytes and
its stream ends, on a device in order with slot 0 free. -/
theorem loadData_finished_witness :
    (oneChunkPass [1, 2, 3]).currentId songX.type = AudioMsgId.empty
      ∧ (oneChunkPass [1, 2, 3]).loader songX.type = none
      ∧ ∃ t, (oneChunkPass [1, 2, 3]).track songX.type = some t
          ∧ t.loaded = true ∧ t.loading = false
          ∧ t.state.length = t.bufferedPosition + t.bufferedLength
          ∧ t.bufferedLength = 0 + 1 :=
  loadData_finished (envWith (plainLoader 100 [⟨ReadResult.ok, [1, 2, 3], 1⟩])) songX 0
    (songWorld false none) (plainLoader 100 [⟨ReadResult.ok, [1, 2, 3], 1⟩])
    SetupError.setupNoErrorStarted
    (setupLoader (envWith (plainLoader 100 [⟨ReadResult.ok, [1, 2, 3], 1⟩])) songX 0
      (songWorld false none)).2.2
    { idleTrack songX true false with
      state := { (idleTrack songX true false).state with length := 100, frequency := 48000 } }
    ⟨LoopExit.left true false, [1, 2, 3], 1, [], none⟩ true false rfl rfl rfl (Or.inl rfl) rfl
    (fun _ => rfl) (fun _ => ⟨rfl, by decide, rfl⟩)

/-- The loop over a script that reports `Ok` some times and then `Error`, the
buffer staying below the budget: a start failure when `errAtStart` is still
set (no `Ok` came), the end of the stream otherwise. -/
theorem decodeLoop_error (ty : AType) (w : World) (force : Bool) (track : Track)
    (hck : checkLoader ty w = some track) (pre : List ReadStep) (s : ReadStep)
    (rest : List ReadStep) (samples : List Nat) (count : Int) (errAtStart : Bool)
    (hpre : ∀ x ∈ pre, x.res = ReadResult.ok) (herr : s.res = ReadResult.error)
    (hsize : (samples ++ bytesOf pre).length < kPlaybackBufferSize) :
    decodeLoop ty w force (pre ++ s :: rest) samples count errAtStart
      = ⟨if (errAtStart && pre.isEmpty) = true then LoopExit.errorAtStart
          else LoopExit.left true false,
          samples ++ bytesOf pre ++ s.bytes, count + countOf pre + s.count, rest, none⟩ := by
  rw [decodeLoop_oks ty w force track hck pre (s :: rest) samples count errAtStart hpre hsize]
  unfold decodeLoop
  rw [if_pos hsize]
  simp only [herr]
  split <;> rfl

/-- `loadData` when the loop ends on a start failure. -/
theorem loadData_errorAtStart (env : Env) (audio : AudioMsgId) (positionMs : Int) (w : World)
    (l : Loader) (err : SetupError) (w1 : World) (track : Track)
    (hs : setupLoader env audio positionMs w = (some l, err, w1)) (r : LoopResult)
    (hr : decodeLoop audio.type w1 l.force l.reads l.seed.1 l.seed.2
      (decide (err = SetupError.setupNoErrorStarted)) = r)
    (hexit : r.exit = LoopExit.errorAtStart)
    (hck : checkLoader audio.type
      (w1.setLoader audio.type (some { l with reads := r.reads, saved := r.saved }))
        = some track) :
    loadData env audio positionMs w
      = emitError audio.type
          ((w1.setLoader audio.type (some { l with reads := r.reads, saved := r.saved })).modifyTrack
            audio.type (Track.setState State.stoppedAtStart)) := by
  subst hr
  unfold loadData
  rw [hs]
  simp only [hexit, hck]

theorem startPlayback_errors (d : DeviceEnv) (ty : AType) (track : Track) (w : World)
    (hd : d.allOk) : (startPlayback d ty track w).errors = w.errors := by
  obtain ⟨_, _, _, h4, h5, h6, h7⟩ := hd
  unfold startPlayback
  split_ifs <;> simp_all [Event.errorId]

theorem finishPass_errors (d : DeviceEnv) (ty : AType) (finished : Bool) (track : Track)
    (w : World) (hd : d.allOk) : (finishPass d ty finished track w).errors = w.errors := by
  unfold finishPass
  rw [startPlayback_errors _ _ _ _ hd]
  cases finished <;> simp

/-- With the device in order the part of `loadData` after the loop emits no
error. -/
theorem afterLoop_errors (d : DeviceEnv) (audio : AudioMsgId) (positionMs : Int)
    (started finished waiting : Bool) (l : Loader) (samples : List Nat) (count : Int)
    (w : World) (hd : d.allOk) :
    (afterLoop d audio positionMs started finished waiting l samples count w).errors
      = w.errors := by
  have hd2 := hd
  obtain ⟨h1, h2, h3, _⟩ := hd2
  unfold afterLoop
  split
  · simp
  · dsimp only
    have hst : ¬ (started = true ∧ d.startedOk = false) := by simp [h1]
    have hslot : ¬ d.slotOk = false := by simp [h2]
    have hq : ¬ d.queueOk = false := by simp [h3]
    rw [if_neg hst]
    by_cases hc : count ≠ 0
    · rw [if_pos hc, if_neg hslot]
      by_cases hidx : d.bufferIndex < 0
      · rw [if_pos hidx]
        cases started <;> simp [Event.errorId]
      · rw [if_neg hidx, if_neg hq, finishPass_errors _ _ _ _ _ hd]
        cases started <;> simp [Event.errorId]
    · rw [if_neg hc]
      cases waiting
      · simp only [Bool.false_eq_true, if_false]
        rw [finishPass_errors _ _ _ _ _ hd]
        cases started <;> simp [Event.errorId]
      · cases started <;> simp [Event.errorId]

/-- C14, as stated, fails: the loader `onStart(videoX)` makes reports `Wait` at
its first `readMore`, nothing decoded; at the next pass (`onLoad`) `readMore`
reports `Error`.  No `readMore` call has returned `Ok` for the id, yet the
pass is not a start failure: no error is emitted, the track is not put in
`StoppedAtStart` and it is marked loaded. -/
theorem read_error_after_wait :
    waitedOnce.videoLoader.map (fun l => l.reads) = some [⟨ReadResult.error, [], 0⟩]
      ∧ waitedOnce.errors = []
      ∧ thenFailed.errors = []
      ∧ (thenFailed.track AType.video).map (fun t => (t.state.state, t.loaded))
        = some (State.starting, true) := by
  refine ⟨rfl, rfl, rfl, rfl⟩

/-- C14, amended: in `loadData`, when `readMore` (after any number of `Ok`
results, the buffer below the budget) reports `Error` and the track passes
`checkLoader`: if the loader was made in this pass and no `readMore` of this
pass has returned `Ok`, the pass is a start failure (the track goes to
`StoppedAtStart`, `error(id)` is emitted, nothing is submitted, the slot is
cleared); otherwise, the loader being one of an earlier pass or an `Ok` having
come before in this pass, the loop is left as finished and, the device being
in order, no error is emitted. -/
theorem loadData_read_error (env : Env) (audio : AudioMsgId) (positionMs : Int) (w : World)
    (l : Loader) (err : SetupError) (w1 : World) (track : Track)
    (pre : List ReadStep) (s : ReadStep) (rest : List ReadStep)
    (hs : setupLoader env audio positionMs w = (some l, err, w1))
    (hreads : l.reads = pre ++ s :: rest) (hpre : ∀ x ∈ pre, x.res = ReadResult.ok)
    (herr : s.res = ReadResult.error)
    (hsize : (l.seed.1 ++ bytesOf pre).length < kPlaybackBufferSize)
    (hck : checkLoader audio.type w1 = some track) :
    (err = SetupError.setupNoErrorStarted → pre = [] →
        (loadData env audio positionMs w).errors = w.errors ++ [audio]
          ∧ (loadData env audio positionMs w).sizes = w.sizes
          ∧ ((loadData env audio positionMs w).track audio.type).map (fun t => t.state.state)
              = some State.stoppedAtStart
          ∧ (loadData env audio positionMs w).currentId audio.type = AudioMsgId.empty
          ∧ (loadData env audio positionMs w).loader audio.type = none)
      ∧ ((err ≠ SetupError.setupNoErrorStarted ∨ pre ≠ []) →
          (decodeLoop audio.type w1 l.force l.reads l.seed.1 l.seed.2
              (decide (err = SetupError.setupNoErrorStarted))).exit = LoopExit.left true false
            ∧ ((env.device audio).allOk →
                (loadData env audio positionMs w).errors = w.errors)) := by
  obtain ⟨hid, hldr, herrs, _⟩ := setupLoader_some env audio positionMs w l err w1 hs
  have hsz : w1.sizes = w.sizes := by
    have := setupLoader_sizes env audio positionMs w
    rw [hs] at this
    exact this
  have hr := decodeLoop_error audio.type w1 l.force track hck pre s rest l.seed.1 l.seed.2
    (decide (err = SetupError.setupNoErrorStarted)) hpre herr hsize
  rw [← hreads] at hr
  obtain ⟨htr, _, _, _⟩ := checkLoader_some _ _ _ hck
  constructor
  · intro hst hp
    have hexit : (decodeLoop audio.type w1 l.force l.reads l.seed.1 l.seed.2
        (decide (err = SetupError.setupNoErrorStarted))).exit = LoopExit.errorAtStart := by
      rw [hr]
      simp [hst, hp]
    have hck2 := (checkLoader_setLoader audio.type w1 l
      { l with
        reads := (decodeLoop audio.type w1 l.force l.reads l.seed.1 l.seed.2
          (decide (err = SetupError.setupNoErrorStarted))).reads
        saved := (decodeLoop audio.type w1 l.force l.reads l.seed.1 l.seed.2
          (decide (err = SetupError.setupNoErrorStarted))).saved } hldr rfl).trans hck
    rw [loadData_errorAtStart env audio positionMs w l err w1 track hs _ rfl hexit hck2]
    simp [hid, herrs, hsz, htr, Track.setState]
  · intro hne
    have hexit : (decodeLoop audio.type w1 l.force l.reads l.seed.1 l.seed.2
        (decide (err = SetupError.setupNoErrorStarted))).exit = LoopExit.left true false := by
      rw [hr]
      rcases hne with h | h
      · simp [h]
      · have : pre.isEmpty = false := by
          cases pre with
          | nil => exact absurd rfl h
          | cons _ _ => rfl
        simp [this]
    refine ⟨hexit, fun hd => ?_⟩
    rw [loadData_of_setup env audio positionMs w l err w1 hs _ rfl true false hexit,
      afterLoop_errors _ _ _ _ _ _ _ _ _ _ hd]
    simp [herrs]

/-- C14 amended, at concrete states: a new song loader whose first `readMore`
reports `Error`, and one that first decodes a byte. -/
theorem loadData_read_error_witness :
    (loadData (envWith (plainLoader 10 [⟨ReadResult.error, [], 0⟩])) songX 0
        (songWorld false none)).errors = (songWorld false none).errors ++ [songX]
      ∧ (loadData (envWith (plainLoader 10
          [⟨ReadResult.ok, [1], 1⟩, ⟨ReadResult.error, [], 0⟩])) songX 0
            (songWorld false none)).errors = (songWorld false none).errors :=
  ⟨((loadData_read_error (envWith (plainLoader 10 [⟨ReadResult.error, [], 0⟩])) songX 0
      (songWorld false none) (plainLoader 10 [⟨ReadResult.error, [], 0⟩])
      SetupError.setupNoErrorStarted
      (setupLoader (envWith (plainLoader 10 [⟨ReadResult.error, [], 0⟩])) songX 0
        (songWorld false none)).2.2
      { idleTrack songX true false with
        state := { (idleTrack songX true false).state with length := 10, frequency := 48000 } }
      [] ⟨ReadResult.error, [], 0⟩ [] rfl rfl (fun _ h => nomatch h) rfl (by decide) rfl).1
      rfl rfl).1,
    ((loadData_read_error (envWith (plainLoader 10
        [⟨ReadResult.ok, [1], 1⟩, ⟨ReadResult.error, [], 0⟩])) songX 0
      (songWorld false none) (plainLoader 10
        [⟨ReadResult.ok, [1], 1⟩, ⟨ReadResult.error, [], 0⟩])
      SetupError.setupNoErrorStarted
      (setupLoader (envWith (plainLoader 10
        [⟨ReadResult.ok, [1], 1⟩, ⟨ReadResult.error, [], 0⟩])) songX 0
        (songWorld false none)).2.2
      { idleTrack songX true false with
        state := { (idleTrack songX true false).state with length := 10, frequency := 48000 } }
      [⟨ReadResult.ok, [1], 1⟩] ⟨ReadResult.error, [], 0⟩ [] rfl rfl
      (fun x h => by
        cases h with
        | head => rfl
        | tail _ h2 => nomatch h2)
      rfl (by decide) rfl).2
      (Or.inr (by decide))).2 ⟨rfl, rfl, rfl, rfl, rfl, rfl, rfl⟩⟩

/-- C13: `clear(T)` returns the id that was current for `T`, leaves the empty
id and no loader for `T`, leaves the ids and loaders of the other types as
they were, and a second `clear(T)` returns the empty id and changes nothing. -/
theorem clear_detaches (ty : AType) (w : World) :
    (clear ty w).1 = w.currentId ty
      ∧ (clear ty w).2.currentId ty = AudioMsgId.empty
      ∧ (clear ty w).2.loader ty = none
      ∧ (∀ ty2, ty2 ≠ ty → (clear ty w).2.currentId ty2 = w.currentId ty2
          ∧ (clear ty w).2.loader ty2 = w.loader ty2)
      ∧ clear ty (clear ty w).2 = (AudioMsgId.empty, (clear ty w).2) := by
  refine ⟨clear_fst ty w, by simp, by simp, ?_, ?_⟩
  · intro ty2 h
    simp [h]
  · cases ty <;> rfl

/-- C13 at a concrete state: the song slot of `songWorld` is cleared, the other
two slots are as before. -/
theorem clear_detaches_witness :
    (clear AType.song (songWorld false (some (plainLoader 10 [])))).2.currentId AType.video
        = (songWorld false (some (plainLoader 10 []))).currentId AType.video
      ∧ (clear AType.song (songWorld false (some (plainLoader 10 [])))).2.loader AType.video
        = (songWorld false (some (plainLoader 10 []))).loader AType.video :=
  (clear_detaches AType.song (songWorld false (some (plainLoader 10 [])))).2.2.2.1
    AType.video (by decide)

/-- C16: a run that marks a track fully loaded although its loader only ever
reported `Wait`.  `onStart(videoX)` makes the loader, whose first `readMore`
reports `Wait` with nothing decoded: the empty samples are saved on the loader
and the track stays loading.  `forceToBufferVideo(videoX)` and the drain it
wakes set `forceToBuffer` and call `loadData`; `readMore` reports `Wait` again,
`waiting` is false because of the flag, no samples were accumulated, and the
pass marks the track loaded, sets `state.length` to
`bufferedPosition + bufferedLength`, destroys the loader and clears the
current video id.  No error is emitted in the run. -/
theorem forced_wait_marks_loaded :
    startedWaiting.video = videoX
      ∧ startedWaiting.videoLoader.map (fun l => (l.saved, l.reads, l.force))
        = some (some ([], 0),
            [⟨ReadResult.wait, [], 0⟩, ⟨ReadResult.ok, [1, 2], 1⟩], false)
      ∧ (startedWaiting.track AType.video).map (fun t => (t.loading, t.loaded))
        = some (true, false)
      ∧ (forcedRun.track AType.video).map
          (fun t => (t.loaded, t.loading, t.state.length, t.bufferedPosition + t.bufferedLength))
        = some (true, false, 0, 0)
      ∧ forcedRun.videoLoader.isNone = true
      ∧ forcedRun.video = AudioMsgId.empty
      ∧ forcedRun.errors = [] := by
  refine ⟨rfl, rfl, rfl, rfl, rfl, rfl, rfl⟩

/-! ### A pass for an id leaves the slots of the other types alone -/

@[simp] theorem emit_slot (w : World) (e : Event) (ty : AType) :
    (w.emit e).slot ty = w.slot ty := by
  simp [World.slot]

@[simp] theorem modifyTrack_slot (w : World) (ty ty2 : AType) (f : Track → Track) :
    (w.modifyTrack ty f).slot ty2 = w.slot ty2 := by
  simp [World.slot]

@[simp] theorem setCurrentId_slot (w : World) (ty ty2 : AType) (id : AudioMsgId)
    (h : ty2 ≠ ty) : (w.setCurrentId ty id).slot ty2 = w.slot ty2 := by
  simp [World.slot, h]

@[simp] theorem setLoader_slot (w : World) (ty ty2 : AType) (l : Option Loader)
    (h : ty2 ≠ ty) : (w.setLoader ty l).slot ty2 = w.slot ty2 := by
  simp [World.slot, h]

@[simp] theorem clear_slot (ty ty2 : AType) (w : World) (h : ty2 ≠ ty) :
    (clear ty w).2.slot ty2 = w.slot ty2 := by
  simp [World.slot, h]

@[simp] theorem emitError_slot (ty ty2 : AType) (w : World) (h : ty2 ≠ ty) :
    (emitError ty w).slot ty2 = w.slot ty2 := by
  simp [emitError, h]

@[simp] theorem setStoppedState_slot (ty ty2 : AType) (st : State) (w : World) :
    (setStoppedState ty st w).slot ty2 = w.slot ty2 := by
  simp [setStoppedState]

@[simp] theorem dropStale_slot (audio : AudioMsgId) (track : Track) (w : World) (ty2 : AType)
    (h : ty2 ≠ audio.type) : (dropStale audio track w).slot ty2 = w.slot ty2 := by
  unfold dropStale
  split
  · rfl
  · split <;> simp [h]

@[simp] theorem openNew_slot (audio : AudioMsgId) (positionMs : Int) (l : Loader)
    (w : World) (ty2 : AType) : (openNew audio positionMs l w).2.2.slot ty2 = w.slot ty2 := by
  unfold openNew
  split
  · simp
  · split <;> simp

@[simp] theorem newLoader_slot (env : Env) (audio : AudioMsgId) (positionMs : Int)
    (track : Track) (w : World) (ty2 : AType) (h : ty2 ≠ audio.type) :
    (newLoader env audio positionMs track w).2.2.slot ty2 = w.slot ty2 := by
  unfold newLoader
  split
  · split <;> simp [h]
  · simp [h]

@[simp] theorem setupLoader_slot (env : Env) (audio : AudioMsgId) (positionMs : Int)
    (w : World) (ty2 : AType) (h : ty2 ≠ audio.type) :
    (setupLoader env audio positionMs w).2.2.slot ty2 = w.slot ty2 := by
  unfold setupLoader
  split
  · rfl
  · split
    · simp
    · split
      · simp
      · split
        · simp [h]
        · split <;> simp [h]

@[simp] theorem startPlayback_slot (d : DeviceEnv) (ty ty2 : AType) (track : Track)
    (w : World) (h : ty2 ≠ ty) : (startPlayback d ty track w).slot ty2 = w.slot ty2 := by
  unfold startPlayback
  split_ifs <;> simp [h]

@[simp] theorem finishPass_slot (d : DeviceEnv) (ty ty2 : AType) (finished : Bool)
    (track : Track) (w : World) (h : ty2 ≠ ty) :
    (finishPass d ty finished track w).slot ty2 = w.slot ty2 := by
  unfold finishPass
  cases finished <;> simp [h]

@[simp] theorem afterLoop_slot (d : DeviceEnv) (audio : AudioMsgId) (positionMs : Int)
    (started finished waiting : Bool) (l : Loader) (samples : List Nat) (count : Int)
    (w : World) (ty2 : AType) (h : ty2 ≠ audio.type) :
    (afterLoop d audio positionMs started finished waiting l samples count w).slot ty2
      = w.slot ty2 := by
  unfold afterLoop
  split
  · simp [h]
  · cases started <;> simp only [] <;> split_ifs <;> simp [h]

/-- `loadData` for an id leaves the current ids and loaders of the other types
as they are. -/
theorem loadData_slot (env : Env) (audio : AudioMsgId) (positionMs : Int)
    (w : World) (ty2 : AType) (h : ty2 ≠ audio.type) :
    (loadData env audio positionMs w).slot ty2 = w.slot ty2 := by
  have h1 := setupLoader_slot env audio positionMs w ty2 h
  unfold loadData
  split
  · rename_i err w1 heq
    rw [heq] at h1
    simp only [] at h1
    split <;> simp [h1, h]
  · rename_i l err w1 heq
    rw [heq] at h1
    simp only [] at h1
    simp only []
    split
    · split <;> simp [h1, h]
    · simp [h1, h]
    · simp [h1, h]

/-! ### A pass for an id leaves its own slot with that id, or empty -/

theorem startPlayback_own (d : DeviceEnv) (ty : AType) (track : Track) (w : World) :
    (startPlayback d ty track w).loader ty = none
      ∨ (startPlayback d ty track w).slot ty = w.slot ty := by
  unfold startPlayback
  split_ifs <;> simp

theorem finishPass_own (d : DeviceEnv) (ty : AType) (finished : Bool) (track : Track)
    (w : World) :
    (finishPass d ty finished track w).loader ty = none
      ∨ (finishPass d ty finished track w).slot ty = w.slot ty := by
  unfold finishPass
  cases finished
  · simp only [Bool.false_eq_true, if_false]
    rcases startPlayback_own d ty { track with loading := false }
      (w.modifyTrack ty (fun t => { t with loading := false })) with h | h
    · exact Or.inl h
    · exact Or.inr (h.trans (by simp))
  · simp only [if_true]
    rcases startPlayback_own d ty { track.markLoaded with loading := false }
      ((clear ty (w.modifyTrack ty Track.markLoaded)).2.modifyTrack ty
        (fun t => { t with loading := false })) with h | h
    · exact Or.inl h
    · left
      have h2 := congrArg Prod.snd h
      simp only [World.slot] at h2
      rw [h2]
      simp

theorem afterLoop_own (d : DeviceEnv) (audio : AudioMsgId) (positionMs : Int)
    (started finished waiting : Bool) (l : Loader) (samples : List Nat) (count : Int)
    (w : World) :
    (afterLoop d audio positionMs started finished waiting l samples count w).loader
        audio.type = none
      ∨ (afterLoop d audio positionMs started finished waiting l samples count w).currentId
        audio.type = w.currentId audio.type := by
  have key : ∀ (fin : Bool) (T : Track) (W : World),
      W.currentId audio.type = w.currentId audio.type →
      ((finishPass d audio.type fin T W).loader audio.type = none
        ∨ (finishPass d audio.type fin T W).currentId audio.type = w.currentId audio.type) := by
    intro fin T W hW
    rcases finishPass_own d audio.type fin T W with h | h
    · exact Or.inl h
    · right
      have h2 := congrArg Prod.fst h
      simp only [World.slot] at h2
      rw [h2, hW]
  unfold afterLoop
  split
  · simp
  · dsimp only
    by_cases hst : started = true ∧ d.startedOk = false
    · rw [if_pos hst]
      simp
    · rw [if_neg hst]
      by_cases hc : count ≠ 0
      · rw [if_pos hc]
        by_cases hslot : d.slotOk = false
        · rw [if_pos hslot]
          simp
        · rw [if_neg hslot]
          by_cases hidx : d.bufferIndex < 0
          · rw [if_pos hidx]
            right
            cases started <;> simp
          · rw [if_neg hidx]
            by_cases hq : d.queueOk = false
            · rw [if_pos hq]
              simp
            · rw [if_neg hq]
              refine key _ _ _ ?_
              cases started <;> simp
      · rw [if_neg hc]
        cases waiting
        · simp only [Bool.false_eq_true, if_false]
          refine key _ _ _ ?_
          cases started <;> simp
        · right
          cases started <;> simp

theorem newLoader_own (env : Env) (audio : AudioMsgId) (positionMs : Int) (track : Track)
    (w : World) :
    (newLoader env audio positionMs track w).2.2.loader audio.type = none
      ∨ (newLoader env audio positionMs track w).2.2.currentId audio.type = audio := by
  have hopen : ∀ (l : Loader) (W : World), W.currentId audio.type = audio →
      (openNew audio positionMs l W).2.2.currentId audio.type = audio := by
    intro l W hW
    have h := congrArg Prod.fst (openNew_slot audio positionMs l W audio.type)
    simp only [World.slot] at h
    rw [h, hW]
  unfold newLoader
  split
  · split
    · left
      simp
    · right
      exact hopen _ _ (by simp)
  · right
    exact hopen _ _ (by simp)

theorem setupLoader_own (env : Env) (audio : AudioMsgId) (positionMs : Int) (w : World) :
    (setupLoader env audio positionMs w).2.2.loader audio.type = none
      ∨ (setupLoader env audio positionMs w).2.2.currentId audio.type = audio
      ∨ (setupLoader env audio positionMs w).2.2.slot audio.type = w.slot audio.type := by
  unfold setupLoader
  split
  · exact Or.inr (Or.inr rfl)
  · split
    · exact Or.inr (Or.inr (by simp))
    · rename_i track _
      split
      · exact Or.inr (Or.inr (by simp))
      · split
        · rcases newLoader_own env audio positionMs track (dropStale audio track w) with h | h
          · exact Or.inl h
          · exact Or.inr (Or.inl h)
        · rename_i l0 hd
          obtain ⟨e1, _, _, _⟩ := dropStale_some audio track w l0 hd
          split <;> exact Or.inr (Or.inr (by rw [e1]))

/-- After `loadData` for an id the slot of the id's type is empty, or holds the
id, or is as it was. -/
theorem loadData_own (env : Env) (audio : AudioMsgId) (positionMs : Int) (w : World) :
    (loadData env audio positionMs w).loader audio.type = none
      ∨ (loadData env audio positionMs w).currentId audio.type = audio
      ∨ (loadData env audio positionMs w).slot audio.type = w.slot audio.type := by
  cases hs : setupLoader env audio positionMs w with
  | mk ol rest =>
    obtain ⟨err, w1⟩ := rest
    cases ol with
    | none =>
      have h1 := setupLoader_own env audio positionMs w
      rw [hs] at h1
      simp only [] at h1
      unfold loadData
      rw [hs]
      dsimp only
      split
      · left
        simp
      · exact h1
    | some l =>
      obtain ⟨hid, _, _, _⟩ := setupLoader_some env audio positionMs w l err w1 hs
      cases hexit : (decodeLoop audio.type w1 l.force l.reads l.seed.1 l.seed.2
          (decide (err = SetupError.setupNoErrorStarted))).exit with
      | errorAtStart =>
        left
        unfold loadData
        rw [hs]
        simp only [hexit]
        split <;> simp
      | changed =>
        left
        unfold loadData
        rw [hs]
        simp only [hexit]
        simp
      | left finished waiting =>
        rw [loadData_of_setup env audio positionMs w l err w1 hs _ rfl finished waiting hexit]
        rcases afterLoop_own (env.device audio) audio positionMs
          (decide (err = SetupError.setupNoErrorStarted)) finished waiting
          { l with
            reads := (decodeLoop audio.type w1 l.force l.reads l.seed.1 l.seed.2
              (decide (err = SetupError.setupNoErrorStarted))).reads
            saved := (decodeLoop audio.type w1 l.force l.reads l.seed.1 l.seed.2
              (decide (err = SetupError.setupNoErrorStarted))).saved }
          (decodeLoop audio.type w1 l.force l.reads l.seed.1 l.seed.2
            (decide (err = SetupError.setupNoErrorStarted))).samples
          (decodeLoop audio.type w1 l.force l.reads l.seed.1 l.seed.2
            (decide (err = SetupError.setupNoErrorStarted))).count
          (w1.setLoader audio.type (some { l with
            reads := (decodeLoop audio.type w1 l.force l.reads l.seed.1 l.seed.2
              (decide (err = SetupError.setupNoErrorStarted))).reads
            saved := (decodeLoop audio.type w1 l.force l.reads l.seed.1 l.seed.2
              (decide (err = SetupError.setupNoErrorStarted))).saved })) with h | h
        · exact Or.inl h
        · right
          left
          rw [h]
          simp [hid]

/-- `loadData` keeps every slot that holds a loader holding an id of its
type. -/
theorem loadData_typed (env : Env) (audio : AudioMsgId) (positionMs : Int) (w : World)
    (hw : w.slotsTyped) : (loadData env audio positionMs w).slotsTyped := by
  intro ty hsome
  by_cases hty : ty = audio.type
  · subst hty
    rcases loadData_own env audio positionMs w with h | h | h
    · rw [h] at hsome
      exact Bool.noConfusion hsome
    · rw [h]
    · have h1 := congrArg Prod.fst h
      have h2 := congrArg Prod.snd h
      simp only [World.slot] at h1 h2
      rw [h1]
      rw [h2] at hsome
      exact hw _ hsome
  · have h := loadData_slot env audio positionMs w ty hty
    have h1 := congrArg Prod.fst h
    have h2 := congrArg Prod.snd h
    simp only [World.slot] at h1 h2
    rw [h1]
    rw [h2] at hsome
    exact hw _ hsome

/-! ### The drain hands the packets of an id to the loader that holds the id -/

theorem filter_about (id : AudioMsgId) (log : List Event) :
    log.filter (Event.about id) = (log.filter Event.handsPacket).filter (Event.about id) := by
  induction log with
  | nil => rfl
  | cons e tl ih =>
    cases e <;> simp [List.filter_cons, Event.handsPacket, Event.about, ih]

theorem about_of_hands (id : AudioMsgId) (w w2 : World)
    (h : w2.log.filter Event.handsPacket = w.log.filter Event.handsPacket) :
    w2.log.filter (Event.about id) = w.log.filter (Event.about id) := by
  rw [filter_about id w2.log, h, ← filter_about]

theorem forceStep_about (env : Env) (queues : List (AudioMsgId × List Packet))
    (id k : AudioMsgId) (w : World) :
    (forceStep env queues k w).log.filter (Event.about id)
      = w.log.filter (Event.about id) :=
  about_of_hands id w _ (congrArg (fun v => v.2.2) (forceStep_videoView env queues k w))

theorem forcePass_about (env : Env) (queues : List (AudioMsgId × List Packet))
    (id : AudioMsgId) (forces : List AudioMsgId) (w : World) :
    (forces.foldl (fun acc audioId => forceStep env queues audioId acc) w).log.filter
        (Event.about id) = w.log.filter (Event.about id) :=
  about_of_hands id w _
    (congrArg (fun v => v.2.2) (forcePass_videoView env queues forces w))

theorem queueStep_about_other (env : Env) (id : AudioMsgId) (pair : AudioMsgId × List Packet)
    (w : World) (hk : pair.1 ≠ id) :
    (queueStep env pair w).log.filter (Event.about id) = w.log.filter (Event.about id) := by
  have h := congrArg (fun v => v.2.2) (queueStep_videoView env pair w)
  simp only [World.videoView] at h
  rw [filter_about id (queueStep env pair w).log, h, List.filter_append, ← filter_about]
  have hfree : ∀ ps : List Packet,
      (ps.map (Event.freePacket pair.1)).filter (Event.about id) = [] := by
    intro ps
    induction ps with
    | nil => rfl
    | cons p tl ih => simp [List.filter_cons, Event.about, hk]
  split
  · simp [List.filter_cons, Event.about, hk]
  · rw [hfree]
    simp

theorem queueStep_about_self (env : Env) (id : AudioMsgId) (ps : List Packet) (w : World)
    (ty : AType) (hs : firstSlot w id = some ty) :
    (queueStep env (id, ps) w).log.filter (Event.about id)
      = w.log.filter (Event.about id) ++ [Event.enqueuePackets id ps] := by
  have h := congrArg (fun v => v.2.2) (queueStep_videoView env (id, ps) w)
  simp only [World.videoView, hs, Option.isSome_some, if_true] at h
  rw [filter_about id (queueStep env (id, ps) w).log, h, List.filter_append, ← filter_about]
  simp [List.filter_cons, Event.about]

theorem queuePass_about (env : Env) (id : AudioMsgId) (qs : List (AudioMsgId × List Packet))
    (w : World) (h : ∀ pair ∈ qs, pair.1 ≠ id) :
    (qs.foldl (fun acc pair => queueStep env pair acc) w).log.filter (Event.about id)
      = w.log.filter (Event.about id) := by
  induction qs generalizing w with
  | nil => rfl
  | cons pair tl ih =>
    rw [List.foldl_cons, ih _ (fun q hq => h q (List.mem_cons_of_mem _ hq)),
      queueStep_about_other env id pair w (h pair (List.mem_cons_self _ _))]

/-- In a state with typed slots the slot `tryLoader` finds for an id that is
held with a loader is the slot of the id's type. -/
theorem firstSlot_typed (w : World) (id : AudioMsgId) (hw : w.slotsTyped)
    (hcur : w.currentId id.type = id) (hl : (w.loader id.type).isSome = true) :
    firstSlot w id = some id.type := by
  cases h : firstSlot w id with
  | none =>
    unfold firstSlot at h
    rw [List.find?_eq_none] at h
    have hm : slotMatches w id id.type = true := by
      unfold slotMatches
      simp [hcur, hl]
    have hin : id.type ∈ [AType.voice, AType.song, AType.video] := by
      cases id.type <;> simp
    exact absurd hm (h _ hin)
  | some ty =>
    obtain ⟨h1, l, h2⟩ := firstSlot_some w id ty h
    have h3 := hw ty (by rw [h2]; rfl)
    rw [h1] at h3
    rw [h3]

theorem holds_of_slot (w w2 : World) (id : AudioMsgId) (P : List Packet)
    (S : Option (List Nat × Int)) (h : w.holds id P S) (ht : w2.slotsTyped)
    (hs : w2.slot id.type = w.slot id.type) : w2.holds id P S := by
  have h1 := congrArg Prod.fst hs
  have h2 := congrArg Prod.snd hs
  simp only [World.slot] at h1 h2
  obtain ⟨_, hc, l, hl, hp, hsv⟩ := h
  exact ⟨ht, h1.trans hc, l, h2.trans hl, hp, hsv⟩

theorem typed_setLoader (w : World) (ty : AType) (l0 l : Loader) (hw : w.slotsTyped)
    (h0 : w.loader ty = some l0) : (w.setLoader ty (some l)).slotsTyped := by
  intro ty2 hs
  by_cases h : ty2 = ty
  · subst h
    simpa using hw ty2 (by rw [h0]; rfl)
  · simp only [setLoader_loader, if_neg h] at hs
    simpa using hw ty2 hs

theorem typed_emit (w : World) (e : Event) (hw : w.slotsTyped) : (w.emit e).slotsTyped := by
  intro ty hs
  simp only [emit_loader] at hs
  simpa using hw ty hs

/-- What a turn of either loop of `videoSoundAdded` for another id leaves of
the slot that holds `id`: the turn marks or feeds the loader of the other id
(state `w2`) and may run a pass for it. -/
theorem otherTurn_holds (env : Env) (id k : AudioMsgId) (w : World) (P : List Packet)
    (S : Option (List Nat × Int)) (hk : k ≠ id) (h : w.holds id P S) (ty : AType)
    (l l2 : Loader) (hs : firstSlot w k = some ty) (hl : w.loader ty = some l)
    (w2 : World) (h2 : ∀ ty2, w2.slot ty2 = (w.setLoader ty (some l2)).slot ty2) :
    w2.holds id P S ∧ (loadData env k 0 w2).holds id P S := by
  obtain ⟨hc, _, _⟩ := firstSlot_some w k ty hs
  have hne : id.type ≠ ty := by
    intro e
    rw [← e, h.2.1] at hc
    exact hk hc.symm
  have hkt : k.type = ty := by
    have := h.1 ty (by rw [hl]; rfl)
    rw [hc] at this
    exact this
  have hbase : w2.holds id P S := by
    refine holds_of_slot w _ id P S h ?_ ?_
    · intro ty2 hs2
      have e1 := congrArg Prod.fst (h2 ty2)
      have e2 := congrArg Prod.snd (h2 ty2)
      simp only [World.slot] at e1 e2
      rw [e1]
      rw [e2] at hs2
      exact typed_setLoader w ty l l2 h.1 hl ty2 hs2
    · exact (h2 id.type).trans (setLoader_slot w ty id.type (some l2) hne)
  refine ⟨hbase, ?_⟩
  refine holds_of_slot _ _ id P S hbase (loadData_typed env k 0 _ hbase.1) ?_
  exact loadData_slot env k 0 _ id.type (by rw [hkt]; exact hne)

theorem forceStep_other (env : Env) (queues : List (AudioMsgId × List Packet))
    (id k : AudioMsgId) (w : World) (P : List Packet) (S : Option (List Nat × Int))
    (hk : k ≠ id) (h : w.holds id P S) : (forceStep env queues k w).holds id P S := by
  unfold forceStep
  cases hs : firstSlot w k with
  | none => exact h
  | some ty =>
    obtain ⟨_, l, hl⟩ := firstSlot_some w k ty hs
    simp only [hl]
    split
    · exact (otherTurn_holds env id k w P S hk h ty l { l with force := true } hs hl _
        (fun ty2 => by simp)).2
    · exact (otherTurn_holds env id k w P S hk h ty l { l with force := true } hs hl _
        (fun ty2 => rfl)).1

theorem forceStep_self (env : Env) (queues : List (AudioMsgId × List Packet))
    (id : AudioMsgId) (w : World) (P : List Packet) (S : Option (List Nat × Int))
    (hq : ∃ pair ∈ queues, pair.1 = id) (h : w.holds id P S) :
    (forceStep env queues id w).holds id P S := by
  obtain ⟨hw, hc, l, hl, hp, hsv⟩ := h
  unfold forceStep
  rw [firstSlot_typed w id hw hc (by rw [hl]; rfl)]
  simp only [hl]
  have hcond : ¬ (l.saved.isSome = true ∧ ¬ ∃ pair ∈ queues, pair.1 = id) :=
    fun hh => hh.2 hq
  rw [if_neg hcond]
  refine ⟨typed_setLoader w id.type l _ hw hl, by simpa using hc, { l with force := true },
    by simp, hp, hsv⟩

theorem forcePass_holds (env : Env) (queues : List (AudioMsgId × List Packet))
    (id : AudioMsgId) (P : List Packet) (S : Option (List Nat × Int))
    (hq : ∃ pair ∈ queues, pair.1 = id) (forces : List AudioMsgId) (w : World)
    (h : w.holds id P S) :
    (forces.foldl (fun acc audioId => forceStep env queues audioId acc) w).holds id P S := by
  induction forces generalizing w with
  | nil => exact h
  | cons k tl ih =>
    rw [List.foldl_cons]
    by_cases hk : k = id
    · subst hk
      exact ih _ (forceStep_self env queues k w P S hq h)
    · exact ih _ (forceStep_other env queues id k w P S hk h)

theorem queueStep_other (env : Env) (id : AudioMsgId) (pair : AudioMsgId × List Packet)
    (w : World) (P : List Packet) (S : Option (List Nat × Int)) (hk : pair.1 ≠ id)
    (h : w.holds id P S) : (queueStep env pair w).holds id P S := by
  unfold queueStep
  cases hs : firstSlot w pair.1 with
  | none => exact h
  | some ty =>
    obtain ⟨_, l, hl⟩ := firstSlot_some w pair.1 ty hs
    simp only [hl]
    split
    · exact (otherTurn_holds env id pair.1 w P S hk h ty l
        { l with packets := l.packets ++ pair.2 } hs hl _ (fun ty2 => by simp)).2
    · exact (otherTurn_holds env id pair.1 w P S hk h ty l
        { l with packets := l.packets ++ pair.2 } hs hl _ (fun ty2 => by simp)).1

theorem queuePass_holds (env : Env) (id : AudioMsgId) (P : List Packet)
    (S : Option (List Nat × Int)) (qs : List (AudioMsgId × List Packet)) (w : World)
    (hq : ∀ pair ∈ qs, pair.1 ≠ id) (h : w.holds id P S) :
    (qs.foldl (fun acc pair => queueStep env pair acc) w).holds id P S := by
  induction qs generalizing w with
  | nil => exact h
  | cons pair tl ih =>
    rw [List.foldl_cons]
    exact ih _ (fun q hq2 => hq q (List.mem_cons_of_mem _ hq2))
      (queueStep_other env id pair w P S (hq pair (List.mem_cons_self _ _)) h)

/-- The turn of the queue loop for an id that is held with a loader without
saved samples: the loader gets the packets and no pass is run. -/
theorem queueStep_self (env : Env) (id : AudioMsgId) (ps : List Packet) (w : World)
    (P : List Packet) (h : w.holds id P none) :
    (queueStep env (id, ps) w).holds id (P ++ ps) none := by
  obtain ⟨hw, hc, l, hl, hp, hsv⟩ := h
  unfold queueStep
  simp only []
  rw [firstSlot_typed w id hw hc (by rw [hl]; rfl)]
  simp only [hl, hsv, Option.isSome_none, Bool.false_eq_true, if_false]
  refine ⟨typed_emit _ _ (typed_setLoader w id.type l _ hw hl), by simpa using hc,
    { l with packets := l.packets ++ ps }, by simp [hsv], by simp [hp], hsv⟩

/-- The loop over `queues` in which the id has one entry, from a state that
holds the id with a loader. -/
theorem queuePass_handover (env : Env) (id : AudioMsgId) (qa : List (AudioMsgId × List Packet))
    (ps : List Packet) (qb : List (AudioMsgId × List Packet)) (w : World) (P : List Packet)
    (S : Option (List Nat × Int)) (hqa : ∀ pair ∈ qa, pair.1 ≠ id)
    (hqb : ∀ pair ∈ qb, pair.1 ≠ id) (h : w.holds id P S) :
    ((qa ++ (id, ps) :: qb).foldl (fun acc pair => queueStep env pair acc) w).log.filter
        (Event.about id) = w.log.filter (Event.about id) ++ [Event.enqueuePackets id ps]
      ∧ (S = none →
          ((qa ++ (id, ps) :: qb).foldl (fun acc pair => queueStep env pair acc) w).holds
            id (P ++ ps) none) := by
  have h2 := queuePass_holds env id P S qa w hqa h
  have a2 := queuePass_about env id qa w hqa
  have hfs := firstSlot_typed _ id h2.1 h2.2.1
    (by obtain ⟨l, hl, _⟩ := h2.2.2; rw [hl]; rfl)
  have a3 := queueStep_about_self env id ps _ id.type hfs
  rw [List.foldl_append, List.foldl_cons]
  constructor
  · rw [queuePass_about env id qb _ hqb, a3, a2]
  · intro hS
    subst hS
    exact queuePass_holds env id (P ++ ps) none qb _ hqb (queueStep_self env id ps _ P h2)

/-- The drain, for an id that is held with a loader and has packets queued:
the only disposal of packets of the id is one `enqueuePackets` call with the
packets queued, in order; and when the loader holds no saved samples it ends
the drain in its slot with these packets appended to those it had. -/
theorem videoSoundAdded_handover (env : Env) (id : AudioMsgId) (w : World)
    (ps P : List Packet) (S : Option (List Nat × Int)) (h : w.holds id P S)
    (hnd : (w.fromVideoQueues.map Prod.fst).Nodup) (hmem : (id, ps) ∈ w.fromVideoQueues) :
    (videoSoundAdded env w).log.filter (Event.about id)
        = w.log.filter (Event.about id) ++ [Event.enqueuePackets id ps]
      ∧ (S = none → (videoSoundAdded env w).holds id (P ++ ps) none) := by
  obtain ⟨qa, qb, hsplit⟩ := List.append_of_mem hmem
  have hkeys := hnd
  rw [hsplit, List.map_append, List.map_cons, List.nodup_append] at hkeys
  obtain ⟨_, hb, hdis⟩ := hkeys
  rw [List.nodup_cons] at hb
  have hqa : ∀ pair ∈ qa, pair.1 ≠ id := by
    intro pair hp e
    have hm : pair.1 ∈ qa.map Prod.fst := List.mem_map_of_mem Prod.fst hp
    rw [e] at hm
    exact hdis hm (List.mem_cons_self _ _)
  have hqb : ∀ pair ∈ qb, pair.1 ≠ id := by
    intro pair hp e
    have hm : pair.1 ∈ qb.map Prod.fst := List.mem_map_of_mem Prod.fst hp
    rw [e] at hm
    exact hb.1 hm
  have h0 : ({ w with fromVideoQueues := [], fromVideoForceToBuffer := [] } : World).holds
      id P S := h
  have h1 := forcePass_holds env w.fromVideoQueues id P S ⟨(id, ps), hmem, rfl⟩
    w.fromVideoForceToBuffer _ h0
  have a1 := forcePass_about env w.fromVideoQueues id w.fromVideoForceToBuffer
    { w with fromVideoQueues := [], fromVideoForceToBuffer := [] }
  have hq := queuePass_handover env id qa ps qb _ P S hqa hqb h1
  rw [← hsplit, a1] at hq
  exact hq

theorem forceStep_typed (env : Env) (queues : List (AudioMsgId × List Packet))
    (k : AudioMsgId) (w : World) (hw : w.slotsTyped) :
    (forceStep env queues k w).slotsTyped := by
  unfold forceStep
  cases hs : firstSlot w k with
  | none => exact hw
  | some ty =>
    obtain ⟨_, l, hl⟩ := firstSlot_some w k ty hs
    simp only [hl]
    split
    · exact loadData_typed env k 0 _ (typed_emit _ _ (typed_setLoader w ty l _ hw hl))
    · exact typed_setLoader w ty l _ hw hl

theorem queueStep_typed (env : Env) (pair : AudioMsgId × List Packet) (w : World)
    (hw : w.slotsTyped) : (queueStep env pair w).slotsTyped := by
  unfold queueStep
  cases hs : firstSlot w pair.1 with
  | none => exact hw
  | some ty =>
    obtain ⟨_, l, hl⟩ := firstSlot_some w pair.1 ty hs
    simp only [hl]
    split
    · exact loadData_typed env pair.1 0 _
        (typed_emit _ _ (typed_emit _ _ (typed_setLoader w ty l _ hw hl)))
    · exact typed_emit _ _ (typed_setLoader w ty l _ hw hl)

theorem videoSoundAdded_typed (env : Env) (w : World) (hw : w.slotsTyped) :
    (videoSoundAdded env w).slotsTyped := by
  have hf : ∀ (forces : List AudioMsgId) (w0 : World), w0.slotsTyped →
      (forces.foldl (fun acc audioId => forceStep env w.fromVideoQueues audioId acc)
        w0).slotsTyped := by
    intro forces
    induction forces with
    | nil => exact fun _ h => h
    | cons k tl ih => exact fun w0 h => ih _ (forceStep_typed env _ k w0 h)
  have hq : ∀ (qs : List (AudioMsgId × List Packet)) (w0 : World), w0.slotsTyped →
      (qs.foldl (fun acc pair => queueStep env pair acc) w0).slotsTyped := by
    intro qs
    induction qs with
    | nil => exact fun _ h => h
    | cons pair tl ih => exact fun w0 h => ih _ (queueStep_typed env pair w0 h)
  exact hq _ _ (hf _ _ hw)

theorem push_typed (p : Push) (w : World) (hw : w.slotsTyped) : (p.apply w).slotsTyped := by
  cases p with
  | feed k pk =>
    unfold Push.apply feedFromVideo
    dsimp only
    split
    · exact typed_emit _ _ hw
    · exact hw
  | force k =>
    unfold Push.apply forceToBufferVideo
    dsimp only
    split
    · exact typed_emit _ _ hw
    · exact hw

/-- Feeds, force requests and drains keep the slots typed. -/
theorem run_typed (env : Env) (ops : List Op) (w : World) (hw : w.slotsTyped) :
    (run env ops w).slotsTyped := by
  induction ops generalizing w with
  | nil => exact hw
  | cons op tl ih =>
    cases op with
    | push p => exact ih _ (push_typed p w hw)
    | drain => exact ih _ (videoSoundAdded_typed env w hw)

/-- C5: in every sequential run of feeds, force requests and drains, and for
every id, the packets the successive drains take out for the id, followed by
those still queued at the end, are the packets queued at the start followed by
the packets fed for the id, in feed order; every drain leaves the queue and the
force-set empty; a drain disposes of exactly the packets queued for the id, in
order, each once (the queue being a map: distinct keys); a turn of the queue
loop that finds a slot holding the id with a live loader hands the packets over
by one `enqueuePackets` call; and the drain itself, when a slot holds the id
with a live loader (every slot holding ids of its own type, which runs keep),
makes exactly one disposal of packets of the id, the call `enqueuePackets` with
the packets queued for the id in their order, none being freed, and, when the
loader holds no saved samples, leaves the id in the slot with a loader whose
packets are those it had followed by the packets queued. -/
theorem videoQueue_order (env : Env) (id : AudioMsgId) (ops : List Op) (w : World) :
    drainedFor env id ops w ++ pending id (run env ops w) = pending id w ++ fedFor id ops
      ∧ (∀ w2 : World, (videoSoundAdded env w2).fromVideoQueues = []
          ∧ (videoSoundAdded env w2).fromVideoForceToBuffer = [])
      ∧ (∀ w2 : World, (w2.fromVideoQueues.map Prod.fst).Nodup →
          delivered id (videoSoundAdded env w2).log = delivered id w2.log ++ pending id w2)
      ∧ (∀ (w2 : World) (ps : List Packet) (ty : AType), firstSlot w2 id = some ty →
          (queueStep env (id, ps) w2).log.filter Event.handsPacket
            = w2.log.filter Event.handsPacket ++ [Event.enqueuePackets id ps])
      ∧ (∀ (w2 : World) (ty : AType) (l : Loader) (ps : List Packet),
          w2.slotsTyped → (w2.fromVideoQueues.map Prod.fst).Nodup →
          firstSlot w2 id = some ty → w2.loader ty = some l →
          (id, ps) ∈ w2.fromVideoQueues →
          (videoSoundAdded env w2).log.filter (Event.about id)
              = w2.log.filter (Event.about id) ++ [Event.enqueuePackets id ps]
            ∧ (l.saved = none →
                (videoSoundAdded env w2).currentId ty = id
                  ∧ ∃ l2, (videoSoundAdded env w2).loader ty = some l2
                      ∧ l2.packets = l.packets ++ ps))
      ∧ (w.slotsTyped → (run env ops w).slotsTyped) := by
  refine ⟨drained_run env id ops w, videoSoundAdded_queues env,
    fun w2 hw => videoSoundAdded_delivered env id w2 hw, ?_, ?_, run_typed env ops w⟩
  · intro w2 ps ty hs
    have h := congrArg (fun v => v.2.2) (queueStep_videoView env (id, ps) w2)
    simp only [World.videoView, hs, Option.isSome_some, if_true] at h
    exact h
  · intro w2 ty l ps hw hnd hs hl hmem
    obtain ⟨hc, _, _⟩ := firstSlot_some w2 id ty hs
    have hty : id.type = ty := by
      have := hw ty (by rw [hl]; rfl)
      rw [hc] at this
      exact this
    subst hty
    obtain ⟨h1, h2⟩ := videoSoundAdded_handover env id w2 ps l.packets l.saved
      ⟨hw, hc, l, hl, rfl, rfl⟩ hnd hmem
    refine ⟨h1, fun hsv => ?_⟩
    obtain ⟨_, c1, l2, c2, c3, _⟩ := h2 hsv
    exact ⟨c1, l2, c2, c3⟩

/-- C5 at concrete states: a drain of three packets fed for `videoX`, without
and with a loader current for `videoX`; in the second the loader ends the
drain holding the three packets in feed order. -/
theorem videoQueue_order_witness :
    delivered videoX (videoSoundAdded (envWith (plainLoader 10 [])) threeFed).log
        = delivered videoX threeFed.log ++ pending videoX threeFed
      ∧ (queueStep (envWith (plainLoader 10 [])) (videoX, [11, 12, 13])
            (videoWorld (plainLoader 10 []))).log.filter Event.handsPacket
          = (videoWorld (plainLoader 10 [])).log.filter Event.handsPacket
            ++ [Event.enqueuePackets videoX [11, 12, 13]]
      ∧ (videoSoundAdded (envWith (plainLoader 10 [])) (videoFed (plainLoader 10 []))).log.filter
            (Event.about videoX)
          = (videoFed (plainLoader 10 [])).log.filter (Event.about videoX)
            ++ [Event.enqueuePackets videoX [11, 12, 13]]
      ∧ (videoSoundAdded (envWith (plainLoader 10 []))
            (videoFed (plainLoader 10 []))).currentId AType.video = videoX
      ∧ ∃ l2, (videoSoundAdded (envWith (plainLoader 10 []))
            (videoFed (plainLoader 10 []))).loader AType.video = some l2
          ∧ l2.packets = (plainLoader 10 []).packets ++ [11, 12, 13] :=
  have h := (videoQueue_order (envWith (plainLoader 10 [])) videoX [] threeFed).2.2.2.2.1
    (videoFed (plainLoader 10 [])) AType.video (plainLoader 10 []) [11, 12, 13]
    (fun ty hs => by
      cases ty with
      | voice => exact Bool.noConfusion hs
      | song => exact Bool.noConfusion hs
      | video => rfl)
    (by decide) rfl rfl (by decide)
  ⟨(videoQueue_order (envWith (plainLoader 10 [])) videoX [] threeFed).2.2.1 threeFed
      (by decide),
    (videoQueue_order (envWith (plainLoader 10 [])) videoX [] threeFed).2.2.2.1
      (videoWorld (plainLoader 10 [])) [11, 12, 13] AType.video rfl,
    h.1, (h.2 rfl).1, (h.2 rfl).2⟩

end Media.Player
